import Mathlib

/-! Windows bridge of `flutter_zoom_meeting_sdk`.

A shallow embedding of the command dispatcher
(`flutter_zoom_meeting_sdk_plugin.cpp`), the argument reader (`arg_reader.h`),
the response builder (`zoom_response_builder.cpp`), the event-routing singleton
(`zoom_event_manager.cpp`), the label tables (`helper_enum.h`), the event sink
(`zoom_event_stream_handler.h`) and the listener adapters
(`zoom_event_listener_base.cpp`, `zoom_event_listener_auth_service.cpp`,
`zoom_event_listener_meeting_service.cpp`).

Conventions of the embedding

* The file-scope variables `sdkInitialized`, `authListener`, `meetingListener`
  and the singleton field `ZoomEventManager::event_handler_` are the fields of
  `PluginState`; every operation maps a state to a result and a new state.
* The vendor SDK is closed source.  Each call into it is appended to the log
  `PluginState.nativeCalls`, and its return value is read from a `ZoomSDK`,
  a function of the calls made so far and of the call being made.  Theorems
  quantify over every such function.
* A C++ enumeration value is its underlying integer.  The vendor header that
  assigns integers to the enumerators is not part of the repository, so the
  assignment is a parameter (`value : SDKErrorName → SDKError`, and likewise for
  the other enumerations).
* A listener or handler reports what it pushes as a list of pairs: the receiver
  (handler address or channel) and the value pushed.
* The C runtime routines `mbstowcs_s` and `wcstombs_s` are parameters of
  `StringToWString` and `WStringToString`.
* Diagnostic logging (`sLog` and friends) writes to standard output only and is
  left out.
-/

namespace FlutterZoomMeetingSdk

/-! ## `flutter::EncodableValue` -/

/-- The alternatives of the variant `flutter::EncodableValue` that the bridge
reads or writes, plus `list` as a representative of the remaining ones.
`int32` and `int64` are distinct alternatives, as in the variant. -/
inductive EncodableValue where
  | null
  | bool (b : Bool)
  | int32 (n : Int)
  | int64 (n : Int)
  | string (s : String)
  | list (xs : List EncodableValue)
  | map (m : List (EncodableValue × EncodableValue))

/-- The type `flutter::EncodableMap`, as an association list. -/
abbrev EncodableMap := List (EncodableValue × EncodableValue)

mutual
/-- Equality test on `EncodableValue`. -/
def EncodableValue.beq : EncodableValue → EncodableValue → Bool
  | .null, .null => true
  | .bool a, .bool b => a == b
  | .int32 a, .int32 b => a == b
  | .int64 a, .int64 b => a == b
  | .string a, .string b => a == b
  | .list a, .list b => EncodableValue.beqList a b
  | .map a, .map b => EncodableValue.beqMap a b
  | _, _ => false
/-- Equality test on lists of `EncodableValue`. -/
def EncodableValue.beqList : List EncodableValue → List EncodableValue → Bool
  | [], [] => true
  | x :: xs, y :: ys => EncodableValue.beq x y && EncodableValue.beqList xs ys
  | _, _ => false
/-- Equality test on association lists of `EncodableValue`. -/
def EncodableValue.beqMap :
    List (EncodableValue × EncodableValue) → List (EncodableValue × EncodableValue) → Bool
  | [], [] => true
  | (k, v) :: xs, (k2, v2) :: ys =>
      EncodableValue.beq k k2 && EncodableValue.beq v v2 && EncodableValue.beqMap xs ys
  | _, _ => false
end

/-- The lookup `std::map::find`: the value stored under `key`, if any. -/
def EncodableMap.find : EncodableMap → EncodableValue → Option EncodableValue
  | [], _ => none
  | (k, v) :: rest, key => if EncodableValue.beq k key then some v else EncodableMap.find rest key

/-- The assignment `m[key] = value` of `std::map`: overwrite the entry of `key`
when there is one, add an entry otherwise. -/
def EncodableMap.assign : EncodableMap → EncodableValue → EncodableValue → EncodableMap
  | [], key, value => [(key, value)]
  | (k, v) :: rest, key, value =>
      if EncodableValue.beq k key then (k, value) :: rest
      else (k, v) :: EncodableMap.assign rest key value

/-! ## Strings -/

/-- The type `std::wstring`: a sequence of `wchar_t` code units. -/
abbrev WString := List Nat

/-- A wide string literal of the source, as the code units of its characters. -/
def L (s : String) : WString := s.toList.map Char.toNat

/-- The function `StringToWString` of `helper.h`: a wide buffer of `str.length()`
zero words is handed to `mbstowcs_s` with capacity `size + 1`, source `str`
and count `str.size()`; the buffer is returned.  The parameter `mbstowcs_s`
gives the contents of the buffer after the call. -/
def StringToWString (mbstowcs_s : WString → Nat → String → Nat → WString) (str : String) :
    WString :=
  let wstr : WString := List.replicate str.utf8ByteSize 0
  mbstowcs_s wstr (wstr.length + 1) str str.utf8ByteSize

/-- The predicate `isspace` of the C locale. -/
def isspace (c : Char) : Bool :=
  c.toNat == 32 || (9 ≤ c.toNat && c.toNat ≤ 13)

/-- The characters seen through `c_str()`: those before the first NUL. -/
def c_str (s : String) : List Char := s.toList.takeWhile (fun c => c.toNat != 0)

/-- The value of a run of decimal digits. -/
def digitsValue (ds : List Char) : Nat := ds.foldl (fun acc c => 10 * acc + (c.toNat - 48)) 0

/-- The library function `std::stoull(str)` in base 10; `none` stands for a thrown
exception.  Leading white space is skipped, one sign is accepted, the longest
run of digits is read; no digit raises `invalid_argument`, a magnitude above
`ULLONG_MAX` raises `out_of_range`, and a minus sign negates modulo `2^64`. -/
def stoull (str : String) : Option Nat :=
  let p := (c_str str).dropWhile isspace
  let negative : Bool := match p with
    | c :: _ => c.toNat == 45
    | [] => false
  let q := match p with
    | c :: rest => if c.toNat == 45 || c.toNat == 43 then rest else p
    | [] => p
  let digits := q.takeWhile Char.isDigit
  if digits.isEmpty then none
  else if 2 ^ 64 ≤ digitsValue digits then none
  else some (if negative then (2 ^ 64 - digitsValue digits) % 2 ^ 64 else digitsValue digits)

/-- The function `StringToUINT64` of `arg_reader.h`: any exception gives 0. -/
def StringToUINT64 (str : String) : Nat :=
  match stoull str with
  | some v => v
  | none => 0

/-! ## Argument reader (`arg_reader.h`) -/

/-- The class `flutter::MethodCall`: a method name and a possibly null argument pointer. -/
structure MethodCall where
  method_name : String
  arguments : Option EncodableValue

/-- The class `ArgReader`; `args_` is null unless the arguments hold a map. -/
structure ArgReader where
  args_ : Option EncodableMap

/-- The constructor of `ArgReader`: `std::get_if<EncodableMap>(call.arguments())`. -/
def ArgReader.mk_from (call : MethodCall) : ArgReader :=
  match call.arguments with
  | some (.map m) => { args_ := some m }
  | _ => { args_ := none }

/-- The template `ArgReader::Get<T>`; `getIf` is `std::get_if<T>` on the stored value. -/
def ArgReader.Get {T : Type} (getIf : EncodableValue → Option T) (r : ArgReader) (key : String) :
    Option T :=
  match r.args_ with
  | none => none
  | some args =>
    match EncodableMap.find args (.string key) with
    | some v => getIf v
    | none => none

/-- The test `std::get_if<std::string>`. -/
def getIfString : EncodableValue → Option String
  | .string s => some s
  | _ => none

/-- The test `std::get_if<int64_t>`. -/
def getIfInt64 : EncodableValue → Option Int
  | .int64 n => some n
  | _ => none

/-- The test `std::get_if<bool>`. -/
def getIfBool : EncodableValue → Option Bool
  | .bool b => some b
  | _ => none

/-- The method `ArgReader::GetString`. -/
def ArgReader.GetString (r : ArgReader) (key : String) : Option String :=
  r.Get getIfString key

/-- The method `ArgReader::GetInt`. -/
def ArgReader.GetInt (r : ArgReader) (key : String) : Option Int :=
  r.Get getIfInt64 key

/-- The method `ArgReader::GetBool`. -/
def ArgReader.GetBool (r : ArgReader) (key : String) : Option Bool :=
  r.Get getIfBool key

/-- The method `ArgReader::GetWString`. -/
def ArgReader.GetWString (mbstowcs_s : WString → Nat → String → Nat → WString)
    (r : ArgReader) (key : String) : Option WString :=
  match r.GetString key with
  | some str => some (StringToWString mbstowcs_s str)
  | none => none

/-- The method `ArgReader::GetUINT64`; the cast of an `int64_t` to `uint64_t` is
reduction modulo `2^64`. -/
def ArgReader.GetUINT64 (r : ArgReader) (key : String) : Option Nat :=
  match r.GetString key with
  | some str => some (StringToUINT64 str)
  | none =>
    match r.GetInt key with
    | some intVal => some (intVal % 2 ^ 64).toNat
    | none => none

/-! ## `SDKError` and its labels (`helper_enum.h`) -/

/-- The type `ZOOM_SDK_NAMESPACE::SDKError`, as its underlying integer. -/
abbrev SDKError := Int

/-- The enumerators of `SDKError` that the table of `EnumToString` names. -/
inductive SDKErrorName where
  | SDKERR_SUCCESS
  | SDKERR_NO_IMPL
  | SDKERR_WRONG_USAGE
  | SDKERR_INVALID_PARAMETER
  | SDKERR_MODULE_LOAD_FAILED
  | SDKERR_MEMORY_FAILED
  | SDKERR_SERVICE_FAILED
  | SDKERR_UNINITIALIZE
  | SDKERR_UNAUTHENTICATION
  | SDKERR_NORECORDINGINPROCESS
  | SDKERR_TRANSCODER_NOFOUND
  | SDKERR_VIDEO_NOTREADY
  | SDKERR_NO_PERMISSION
  | SDKERR_UNKNOWN
  | SDKERR_OTHER_SDK_INSTANCE_RUNNING
  | SDKERR_INTERNAL_ERROR
  | SDKERR_NO_AUDIODEVICE_ISFOUND
  | SDKERR_NO_VIDEODEVICE_ISFOUND
  | SDKERR_TOO_FREQUENT_CALL
  | SDKERR_FAIL_ASSIGN_USER_PRIVILEGE
  | SDKERR_MEETING_DONT_SUPPORT_FEATURE
  | SDKERR_MEETING_NOT_SHARE_SENDER
  | SDKERR_MEETING_YOU_HAVE_NO_SHARE
  | SDKERR_MEETING_VIEWTYPE_PARAMETER_IS_WRONG
  | SDKERR_MEETING_ANNOTATION_IS_OFF
  | SDKERR_SETTING_OS_DONT_SUPPORT
  | SDKERR_EMAIL_LOGIN_IS_DISABLED
  | SDKERR_HARDWARE_NOT_MEET_FOR_VB
  | SDKERR_NEED_USER_CONFIRM_RECORD_DISCLAIMER
  | SDKERR_NO_SHARE_DATA
  | SDKERR_SHARE_CANNOT_SUBSCRIBE_MYSELF
  | SDKERR_NOT_IN_MEETING
  | SDKERR_NOT_JOIN_AUDIO
  | SDKERR_HARDWARE_DONT_SUPPORT
  | SDKERR_DOMAIN_DONT_SUPPORT
  | SDKERR_MEETING_REMOTE_CONTROL_IS_OFF
  | SDKERR_FILETRANSFER_ERROR
  deriving DecidableEq, Repr

/-- The template `ConvertEnumToString`: the label of the entry whose key is
`result`, "UNDEFINED" when there is none.  The table is the initializer list of
an `std::unordered_map`, in which the first entry of a key is the one kept. -/
def ConvertEnumToString (result : Int) : List (Int × String) → String
  | [] => "UNDEFINED"
  | (k, label) :: rest => if k = result then label else ConvertEnumToString result rest

/-- The static table `names` of `EnumToString(SDKError)`. -/
def SDKError_names (value : SDKErrorName → SDKError) : List (Int × String) :=
  [
    (value SDKErrorName.SDKERR_SUCCESS, "SUCCESS"),
    (value SDKErrorName.SDKERR_NO_IMPL, "NO_IMPL"),
    (value SDKErrorName.SDKERR_WRONG_USAGE, "WRONG_USAGE"),
    (value SDKErrorName.SDKERR_INVALID_PARAMETER, "INVALID_PARAMETER"),
    (value SDKErrorName.SDKERR_MODULE_LOAD_FAILED, "MODULE_LOAD_FAILED"),
    (value SDKErrorName.SDKERR_MEMORY_FAILED, "MEMORY_FAILED"),
    (value SDKErrorName.SDKERR_SERVICE_FAILED, "SERVICE_FAILED"),
    (value SDKErrorName.SDKERR_UNINITIALIZE, "UNINITIALIZE"),
    (value SDKErrorName.SDKERR_UNAUTHENTICATION, "UNAUTHENTICATION"),
    (value SDKErrorName.SDKERR_NORECORDINGINPROCESS, "NORECORDINGINPROCESS"),
    (value SDKErrorName.SDKERR_TRANSCODER_NOFOUND, "TRANSCODER_NOFOUND"),
    (value SDKErrorName.SDKERR_VIDEO_NOTREADY, "VIDEO_NOTREADY"),
    (value SDKErrorName.SDKERR_NO_PERMISSION, "NO_PERMISSION"),
    (value SDKErrorName.SDKERR_UNKNOWN, "UNKNOWN"),
    (value SDKErrorName.SDKERR_OTHER_SDK_INSTANCE_RUNNING, "OTHER_SDK_INSTANCE_RUNNING"),
    (value SDKErrorName.SDKERR_INTERNAL_ERROR, "INTERNAL_ERROR"),
    (value SDKErrorName.SDKERR_NO_AUDIODEVICE_ISFOUND, "NO_AUDIODEVICE_ISFOUND"),
    (value SDKErrorName.SDKERR_NO_VIDEODEVICE_ISFOUND, "NO_VIDEODEVICE_ISFOUND"),
    (value SDKErrorName.SDKERR_TOO_FREQUENT_CALL, "TOO_FREQUENT_CALL"),
    (value SDKErrorName.SDKERR_FAIL_ASSIGN_USER_PRIVILEGE, "FAIL_ASSIGN_USER_PRIVILEGE"),
    (value SDKErrorName.SDKERR_MEETING_DONT_SUPPORT_FEATURE, "MEETING_DONT_SUPPORT_FEATURE"),
    (value SDKErrorName.SDKERR_MEETING_NOT_SHARE_SENDER, "MEETING_NOT_SHARE_SENDER"),
    (value SDKErrorName.SDKERR_MEETING_YOU_HAVE_NO_SHARE, "MEETING_YOU_HAVE_NO_SHARE"),
    (value SDKErrorName.SDKERR_MEETING_VIEWTYPE_PARAMETER_IS_WRONG, "MEETING_VIEWTYPE_PARAMETER_IS_WRONG"),
    (value SDKErrorName.SDKERR_MEETING_ANNOTATION_IS_OFF, "MEETING_ANNOTATION_IS_OFF"),
    (value SDKErrorName.SDKERR_SETTING_OS_DONT_SUPPORT, "SETTING_OS_DONT_SUPPORT"),
    (value SDKErrorName.SDKERR_EMAIL_LOGIN_IS_DISABLED, "EMAIL_LOGIN_IS_DISABLED"),
    (value SDKErrorName.SDKERR_HARDWARE_NOT_MEET_FOR_VB, "HARDWARE_NOT_MEET_FOR_VB"),
    (value SDKErrorName.SDKERR_NEED_USER_CONFIRM_RECORD_DISCLAIMER, "NEED_USER_CONFIRM_RECORD_DISCLAIMER"),
    (value SDKErrorName.SDKERR_NO_SHARE_DATA, "NO_SHARE_DATA"),
    (value SDKErrorName.SDKERR_SHARE_CANNOT_SUBSCRIBE_MYSELF, "SHARE_CANNOT_SUBSCRIBE_MYSELF"),
    (value SDKErrorName.SDKERR_NOT_IN_MEETING, "NOT_IN_MEETING"),
    (value SDKErrorName.SDKERR_NOT_JOIN_AUDIO, "NOT_JOIN_AUDIO"),
    (value SDKErrorName.SDKERR_HARDWARE_DONT_SUPPORT, "HARDWARE_DONT_SUPPORT"),
    (value SDKErrorName.SDKERR_DOMAIN_DONT_SUPPORT, "DOMAIN_DONT_SUPPORT"),
    (value SDKErrorName.SDKERR_MEETING_REMOTE_CONTROL_IS_OFF, "MEETING_REMOTE_CONTROL_IS_OFF"),
    (value SDKErrorName.SDKERR_FILETRANSFER_ERROR, "FILETRANSFER_ERROR")
  ]

/-- The overload `EnumToString(ZOOM_SDK_NAMESPACE::SDKError)`. -/
def EnumToString (value : SDKErrorName → SDKError) (result : SDKError) : String :=
  ConvertEnumToString result (SDKError_names value)

/-! ## Response envelope and builder (`zoom_response.h`, `zoom_response_builder.cpp`) -/

/-- The class `ZoomResponse`. -/
structure ZoomResponse where
  platform : String
  isSuccess : Bool
  action : String
  message : String
  params : EncodableMap

/-- The class `ZoomResponseBuilder`, with the default member initializers of the header. -/
structure ZoomResponseBuilder where
  platform_ : String := "windows"
  action_ : String
  success_ : Bool := false
  message_ : String := ""
  params_ : EncodableMap := []

/-- The constructor `ZoomResponseBuilder(action)`. -/
def ZoomResponseBuilder.new (action : String) : ZoomResponseBuilder :=
  { action_ := action }

/-- The setter `ZoomResponseBuilder::Success`. -/
def ZoomResponseBuilder.Success (b : ZoomResponseBuilder) (success : Bool) : ZoomResponseBuilder :=
  { b with success_ := success }

/-- The setter `ZoomResponseBuilder::Message`. -/
def ZoomResponseBuilder.Message (b : ZoomResponseBuilder) (message : String) :
    ZoomResponseBuilder :=
  { b with message_ := message }

/-- The setter `ZoomResponseBuilder::Param`. -/
def ZoomResponseBuilder.Param (b : ZoomResponseBuilder) (key : String) (value : EncodableValue) :
    ZoomResponseBuilder :=
  { b with params_ := EncodableMap.assign b.params_ (.string key) value }

/-- The method `ZoomResponseBuilder::Build`. -/
def ZoomResponseBuilder.Build (b : ZoomResponseBuilder) : ZoomResponse :=
  { platform := b.platform_
    isSuccess := b.success_
    action := b.action_
    message := b.message_
    params := b.params_ }

/-- The method `ZoomResponse::ToEncodableMap`. -/
def ZoomResponse.ToEncodableMap (r : ZoomResponse) : EncodableMap :=
  let map : EncodableMap := []
  let map := EncodableMap.assign map (.string "platform") (.string r.platform)
  let map := EncodableMap.assign map (.string "isSuccess") (.bool r.isSuccess)
  let map := EncodableMap.assign map (.string "action") (.string r.action)
  let map := EncodableMap.assign map (.string "message") (.string r.message)
  let map := EncodableMap.assign map (.string "params") (.map r.params)
  map

/-! ## Listeners and the event-routing singleton -/

/-- A pointer to the `ZoomEventStreamHandler`: `none` is `nullptr`, `some a` the
handler at address `a`. -/
abbrev ZoomEventStreamHandlerPtr := Option Nat

/-- The class `ZoomSDKEventListenerBase`; its constructor sets the pointer to null. -/
structure ZoomSDKEventListenerBase where
  event_handler_ : ZoomEventStreamHandlerPtr := none
  deriving DecidableEq, Repr

/-- The method `ZoomSDKEventListenerBase::SetEventHandler`. -/
def ZoomSDKEventListenerBase.SetEventHandler (_l : ZoomSDKEventListenerBase)
    (handler : ZoomEventStreamHandlerPtr) : ZoomSDKEventListenerBase :=
  { event_handler_ := handler }

/-- The class `ZoomSDKEventListenerAuthService`. -/
structure ZoomSDKEventListenerAuthService where
  base : ZoomSDKEventListenerBase := {}
  deriving DecidableEq, Repr

/-- The class `ZoomSDKEventListenerMeetingService`. -/
structure ZoomSDKEventListenerMeetingService where
  base : ZoomSDKEventListenerBase := {}
  deriving DecidableEq, Repr

/-! ## Calls into the vendor SDK -/

/-- The fields of `ZOOM_SDK_NAMESPACE::InitParam` that the bridge sets. -/
structure InitParam where
  strWebDomain : Option WString
  deriving DecidableEq, Repr

/-- The fields of `ZOOM_SDK_NAMESPACE::AuthContext` that the bridge sets; a
pointer to wide characters is `none` when null, `some w` when it points to the
buffer of `w`. -/
structure AuthContext where
  jwt_token : Option WString
  deriving DecidableEq, Repr

/-- The enumeration `ZOOM_SDK_NAMESPACE::SDKUserType`. -/
inductive SDKUserType where
  | SDK_UT_NORMALUSER
  | SDK_UT_WITHOUT_LOGIN
  deriving DecidableEq, Repr

/-- The fields of `ZOOM_SDK_NAMESPACE::JoinParam` (with its member
`param.normaluserJoin`) that the bridge sets. -/
structure JoinParam where
  userType : SDKUserType
  meetingNumber : Nat
  userName : Option WString
  psw : Option WString
  isVideoOff : Bool
  isAudioOff : Bool
  webinarToken : Option WString
  deriving DecidableEq, Repr

/-- The calls the bridge makes into the vendor SDK. -/
inductive NativeCall where
  | InitSDK (initParam : InitParam)
  | CreateAuthService
  | AuthService_SetEvent (listener : ZoomSDKEventListenerAuthService)
  | SDKAuth (authContext : AuthContext)
  | CreateMeetingService
  | MeetingService_SetEvent (listener : ZoomSDKEventListenerMeetingService)
  | Join (joinParam : JoinParam)
  | CleanUPSDK
  deriving DecidableEq, Repr

/-- The vendor SDK as seen from the bridge: the `SDKError` a call returns, given
the calls made before it. -/
abbrev ZoomSDK := List NativeCall → NativeCall → SDKError

/-- The process-wide state of the bridge: the three file-scope variables of
`flutter_zoom_meeting_sdk_plugin.cpp`, the field of the `ZoomEventManager`
singleton, and the log of the calls made into the vendor SDK. -/
structure PluginState where
  sdkInitialized : Bool := false
  authListener : Option ZoomSDKEventListenerAuthService := none
  meetingListener : Option ZoomSDKEventListenerMeetingService := none
  event_handler_ : ZoomEventStreamHandlerPtr := none
  nativeCalls : List NativeCall := []
  deriving DecidableEq, Repr

/-- The method `ZoomEventManager::SetEventHandler`. -/
def ZoomEventManager.SetEventHandler (s : PluginState) (handler : ZoomEventStreamHandlerPtr) :
    PluginState :=
  { s with event_handler_ := handler }

/-- The method `ZoomEventManager::GetEventHandler`. -/
def ZoomEventManager.GetEventHandler (s : PluginState) : ZoomEventStreamHandlerPtr :=
  s.event_handler_

/-- One call into the vendor SDK: its result is read from `sdk`, and the call is logged. -/
def callNative (sdk : ZoomSDK) (call : NativeCall) (s : PluginState) : SDKError × PluginState :=
  (sdk s.nativeCalls call, { s with nativeCalls := s.nativeCalls ++ [call] })

/-! ## Command dispatcher (`flutter_zoom_meeting_sdk_plugin.cpp`) -/

/-- The function `InitZoom`. -/
def InitZoom (value : SDKErrorName → SDKError) (sdk : ZoomSDK) (s : PluginState) :
    ZoomResponse × PluginState :=
  let tag := "initZoom"
  if s.sdkInitialized then
    ((((ZoomResponseBuilder.new tag).Success true).Message "MSG_INITIALIZED").Build, s)
  else
    let initParam : InitParam := { strWebDomain := some (L "https://zoom.us") }
    let (initResult, s) := callNative sdk (.InitSDK initParam) s
    if initResult = value .SDKERR_SUCCESS then
      let s := { s with sdkInitialized := true }
      ((((((ZoomResponseBuilder.new tag).Success true).Message "MSG_INIT_SUCCESS").Param
          "statusCode" (.int32 initResult)).Param
          "statusLabel" (.string (EnumToString value initResult))).Build, s)
    else
      ((((((ZoomResponseBuilder.new tag).Success false).Message "MSG_INIT_FAILED").Param
          "statusCode" (.int32 initResult)).Param
          "statusLabel" (.string (EnumToString value initResult))).Build, s)

/-- The function `AuthZoom`. -/
def AuthZoom (value : SDKErrorName → SDKError) (sdk : ZoomSDK) (token : WString)
    (s : PluginState) : ZoomResponse × PluginState :=
  let tag := "authZoom"
  if !s.sdkInitialized then
    ((((ZoomResponseBuilder.new tag).Success false).Message "MSG_NO_YET_INITIALIZED").Build, s)
  else
    let (authServiceInitReturnVal, s) := callNative sdk .CreateAuthService s
    if authServiceInitReturnVal ≠ value .SDKERR_SUCCESS then
      ((((((ZoomResponseBuilder.new tag).Success false).Message
          "MSG_AUTH_SERVICE_NOT_AVAILABLE").Param
          "statusCode" (.int32 authServiceInitReturnVal)).Param
          "statusLabel" (.string (EnumToString value authServiceInitReturnVal))).Build, s)
    else
      let handler := ZoomEventManager.GetEventHandler s
      if handler.isNone then
        ((((ZoomResponseBuilder.new tag).Success false).Message
            "MSG_ZOOM_EVENT_MANAGER_HANDLER_NOT_AVAILABLE").Build, s)
      else
        let listener : ZoomSDKEventListenerAuthService := {}
        let listener := { listener with base := listener.base.SetEventHandler handler }
        let s := { s with authListener := some listener }
        let (_, s) := callNative sdk (.AuthService_SetEvent listener) s
        let authContext : AuthContext := { jwt_token := some token }
        let (authCallReturnValue, s) := callNative sdk (.SDKAuth authContext) s
        if authCallReturnValue = value .SDKERR_SUCCESS then
          ((((((ZoomResponseBuilder.new tag).Success true).Message "MSG_AUTH_SENT_SUCCESS").Param
              "statusCode" (.int32 authCallReturnValue)).Param
              "statusLabel" (.string (EnumToString value authCallReturnValue))).Build, s)
        else
          ((((((ZoomResponseBuilder.new tag).Success false).Message "MSG_AUTH_SENT_FAILED").Param
              "statusCode" (.int32 authCallReturnValue)).Param
              "statusLabel" (.string (EnumToString value authCallReturnValue))).Build, s)

/-- The function `JoinMeeting`. -/
def JoinMeeting (value : SDKErrorName → SDKError) (sdk : ZoomSDK) (meetingNumber : Nat)
    (password : WString) (displayName : WString) (webinarToken : Option WString)
    (s : PluginState) : ZoomResponse × PluginState :=
  let tag := "joinMeeting"
  if !s.sdkInitialized then
    ((((ZoomResponseBuilder.new tag).Success false).Message "MSG_NO_YET_INITIALIZED").Build, s)
  else
    let (meetingServiceInitReturnVal, s) := callNative sdk .CreateMeetingService s
    if meetingServiceInitReturnVal ≠ value .SDKERR_SUCCESS then
      ((((((ZoomResponseBuilder.new tag).Success false).Message
          "MSG_MEETING_SERVICE_NOT_AVAILABLE").Param
          "statusCode" (.int32 meetingServiceInitReturnVal)).Param
          "statusLabel" (.string (EnumToString value meetingServiceInitReturnVal))).Build, s)
    else
      let joinParam : JoinParam :=
        { userType := .SDK_UT_NORMALUSER
          meetingNumber := meetingNumber
          userName := some displayName
          psw := some password
          isVideoOff := false
          isAudioOff := false
          webinarToken :=
            match webinarToken with
            | some tokenStr => some tokenStr
            | none => none }
      let handler := ZoomEventManager.GetEventHandler s
      if handler.isNone then
        ((((ZoomResponseBuilder.new tag).Success false).Message
            "MSG_ZOOM_EVENT_MANAGER_HANDLER_NOT_AVAILABLE").Build, s)
      else
        let listener : ZoomSDKEventListenerMeetingService := {}
        let listener := { listener with base := listener.base.SetEventHandler handler }
        let s := { s with meetingListener := some listener }
        let (_, s) := callNative sdk (.MeetingService_SetEvent listener) s
        let (joinResult, s) := callNative sdk (.Join joinParam) s
        if joinResult = value .SDKERR_SUCCESS then
          ((((((ZoomResponseBuilder.new tag).Success true).Message "MSG_JOIN_SENT_SUCCESS").Param
              "statusCode" (.int32 joinResult)).Param
              "statusLabel" (.string (EnumToString value joinResult))).Build, s)
        else
          ((((((ZoomResponseBuilder.new tag).Success false).Message "MSG_JOIN_SENT_FAILED").Param
              "statusCode" (.int32 joinResult)).Param
              "statusLabel" (.string (EnumToString value joinResult))).Build, s)

/-- The function `UnInitZoom`. -/
def UnInitZoom (value : SDKErrorName → SDKError) (sdk : ZoomSDK) (s : PluginState) :
    ZoomResponse × PluginState :=
  let tag := "unInitZoom"
  if !s.sdkInitialized then
    ((((ZoomResponseBuilder.new tag).Success false).Message "MSG_NO_YET_INITIALIZED").Build, s)
  else
    let (cleanUpReturnVal, s) := callNative sdk .CleanUPSDK s
    let s := { s with sdkInitialized := false }
    ((((((ZoomResponseBuilder.new tag).Success
        (decide (cleanUpReturnVal = value .SDKERR_SUCCESS))).Message
        (if cleanUpReturnVal = value .SDKERR_SUCCESS then "MSG_UNINIT_SUCCESS"
         else "MSG_UNINIT_SUCCESS")).Param
        "statusCode" (.int32 cleanUpReturnVal)).Param
        "statusLabel" (.string (EnumToString value cleanUpReturnVal))).Build, s)

/-- The replies of `flutter::MethodResult`. -/
inductive MethodResult where
  | Success (result : EncodableValue)
  | Error (error_code : String) (error_message : String)
  | NotImplemented

/-- The method `FlutterZoomMeetingSdkPlugin::HandleMethodCall`: the reply issued
on `result` and the state after the call. -/
def HandleMethodCall (value : SDKErrorName → SDKError)
    (mbstowcs_s : WString → Nat → String → Nat → WString) (sdk : ZoomSDK)
    (method_call : MethodCall) (s : PluginState) : MethodResult × PluginState :=
  let methodName := method_call.method_name
  if methodName = "initZoom" then
    let (response, s) := InitZoom value sdk s
    (.Success (.map response.ToEncodableMap), s)
  else if methodName = "authZoom" then
    let reader := ArgReader.mk_from method_call
    let token := (reader.GetWString mbstowcs_s "jwtToken").getD (L "")
    let (response, s) := AuthZoom value sdk token s
    (.Success (.map response.ToEncodableMap), s)
  else if methodName = "joinMeeting" then
    let reader := ArgReader.mk_from method_call
    let meetingNumber := (reader.GetUINT64 "meetingNumber").getD 0
    let password := (reader.GetWString mbstowcs_s "password").getD (L "")
    let displayName := (reader.GetWString mbstowcs_s "displayName").getD (L "Zoom User")
    let webinarToken := reader.GetWString mbstowcs_s "webinarToken"
    let (response, s) := JoinMeeting value sdk meetingNumber password displayName webinarToken s
    (.Success (.map response.ToEncodableMap), s)
  else if methodName = "unInitZoom" then
    let (response, s) := UnInitZoom value sdk s
    (.Success (.map response.ToEncodableMap), s)
  else
    (.NotImplemented, s)

/-- The destructor of `FlutterZoomMeetingSdkPlugin`. -/
def FlutterZoomMeetingSdkPlugin.destroy (s : PluginState) : PluginState :=
  let s := ZoomEventManager.SetEventHandler s none
  let s := { s with authListener := none }
  let s := { s with meetingListener := none }
  s

/-! ## The other label tables of `helper_enum.h` -/

/-- The type `ZOOM_SDK_NAMESPACE::AuthResult`, as its underlying integer. -/
abbrev AuthResult := Int

/-- The enumerators of `AuthResult` that the table of `EnumToString` names. -/
inductive AuthResultName where
  | AUTHRET_SUCCESS
  | AUTHRET_KEYORSECRETEMPTY
  | AUTHRET_KEYORSECRETWRONG
  | AUTHRET_ACCOUNTNOTSUPPORT
  | AUTHRET_ACCOUNTNOTENABLESDK
  | AUTHRET_UNKNOWN
  | AUTHRET_SERVICE_BUSY
  | AUTHRET_NONE
  | AUTHRET_OVERTIME
  | AUTHRET_NETWORKISSUE
  | AUTHRET_CLIENT_INCOMPATIBLE
  | AUTHRET_JWTTOKENWRONG
  | AUTHRET_LIMIT_EXCEEDED_EXCEPTION
  deriving DecidableEq, Repr

/-- The static table `names` of `EnumToString(AuthResult)`. -/
def AuthResult_names (value : AuthResultName → AuthResult) : List (Int × String) :=
  [
    (value AuthResultName.AUTHRET_SUCCESS, "SUCCESS"),
    (value AuthResultName.AUTHRET_KEYORSECRETEMPTY, "KEY_OR_SECRET_EMPTY"),
    (value AuthResultName.AUTHRET_KEYORSECRETWRONG, "KEY_OR_SECRET_WRONG"),
    (value AuthResultName.AUTHRET_ACCOUNTNOTSUPPORT, "ACCOUNT_NOT_SUPPORT"),
    (value AuthResultName.AUTHRET_ACCOUNTNOTENABLESDK, "ACCOUNT_NOT_ENABLE_SDK"),
    (value AuthResultName.AUTHRET_UNKNOWN, "UNKNOWN"),
    (value AuthResultName.AUTHRET_SERVICE_BUSY, "SERVICE_BUSY"),
    (value AuthResultName.AUTHRET_NONE, "NONE"),
    (value AuthResultName.AUTHRET_OVERTIME, "TIMEOUT"),
    (value AuthResultName.AUTHRET_NETWORKISSUE, "NETWORK_ISSUE"),
    (value AuthResultName.AUTHRET_CLIENT_INCOMPATIBLE, "CLIENT_INCOMPATIBLE"),
    (value AuthResultName.AUTHRET_JWTTOKENWRONG, "JWT_TOKEN_WRONG"),
    (value AuthResultName.AUTHRET_LIMIT_EXCEEDED_EXCEPTION, "LIMIT_EXCEEDED_EXCEPTION")
  ]

/-- The overload `EnumToString(ZOOM_SDK_NAMESPACE::AuthResult)`. -/
def EnumToString_AuthResult (value : AuthResultName → AuthResult) (result : AuthResult) : String :=
  ConvertEnumToString result (AuthResult_names value)

/-- The type `ZOOM_SDK_NAMESPACE::LOGINSTATUS`, as its underlying integer. -/
abbrev LOGINSTATUS := Int

/-- The enumerators of `LOGINSTATUS` that the table of `EnumToString` names. -/
inductive LOGINSTATUSName where
  | LOGIN_IDLE
  | LOGIN_PROCESSING
  | LOGIN_SUCCESS
  | LOGIN_FAILED
  deriving DecidableEq, Repr

/-- The static table `names` of `EnumToString(LOGINSTATUS)`. -/
def LOGINSTATUS_names (value : LOGINSTATUSName → LOGINSTATUS) : List (Int × String) :=
  [
    (value LOGINSTATUSName.LOGIN_IDLE, "IDLE"),
    (value LOGINSTATUSName.LOGIN_PROCESSING, "PROCESSING"),
    (value LOGINSTATUSName.LOGIN_SUCCESS, "SUCCESS"),
    (value LOGINSTATUSName.LOGIN_FAILED, "FAILED")
  ]

/-- The overload `EnumToString(ZOOM_SDK_NAMESPACE::LOGINSTATUS)`. -/
def EnumToString_LOGINSTATUS (value : LOGINSTATUSName → LOGINSTATUS) (result : LOGINSTATUS) : String :=
  ConvertEnumToString result (LOGINSTATUS_names value)

/-- The type `ZOOM_SDK_NAMESPACE::LoginFailReason`, as its underlying integer. -/
abbrev LoginFailReason := Int

/-- The enumerators of `LoginFailReason` that the table of `EnumToString` names. -/
inductive LoginFailReasonName where
  | LoginFail_None
  | LoginFail_EmailLoginDisable
  | LoginFail_UserNotExist
  | LoginFail_WrongPassword
  | LoginFail_AccountLocked
  | LoginFail_SDKNeedUpdate
  | LoginFail_TooManyFailedAttempts
  | LoginFail_SMSCodeError
  | LoginFail_SMSCodeExpired
  | LoginFail_PhoneNumberFormatInValid
  | LoginFail_LoginTokenInvalid
  | LoginFail_UserDisagreeLoginDisclaimer
  | LoginFail_Mfa_Required
  | LoginFail_Need_Bitrthday_ask
  | LoginFail_OtherIssue
  deriving DecidableEq, Repr

/-- The static table `names` of `EnumToString(LoginFailReason)`. -/
def LoginFailReason_names (value : LoginFailReasonName → LoginFailReason) : List (Int × String) :=
  [
    (value LoginFailReasonName.LoginFail_None, "None"),
    (value LoginFailReasonName.LoginFail_EmailLoginDisable, "EmailLoginDisable"),
    (value LoginFailReasonName.LoginFail_UserNotExist, "UserNotExist"),
    (value LoginFailReasonName.LoginFail_WrongPassword, "WrongPassword"),
    (value LoginFailReasonName.LoginFail_AccountLocked, "AccountLocked"),
    (value LoginFailReasonName.LoginFail_SDKNeedUpdate, "SDKNeedUpdate"),
    (value LoginFailReasonName.LoginFail_TooManyFailedAttempts, "TooManyFailedAttempts"),
    (value LoginFailReasonName.LoginFail_SMSCodeError, "SMSCodeError"),
    (value LoginFailReasonName.LoginFail_SMSCodeExpired, "SMSCodeExpired"),
    (value LoginFailReasonName.LoginFail_PhoneNumberFormatInValid, "PhoneNumberFormatInValid"),
    (value LoginFailReasonName.LoginFail_LoginTokenInvalid, "LoginTokenInvalid"),
    (value LoginFailReasonName.LoginFail_UserDisagreeLoginDisclaimer, "UserDisagreeLoginDisclaimer"),
    (value LoginFailReasonName.LoginFail_Mfa_Required, "Mfa_Required"),
    (value LoginFailReasonName.LoginFail_Need_Bitrthday_ask, "Need_Bitrthday_ask"),
    (value LoginFailReasonName.LoginFail_OtherIssue, "OtherIssue")
  ]

/-- The overload `EnumToString(ZOOM_SDK_NAMESPACE::LoginFailReason)`. -/
def EnumToString_LoginFailReason (value : LoginFailReasonName → LoginFailReason) (result : LoginFailReason) : String :=
  ConvertEnumToString result (LoginFailReason_names value)

/-- The type `ZOOM_SDK_NAMESPACE::SDKNotificationServiceStatus`, as its underlying integer. -/
abbrev SDKNotificationServiceStatus := Int

/-- The enumerators of `SDKNotificationServiceStatus` that the table of `EnumToString` names. -/
inductive SDKNotificationServiceStatusName where
  | SDK_Notification_Service_None
  | SDK_Notification_Service_Starting
  | SDK_Notification_Service_Started
  | SDK_Notification_Service_StartFailed
  | SDK_Notification_Service_Closed
  deriving DecidableEq, Repr

/-- The static table `names` of `EnumToString(SDKNotificationServiceStatus)`. -/
def SDKNotificationServiceStatus_names (value : SDKNotificationServiceStatusName → SDKNotificationServiceStatus) : List (Int × String) :=
  [
    (value SDKNotificationServiceStatusName.SDK_Notification_Service_None, "None"),
    (value SDKNotificationServiceStatusName.SDK_Notification_Service_Starting, "Starting"),
    (value SDKNotificationServiceStatusName.SDK_Notification_Service_Started, "Started"),
    (value SDKNotificationServiceStatusName.SDK_Notification_Service_StartFailed, "StartFailed"),
    (value SDKNotificationServiceStatusName.SDK_Notification_Service_Closed, "Closed")
  ]

/-- The overload `EnumToString(ZOOM_SDK_NAMESPACE::SDKNotificationServiceStatus)`. -/
def EnumToString_SDKNotificationServiceStatus (value : SDKNotificationServiceStatusName → SDKNotificationServiceStatus) (result : SDKNotificationServiceStatus) : String :=
  ConvertEnumToString result (SDKNotificationServiceStatus_names value)

/-- The type `ZOOM_SDK_NAMESPACE::SDKNotificationServiceError`, as its underlying integer. -/
abbrev SDKNotificationServiceError := Int

/-- The enumerators of `SDKNotificationServiceError` that the table of `EnumToString` names. -/
inductive SDKNotificationServiceErrorName where
  | SDK_Notification_Service_Error_Success
  | SDK_Notification_Service_Error_Unknown
  | SDK_Notification_Service_Error_Internal_Error
  | SDK_Notification_Service_Error_Invalid_Token
  | SDK_Notification_Service_Error_Multi_Connect
  | SDK_Notification_Service_Error_Network_Issue
  | SDK_Notification_Service_Error_Max_Duration
  deriving DecidableEq, Repr

/-- The static table `names` of `EnumToString(SDKNotificationServiceError)`. -/
def SDKNotificationServiceError_names (value : SDKNotificationServiceErrorName → SDKNotificationServiceError) : List (Int × String) :=
  [
    (value SDKNotificationServiceErrorName.SDK_Notification_Service_Error_Success, "Success"),
    (value SDKNotificationServiceErrorName.SDK_Notification_Service_Error_Unknown, "Unknown"),
    (value SDKNotificationServiceErrorName.SDK_Notification_Service_Error_Internal_Error, "Internal_Error"),
    (value SDKNotificationServiceErrorName.SDK_Notification_Service_Error_Invalid_Token, "Invalid_Token"),
    (value SDKNotificationServiceErrorName.SDK_Notification_Service_Error_Multi_Connect, "Multi_Connect"),
    (value SDKNotificationServiceErrorName.SDK_Notification_Service_Error_Network_Issue, "Network_Issue"),
    (value SDKNotificationServiceErrorName.SDK_Notification_Service_Error_Max_Duration, "Max_Duration")
  ]

/-- The overload `EnumToString(ZOOM_SDK_NAMESPACE::SDKNotificationServiceError)`. -/
def EnumToString_SDKNotificationServiceError (value : SDKNotificationServiceErrorName → SDKNotificationServiceError) (result : SDKNotificationServiceError) : String :=
  ConvertEnumToString result (SDKNotificationServiceError_names value)

/-- The type `ZOOM_SDK_NAMESPACE::LoginType`, as its underlying integer. -/
abbrev LoginType := Int

/-- The enumerators of `LoginType` that the table of `EnumToString` names. -/
inductive LoginTypeName where
  | LoginType_Unknown
  | LoginType_SSO
  deriving DecidableEq, Repr

/-- The static table `names` of `EnumToString(LoginType)`. -/
def LoginType_names (value : LoginTypeName → LoginType) : List (Int × String) :=
  [
    (value LoginTypeName.LoginType_Unknown, "Unknown"),
    (value LoginTypeName.LoginType_SSO, "SSO")
  ]

/-- The overload `EnumToString(ZOOM_SDK_NAMESPACE::LoginType)`. -/
def EnumToString_LoginType (value : LoginTypeName → LoginType) (result : LoginType) : String :=
  ConvertEnumToString result (LoginType_names value)

/-- The type `ZOOM_SDK_NAMESPACE::MeetingStatus`, as its underlying integer. -/
abbrev MeetingStatus := Int

/-- The enumerators of `MeetingStatus` that the table of `EnumToString` names. -/
inductive MeetingStatusName where
  | MEETING_STATUS_IDLE
  | MEETING_STATUS_CONNECTING
  | MEETING_STATUS_WAITINGFORHOST
  | MEETING_STATUS_INMEETING
  | MEETING_STATUS_DISCONNECTING
  | MEETING_STATUS_RECONNECTING
  | MEETING_STATUS_FAILED
  | MEETING_STATUS_ENDED
  | MEETING_STATUS_UNKNOWN
  | MEETING_STATUS_LOCKED
  | MEETING_STATUS_UNLOCKED
  | MEETING_STATUS_IN_WAITING_ROOM
  | MEETING_STATUS_WEBINAR_PROMOTE
  | MEETING_STATUS_WEBINAR_DEPROMOTE
  | MEETING_STATUS_JOIN_BREAKOUT_ROOM
  | MEETING_STATUS_LEAVE_BREAKOUT_ROOM
  deriving DecidableEq, Repr

/-- The static table `names` of `EnumToString(MeetingStatus)`. -/
def MeetingStatus_names (value : MeetingStatusName → MeetingStatus) : List (Int × String) :=
  [
    (value MeetingStatusName.MEETING_STATUS_IDLE, "IDLE"),
    (value MeetingStatusName.MEETING_STATUS_CONNECTING, "CONNECTING"),
    (value MeetingStatusName.MEETING_STATUS_WAITINGFORHOST, "WAITINGFORHOST"),
    (value MeetingStatusName.MEETING_STATUS_INMEETING, "INMEETING"),
    (value MeetingStatusName.MEETING_STATUS_DISCONNECTING, "DISCONNECTING"),
    (value MeetingStatusName.MEETING_STATUS_RECONNECTING, "RECONNECTING"),
    (value MeetingStatusName.MEETING_STATUS_FAILED, "FAILED"),
    (value MeetingStatusName.MEETING_STATUS_ENDED, "ENDED"),
    (value MeetingStatusName.MEETING_STATUS_UNKNOWN, "UNKNOWN"),
    (value MeetingStatusName.MEETING_STATUS_LOCKED, "LOCKED"),
    (value MeetingStatusName.MEETING_STATUS_UNLOCKED, "UNLOCKED"),
    (value MeetingStatusName.MEETING_STATUS_IN_WAITING_ROOM, "IN_WAITING_ROOM"),
    (value MeetingStatusName.MEETING_STATUS_WEBINAR_PROMOTE, "WEBINAR_PROMOTE"),
    (value MeetingStatusName.MEETING_STATUS_WEBINAR_DEPROMOTE, "WEBINAR_DEPROMOTE"),
    (value MeetingStatusName.MEETING_STATUS_JOIN_BREAKOUT_ROOM, "JOIN_BREAKOUT_ROOM"),
    (value MeetingStatusName.MEETING_STATUS_LEAVE_BREAKOUT_ROOM, "LEAVE_BREAKOUT_ROOM")
  ]

/-- The overload `EnumToString(ZOOM_SDK_NAMESPACE::MeetingStatus)`. -/
def EnumToString_MeetingStatus (value : MeetingStatusName → MeetingStatus) (result : MeetingStatus) : String :=
  ConvertEnumToString result (MeetingStatus_names value)

/-- The type `ZOOM_SDK_NAMESPACE::MeetingFailCode`, as its underlying integer. -/
abbrev MeetingFailCode := Int

/-- The enumerators of `MeetingFailCode` that the table of `EnumToString` names. -/
inductive MeetingFailCodeName where
  | MEETING_SUCCESS
  | MEETING_FAIL_NETWORK_ERR
  | MEETING_FAIL_RECONNECT_ERR
  | MEETING_FAIL_MMR_ERR
  | MEETING_FAIL_PASSWORD_ERR
  | MEETING_FAIL_SESSION_ERR
  | MEETING_FAIL_MEETING_OVER
  | MEETING_FAIL_MEETING_NOT_START
  | MEETING_FAIL_MEETING_NOT_EXIST
  | MEETING_FAIL_MEETING_USER_FULL
  | MEETING_FAIL_CLIENT_INCOMPATIBLE
  | MEETING_FAIL_NO_MMR
  | MEETING_FAIL_CONFLOCKED
  | MEETING_FAIL_MEETING_RESTRICTED
  | MEETING_FAIL_MEETING_RESTRICTED_JBH
  | MEETING_FAIL_CANNOT_EMIT_WEBREQUEST
  | MEETING_FAIL_CANNOT_START_TOKENEXPIRE
  | SESSION_VIDEO_ERR
  | SESSION_AUDIO_AUTOSTARTERR
  | MEETING_FAIL_REGISTERWEBINAR_FULL
  | MEETING_FAIL_REGISTERWEBINAR_HOSTREGISTER
  | MEETING_FAIL_REGISTERWEBINAR_PANELISTREGISTER
  | MEETING_FAIL_REGISTERWEBINAR_DENIED_EMAIL
  | MEETING_FAIL_ENFORCE_LOGIN
  | CONF_FAIL_ZC_CERTIFICATE_CHANGED
  | CONF_FAIL_VANITY_NOT_EXIST
  | CONF_FAIL_JOIN_WEBINAR_WITHSAMEEMAIL
  | CONF_FAIL_DISALLOW_HOST_MEETING
  | MEETING_FAIL_WRITE_CONFIG_FILE
  | MEETING_FAIL_FORBID_TO_JOIN_INTERNAL_MEETING
  | CONF_FAIL_REMOVED_BY_HOST
  | MEETING_FAIL_HOST_DISALLOW_OUTSIDE_USER_JOIN
  | MEETING_FAIL_UNABLE_TO_JOIN_EXTERNAL_MEETING
  | MEETING_FAIL_BLOCKED_BY_ACCOUNT_ADMIN
  | MEETING_FAIL_NEED_SIGN_IN_FOR_PRIVATE_MEETING
  | MEETING_FAIL_APP_PRIVILEGE_TOKEN_ERROR
  | MEETING_FAIL_JMAK_USER_EMAIL_NOT_MATCH
  | MEETING_FAIL_UNKNOWN
  deriving DecidableEq, Repr

/-- The static table `names` of `EnumToString(MeetingFailCode)`. -/
def MeetingFailCode_names (value : MeetingFailCodeName → MeetingFailCode) : List (Int × String) :=
  [
    (value MeetingFailCodeName.MEETING_SUCCESS, "MEETING_SUCCESS"),
    (value MeetingFailCodeName.MEETING_FAIL_NETWORK_ERR, "MEETING_FAIL_NETWORK_ERR"),
    (value MeetingFailCodeName.MEETING_FAIL_RECONNECT_ERR, "MEETING_FAIL_RECONNECT_ERR"),
    (value MeetingFailCodeName.MEETING_FAIL_MMR_ERR, "MEETING_FAIL_MMR_ERR"),
    (value MeetingFailCodeName.MEETING_FAIL_PASSWORD_ERR, "MEETING_FAIL_PASSWORD_ERR"),
    (value MeetingFailCodeName.MEETING_FAIL_SESSION_ERR, "MEETING_FAIL_SESSION_ERR"),
    (value MeetingFailCodeName.MEETING_FAIL_MEETING_OVER, "MEETING_FAIL_MEETING_OVER"),
    (value MeetingFailCodeName.MEETING_FAIL_MEETING_NOT_START, "MEETING_FAIL_MEETING_NOT_START"),
    (value MeetingFailCodeName.MEETING_FAIL_MEETING_NOT_EXIST, "MEETING_FAIL_MEETING_NOT_EXIST"),
    (value MeetingFailCodeName.MEETING_FAIL_MEETING_USER_FULL, "MEETING_FAIL_MEETING_USER_FULL"),
    (value MeetingFailCodeName.MEETING_FAIL_CLIENT_INCOMPATIBLE, "MEETING_FAIL_CLIENT_INCOMPATIBLE"),
    (value MeetingFailCodeName.MEETING_FAIL_NO_MMR, "MEETING_FAIL_NO_MMR"),
    (value MeetingFailCodeName.MEETING_FAIL_CONFLOCKED, "MEETING_FAIL_CONFLOCKED"),
    (value MeetingFailCodeName.MEETING_FAIL_MEETING_RESTRICTED, "MEETING_FAIL_MEETING_RESTRICTED"),
    (value MeetingFailCodeName.MEETING_FAIL_MEETING_RESTRICTED_JBH, "MEETING_FAIL_MEETING_RESTRICTED_JBH"),
    (value MeetingFailCodeName.MEETING_FAIL_CANNOT_EMIT_WEBREQUEST, "MEETING_FAIL_CANNOT_EMIT_WEBREQUEST"),
    (value MeetingFailCodeName.MEETING_FAIL_CANNOT_START_TOKENEXPIRE, "MEETING_FAIL_CANNOT_START_TOKENEXPIRE"),
    (value MeetingFailCodeName.SESSION_VIDEO_ERR, "SESSION_VIDEO_ERR"),
    (value MeetingFailCodeName.SESSION_AUDIO_AUTOSTARTERR, "SESSION_AUDIO_AUTOSTARTERR"),
    (value MeetingFailCodeName.MEETING_FAIL_REGISTERWEBINAR_FULL, "MEETING_FAIL_REGISTERWEBINAR_FULL"),
    (value MeetingFailCodeName.MEETING_FAIL_REGISTERWEBINAR_HOSTREGISTER, "MEETING_FAIL_REGISTERWEBINAR_HOSTREGISTER"),
    (value MeetingFailCodeName.MEETING_FAIL_REGISTERWEBINAR_PANELISTREGISTER, "MEETING_FAIL_REGISTERWEBINAR_PANELISTREGISTER"),
    (value MeetingFailCodeName.MEETING_FAIL_REGISTERWEBINAR_DENIED_EMAIL, "MEETING_FAIL_REGISTERWEBINAR_DENIED_EMAIL"),
    (value MeetingFailCodeName.MEETING_FAIL_ENFORCE_LOGIN, "MEETING_FAIL_ENFORCE_LOGIN"),
    (value MeetingFailCodeName.CONF_FAIL_ZC_CERTIFICATE_CHANGED, "CONF_FAIL_ZC_CERTIFICATE_CHANGED"),
    (value MeetingFailCodeName.CONF_FAIL_VANITY_NOT_EXIST, "CONF_FAIL_VANITY_NOT_EXIST"),
    (value MeetingFailCodeName.CONF_FAIL_JOIN_WEBINAR_WITHSAMEEMAIL, "CONF_FAIL_JOIN_WEBINAR_WITHSAMEEMAIL"),
    (value MeetingFailCodeName.CONF_FAIL_DISALLOW_HOST_MEETING, "CONF_FAIL_DISALLOW_HOST_MEETING"),
    (value MeetingFailCodeName.MEETING_FAIL_WRITE_CONFIG_FILE, "MEETING_FAIL_WRITE_CONFIG_FILE"),
    (value MeetingFailCodeName.MEETING_FAIL_FORBID_TO_JOIN_INTERNAL_MEETING, "MEETING_FAIL_FORBID_TO_JOIN_INTERNAL_MEETING"),
    (value MeetingFailCodeName.CONF_FAIL_REMOVED_BY_HOST, "CONF_FAIL_REMOVED_BY_HOST"),
    (value MeetingFailCodeName.MEETING_FAIL_HOST_DISALLOW_OUTSIDE_USER_JOIN, "MEETING_FAIL_HOST_DISALLOW_OUTSIDE_USER_JOIN"),
    (value MeetingFailCodeName.MEETING_FAIL_UNABLE_TO_JOIN_EXTERNAL_MEETING, "MEETING_FAIL_UNABLE_TO_JOIN_EXTERNAL_MEETING"),
    (value MeetingFailCodeName.MEETING_FAIL_BLOCKED_BY_ACCOUNT_ADMIN, "MEETING_FAIL_BLOCKED_BY_ACCOUNT_ADMIN"),
    (value MeetingFailCodeName.MEETING_FAIL_NEED_SIGN_IN_FOR_PRIVATE_MEETING, "MEETING_FAIL_NEED_SIGN_IN_FOR_PRIVATE_MEETING"),
    (value MeetingFailCodeName.MEETING_FAIL_APP_PRIVILEGE_TOKEN_ERROR, "MEETING_FAIL_APP_PRIVILEGE_TOKEN_ERROR"),
    (value MeetingFailCodeName.MEETING_FAIL_JMAK_USER_EMAIL_NOT_MATCH, "MEETING_FAIL_JMAK_USER_EMAIL_NOT_MATCH"),
    (value MeetingFailCodeName.MEETING_FAIL_UNKNOWN, "MEETING_FAIL_UNKNOWN")
  ]

/-- The overload `EnumToString(ZOOM_SDK_NAMESPACE::MeetingFailCode)`. -/
def EnumToString_MeetingFailCode (value : MeetingFailCodeName → MeetingFailCode) (result : MeetingFailCode) : String :=
  ConvertEnumToString result (MeetingFailCode_names value)

/-- The type `ZOOM_SDK_NAMESPACE::MeetingEndReason`, as its underlying integer. -/
abbrev MeetingEndReason := Int

/-- The enumerators of `MeetingEndReason` that the table of `EnumToString` names. -/
inductive MeetingEndReasonName where
  | EndMeetingReason_None
  | EndMeetingReason_KickByHost
  | EndMeetingReason_EndByHost
  | EndMeetingReason_JBHTimeOut
  | EndMeetingReason_NoAttendee
  | EndMeetingReason_HostStartAnotherMeeting
  | EndMeetingReason_FreeMeetingTimeOut
  | EndMeetingReason_NetworkBroken
  deriving DecidableEq, Repr

/-- The static table `names` of `EnumToString(MeetingEndReason)`. -/
def MeetingEndReason_names (value : MeetingEndReasonName → MeetingEndReason) : List (Int × String) :=
  [
    (value MeetingEndReasonName.EndMeetingReason_None, "NONE"),
    (value MeetingEndReasonName.EndMeetingReason_KickByHost, "KICK_BY_HOST"),
    (value MeetingEndReasonName.EndMeetingReason_EndByHost, "END_BY_HOST"),
    (value MeetingEndReasonName.EndMeetingReason_JBHTimeOut, "JBH_TIME_OUT"),
    (value MeetingEndReasonName.EndMeetingReason_NoAttendee, "NO_ATTENDEE"),
    (value MeetingEndReasonName.EndMeetingReason_HostStartAnotherMeeting, "HOST_START_ANOTHER_MEETING"),
    (value MeetingEndReasonName.EndMeetingReason_FreeMeetingTimeOut, "FREE_MEETING_TIME_OUT"),
    (value MeetingEndReasonName.EndMeetingReason_NetworkBroken, "NETWORK_BROKEN")
  ]

/-- The overload `EnumToString(ZOOM_SDK_NAMESPACE::MeetingEndReason)`. -/
def EnumToString_MeetingEndReason (value : MeetingEndReasonName → MeetingEndReason) (result : MeetingEndReason) : String :=
  ConvertEnumToString result (MeetingEndReason_names value)

/-- The type `ZOOM_SDK_NAMESPACE::StatisticsWarningType`, as its underlying integer. -/
abbrev StatisticsWarningType := Int

/-- The enumerators of `StatisticsWarningType` that the table of `EnumToString` names. -/
inductive StatisticsWarningTypeName where
  | Statistics_Warning_None
  | Statistics_Warning_Network_Quality_Bad
  | Statistics_Warning_Busy_System
  deriving DecidableEq, Repr

/-- The static table `names` of `EnumToString(StatisticsWarningType)`. -/
def StatisticsWarningType_names (value : StatisticsWarningTypeName → StatisticsWarningType) : List (Int × String) :=
  [
    (value StatisticsWarningTypeName.Statistics_Warning_None, "None"),
    (value StatisticsWarningTypeName.Statistics_Warning_Network_Quality_Bad, "Network_Quality_Bad"),
    (value StatisticsWarningTypeName.Statistics_Warning_Busy_System, "Busy_System")
  ]

/-- The overload `EnumToString(ZOOM_SDK_NAMESPACE::StatisticsWarningType)`. -/
def EnumToString_StatisticsWarningType (value : StatisticsWarningTypeName → StatisticsWarningType) (result : StatisticsWarningType) : String :=
  ConvertEnumToString result (StatisticsWarningType_names value)

/-- The type `ZOOM_SDK_NAMESPACE::MeetingType`, as its underlying integer. -/
abbrev MeetingType := Int

/-- The enumerators of `MeetingType` that the table of `EnumToString` names. -/
inductive MeetingTypeName where
  | MEETING_TYPE_NONE
  | MEETING_TYPE_NORMAL
  | MEETING_TYPE_WEBINAR
  | MEETING_TYPE_BREAKOUTROOM
  deriving DecidableEq, Repr

/-- The static table `names` of `EnumToString(MeetingType)`. -/
def MeetingType_names (value : MeetingTypeName → MeetingType) : List (Int × String) :=
  [
    (value MeetingTypeName.MEETING_TYPE_NONE, "NONE"),
    (value MeetingTypeName.MEETING_TYPE_NORMAL, "NORMAL"),
    (value MeetingTypeName.MEETING_TYPE_WEBINAR, "WEBINAR"),
    (value MeetingTypeName.MEETING_TYPE_BREAKOUTROOM, "BREAKOUT_ROOM")
  ]

/-- The overload `EnumToString(ZOOM_SDK_NAMESPACE::MeetingType)`. -/
def EnumToString_MeetingType (value : MeetingTypeName → MeetingType) (result : MeetingType) : String :=
  ConvertEnumToString result (MeetingType_names value)

/-- The integers that the vendor headers assign to the enumerators, one
assignment per enumeration; the headers are not part of the repository. -/
structure EnumValues where
  SDKError : SDKErrorName → Int
  AuthResult : AuthResultName → Int
  LOGINSTATUS : LOGINSTATUSName → Int
  LoginFailReason : LoginFailReasonName → Int
  SDKNotificationServiceStatus : SDKNotificationServiceStatusName → Int
  SDKNotificationServiceError : SDKNotificationServiceErrorName → Int
  LoginType : LoginTypeName → Int
  MeetingStatus : MeetingStatusName → Int
  MeetingFailCode : MeetingFailCodeName → Int
  MeetingEndReason : MeetingEndReasonName → Int
  StatisticsWarningType : StatisticsWarningTypeName → Int
  MeetingType : MeetingTypeName → Int

/-- The overloads of `EnumToString` defined in `helper_enum.h`, in source order,
each paired with its static table. -/
def EnumToString_overloads (h : EnumValues) : List ((Int → String) × List (Int × String)) :=
  [
    (EnumToString h.SDKError, SDKError_names h.SDKError),
    (EnumToString_AuthResult h.AuthResult, AuthResult_names h.AuthResult),
    (EnumToString_LOGINSTATUS h.LOGINSTATUS, LOGINSTATUS_names h.LOGINSTATUS),
    (EnumToString_LoginFailReason h.LoginFailReason, LoginFailReason_names h.LoginFailReason),
    (EnumToString_SDKNotificationServiceStatus h.SDKNotificationServiceStatus, SDKNotificationServiceStatus_names h.SDKNotificationServiceStatus),
    (EnumToString_SDKNotificationServiceError h.SDKNotificationServiceError, SDKNotificationServiceError_names h.SDKNotificationServiceError),
    (EnumToString_LoginType h.LoginType, LoginType_names h.LoginType),
    (EnumToString_MeetingStatus h.MeetingStatus, MeetingStatus_names h.MeetingStatus),
    (EnumToString_MeetingFailCode h.MeetingFailCode, MeetingFailCode_names h.MeetingFailCode),
    (EnumToString_MeetingEndReason h.MeetingEndReason, MeetingEndReason_names h.MeetingEndReason),
    (EnumToString_StatisticsWarningType h.StatisticsWarningType, StatisticsWarningType_names h.StatisticsWarningType),
    (EnumToString_MeetingType h.MeetingType, MeetingType_names h.MeetingType)
  ]

/-! ## Event sink (`zoom_event_stream_handler.h`) -/

/-- The class `flutter::StreamHandlerError`. -/
structure StreamHandlerError where
  error_code : String
  error_message : String
  deriving DecidableEq, Repr

/-- The class `ZoomEventStreamHandler`: `event_sink_` owns at most one
`flutter::EventSink`, the outgoing channel, named here by a number; `none` is the
empty pointer. -/
structure ZoomEventStreamHandler where
  event_sink_ : Option Nat := none
  deriving DecidableEq, Repr

/-- The method `ZoomEventStreamHandler::OnListenInternal`: the channel `events`
is moved into `event_sink_`; the returned error pointer is null. -/
def ZoomEventStreamHandler.OnListenInternal (_h : ZoomEventStreamHandler)
    (_arguments : Option EncodableValue) (events : Nat) :
    Option StreamHandlerError × ZoomEventStreamHandler :=
  (none, { event_sink_ := some events })

/-- The method `ZoomEventStreamHandler::OnCancelInternal`: `event_sink_` is reset;
the returned error pointer is null. -/
def ZoomEventStreamHandler.OnCancelInternal (_h : ZoomEventStreamHandler)
    (_arguments : Option EncodableValue) : Option StreamHandlerError × ZoomEventStreamHandler :=
  (none, { event_sink_ := none })

/-- The method `ZoomEventStreamHandler::SendEvent`: the calls `Success(event)`
it makes, each with the channel that receives it. -/
def ZoomEventStreamHandler.SendEvent (h : ZoomEventStreamHandler) (event : EncodableValue) :
    List (Nat × EncodableValue) :=
  match h.event_sink_ with
  | some sink => [(sink, event)]
  | none => []

/-- One call on a `ZoomEventStreamHandler`. -/
inductive StreamHandlerCall where
  | OnListenInternal (arguments : Option EncodableValue) (events : Nat)
  | OnCancelInternal (arguments : Option EncodableValue)
  | SendEvent (event : EncodableValue)

/-- The effect of one call on a handler and on the log of deliveries made so far. -/
def ZoomEventStreamHandler.step (st : ZoomEventStreamHandler × List (Nat × EncodableValue))
    (call : StreamHandlerCall) : ZoomEventStreamHandler × List (Nat × EncodableValue) :=
  match call with
  | .OnListenInternal arguments events => ((st.1.OnListenInternal arguments events).2, st.2)
  | .OnCancelInternal arguments => ((st.1.OnCancelInternal arguments).2, st.2)
  | .SendEvent event => (st.1, st.2 ++ st.1.SendEvent event)

/-- A sequence of calls on a handler, from a handler and a log of deliveries. -/
def ZoomEventStreamHandler.run (calls : List StreamHandlerCall)
    (st : ZoomEventStreamHandler × List (Nat × EncodableValue)) :
    ZoomEventStreamHandler × List (Nat × EncodableValue) :=
  calls.foldl ZoomEventStreamHandler.step st

/-! ## Listener adapters (`zoom_event_listener_base.cpp`,
`zoom_event_listener_meeting_service.cpp`) -/

/-- The method `ZoomSDKEventListenerBase::SendEvent`: the calls
`event_handler_->SendEvent(value)` it makes, each with the address of the
handler that receives it. -/
def ZoomSDKEventListenerBase.SendEvent (l : ZoomSDKEventListenerBase) (eventName : String)
    (params : EncodableMap) : List (Nat × EncodableValue) :=
  match l.event_handler_ with
  | none => []
  | some handler =>
    let eventMap : EncodableMap := []
    let eventMap := EncodableMap.assign eventMap (.string "platform") (.string "windows")
    let eventMap := EncodableMap.assign eventMap (.string "event") (.string eventName)
    let eventMap := EncodableMap.assign eventMap (.string "oriEvent") (.string eventName)
    let eventMap := EncodableMap.assign eventMap (.string "params") (.map params)
    [(handler, .map eventMap)]

/-- The callback `ZoomSDKEventListenerMeetingService::onMeetingStatusChanged`. -/
def ZoomSDKEventListenerMeetingService.onMeetingStatusChanged
    (statusValue : MeetingStatusName → MeetingStatus)
    (failValue : MeetingFailCodeName → MeetingFailCode)
    (endValue : MeetingEndReasonName → MeetingEndReason)
    (l : ZoomSDKEventListenerMeetingService) (status : MeetingStatus) (iResult : Int) :
    List (Nat × EncodableValue) :=
  let tag := "onMeetingStatusChanged"
  let params : EncodableMap := []
  let failReason : Int :=
    if status = statusValue .MEETING_STATUS_FAILED then iResult else -99
  let failReasonName : String :=
    if status = statusValue .MEETING_STATUS_FAILED then EnumToString_MeetingFailCode failValue iResult
    else "NO_PROVIDED"
  let endReason : Int :=
    if status = statusValue .MEETING_STATUS_FAILED then -99
    else if status = statusValue .MEETING_STATUS_ENDED then iResult
    else -99
  let endReasonName : String :=
    if status = statusValue .MEETING_STATUS_FAILED then "NO_PROVIDED"
    else if status = statusValue .MEETING_STATUS_ENDED then
      EnumToString_MeetingEndReason endValue iResult
    else "NO_PROVIDED"
  let params := EncodableMap.assign params (.string "statusCode") (.int32 status)
  let params := EncodableMap.assign params (.string "statusLabel")
    (.string (EnumToString_MeetingStatus statusValue status))
  let params := EncodableMap.assign params (.string "errorCode") (.int32 failReason)
  let params := EncodableMap.assign params (.string "errorLabel") (.string failReasonName)
  let params := EncodableMap.assign params (.string "endReasonCode") (.int32 endReason)
  let params := EncodableMap.assign params (.string "endReasonLabel") (.string endReasonName)
  l.base.SendEvent tag params

/-- The callback `ZoomSDKEventListenerMeetingService::onMeetingStatisticsWarningNotification`. -/
def ZoomSDKEventListenerMeetingService.onMeetingStatisticsWarningNotification
    (typeValue : StatisticsWarningTypeName → StatisticsWarningType)
    (l : ZoomSDKEventListenerMeetingService) (type : StatisticsWarningType) :
    List (Nat × EncodableValue) :=
  let tag := "onMeetingStatisticsWarningNotification"
  let params : EncodableMap := []
  let params := EncodableMap.assign params (.string "type") (.int32 type)
  let params := EncodableMap.assign params (.string "typeName")
    (.string (EnumToString_StatisticsWarningType typeValue type))
  l.base.SendEvent tag params

/-- The function `WStringToString` of `helper.h`: a first call of `wcstombs_s`
with a null destination and count 0 gives the required size `len`; a second
call converts into a buffer of `len` bytes with count `len`; the result is the
C string in the buffer.  The parameter `wcstombs_s` takes the size of the
destination (`none` for a null destination), the source and the count, and
gives the size it reports and the C string left in the destination. -/
def WStringToString (wcstombs_s : Option Nat → WString → Nat → Nat × String) (wstr : WString) :
    String :=
  let len := (wcstombs_s none wstr 0).1
  (wcstombs_s (some len) wstr len).2

/-- The fields of `ZOOM_SDK_NAMESPACE::MeetingParameter` that the bridge reads;
the two pointers to wide characters may be null. -/
structure MeetingParameter where
  meeting_type : MeetingType
  is_view_only : Bool
  is_auto_recording_local : Bool
  is_auto_recording_cloud : Bool
  meeting_number : Nat
  meeting_topic : Option WString
  meeting_host : Option WString

/-- The callback `ZoomSDKEventListenerMeetingService::onMeetingParameterNotification`;
`meeting_param` is `none` for a null pointer.  The cast of the unsigned 64-bit
meeting number to `int64_t` is its reading as a signed number. -/
def ZoomSDKEventListenerMeetingService.onMeetingParameterNotification
    (typeValue : MeetingTypeName → MeetingType)
    (wcstombs_s : Option Nat → WString → Nat → Nat × String)
    (l : ZoomSDKEventListenerMeetingService) (meeting_param : Option MeetingParameter) :
    List (Nat × EncodableValue) :=
  let tag := "onMeetingParameterNotification"
  match meeting_param with
  | none => []
  | some meeting_param =>
    let params : EncodableMap := []
    let params := EncodableMap.assign params (.string "isAutoRecordingCloud")
      (.bool meeting_param.is_auto_recording_cloud)
    let params := EncodableMap.assign params (.string "isAutoRecordingLocal")
      (.bool meeting_param.is_auto_recording_local)
    let params := EncodableMap.assign params (.string "isViewOnly")
      (.bool meeting_param.is_view_only)
    let params := EncodableMap.assign params (.string "meetingHost")
      (.string (WStringToString wcstombs_s
        (match meeting_param.meeting_host with
         | some host => host
         | none => L "")))
    let params := EncodableMap.assign params (.string "meetingNumber")
      (.int64 (if meeting_param.meeting_number % 2 ^ 64 < 2 ^ 63
        then ((meeting_param.meeting_number % 2 ^ 64 : Nat) : Int)
        else ((meeting_param.meeting_number % 2 ^ 64 : Nat) : Int) - 2 ^ 64))
    let params := EncodableMap.assign params (.string "meetingTopic")
      (.string (WStringToString wcstombs_s
        (match meeting_param.meeting_topic with
         | some topic => topic
         | none => L "")))
    let params := EncodableMap.assign params (.string "meetingType")
      (.int32 meeting_param.meeting_type)
    let params := EncodableMap.assign params (.string "meetingTypeLabel")
      (.string (EnumToString_MeetingType typeValue meeting_param.meeting_type))
    l.base.SendEvent tag params

/-- The callback `ZoomSDKEventListenerMeetingService::onSuspendParticipantsActivities`. -/
def ZoomSDKEventListenerMeetingService.onSuspendParticipantsActivities
    (l : ZoomSDKEventListenerMeetingService) : List (Nat × EncodableValue) :=
  let tag := "onSuspendParticipantsActivities"
  let params : EncodableMap := []
  l.base.SendEvent tag params

/-- The callback `ZoomSDKEventListenerMeetingService::onAICompanionActiveChangeNotice`. -/
def ZoomSDKEventListenerMeetingService.onAICompanionActiveChangeNotice
    (l : ZoomSDKEventListenerMeetingService) (_bActive : Bool) : List (Nat × EncodableValue) :=
  let tag := "onAICompanionActiveChangeNotice"
  let params : EncodableMap := []
  l.base.SendEvent tag params

/-- The callback `ZoomSDKEventListenerMeetingService::onMeetingTopicChanged`. -/
def ZoomSDKEventListenerMeetingService.onMeetingTopicChanged
    (l : ZoomSDKEventListenerMeetingService) (_sTopic : Option WString) :
    List (Nat × EncodableValue) :=
  let tag := "onMeetingTopicChanged"
  let params : EncodableMap := []
  l.base.SendEvent tag params

/-- The callback `ZoomSDKEventListenerMeetingService::onMeetingFullToWatchLiveStream`. -/
def ZoomSDKEventListenerMeetingService.onMeetingFullToWatchLiveStream
    (l : ZoomSDKEventListenerMeetingService) (_sLiveStreamUrl : Option WString) :
    List (Nat × EncodableValue) :=
  let tag := "onMeetingFullToWatchLiveStream"
  let params : EncodableMap := []
  l.base.SendEvent tag params

/-! ## Auth listener (`zoom_event_listener_auth_service.cpp`) -/

/-- The callback `ZoomSDKEventListenerAuthService::onAuthenticationReturn`. -/
def ZoomSDKEventListenerAuthService.onAuthenticationReturn
    (l : ZoomSDKEventListenerAuthService) (authValue : AuthResultName → AuthResult)
    (ret : AuthResult) : List (Nat × EncodableValue) :=
  let tag := "onAuthenticationReturn"
  let params : EncodableMap := []
  let params := EncodableMap.assign params (.string "statusCode") (.int32 ret)
  let params := EncodableMap.assign params (.string "statusLabel")
    (.string (EnumToString_AuthResult authValue ret))
  l.base.SendEvent tag params

/-- The interface `ZOOM_SDK_NAMESPACE::IAccountInfo`, as the values its getters
`GetDisplayName` and `GetLoginType` return. -/
structure IAccountInfo where
  GetDisplayName : WString
  GetLoginType : LoginType

/-- The callback `ZoomSDKEventListenerAuthService::onLoginReturnWithReason`;
`pAccountInfo` is `none` for a null pointer. -/
def ZoomSDKEventListenerAuthService.onLoginReturnWithReason
    (l : ZoomSDKEventListenerAuthService) (statusValue : LOGINSTATUSName → LOGINSTATUS)
    (reasonValue : LoginFailReasonName → LoginFailReason)
    (loginTypeValue : LoginTypeName → LoginType)
    (wcstombs_s : Option Nat → WString → Nat → Nat × String)
    (ret : LOGINSTATUS) (pAccountInfo : Option IAccountInfo) (reason : LoginFailReason) :
    List (Nat × EncodableValue) :=
  let tag := "onLoginReturnWithReason"
  let params : EncodableMap := []
  let params := EncodableMap.assign params (.string "statusCode") (.int32 ret)
  let params := EncodableMap.assign params (.string "statusLabel")
    (.string (EnumToString_LOGINSTATUS statusValue ret))
  let params := EncodableMap.assign params (.string "failReasonCode") (.int32 reason)
  let params := EncodableMap.assign params (.string "failReasonLabel")
    (.string (EnumToString_LoginFailReason reasonValue reason))
  let accountInfo : EncodableMap := []
  let accountInfo :=
    match pAccountInfo with
    | some info =>
      let loginType := info.GetLoginType
      let displayName := info.GetDisplayName
      let accountInfo := EncodableMap.assign accountInfo (.string "loginType") (.int32 loginType)
      let accountInfo := EncodableMap.assign accountInfo (.string "loginTypeName")
        (.string (EnumToString_LoginType loginTypeValue loginType))
      EncodableMap.assign accountInfo (.string "displayName")
        (.string (WStringToString wcstombs_s displayName))
    | none => accountInfo
  let params := EncodableMap.assign params (.string "accountInfo") (.map accountInfo)
  l.base.SendEvent tag params

/-- The callback `ZoomSDKEventListenerAuthService::onLogout`. -/
def ZoomSDKEventListenerAuthService.onLogout (l : ZoomSDKEventListenerAuthService) :
    List (Nat × EncodableValue) :=
  let tag := "onLogout"
  let params : EncodableMap := []
  l.base.SendEvent tag params

/-- The callback `ZoomSDKEventListenerAuthService::onZoomIdentityExpired`. -/
def ZoomSDKEventListenerAuthService.onZoomIdentityExpired (l : ZoomSDKEventListenerAuthService) :
    List (Nat × EncodableValue) :=
  let tag := "onZoomIdentityExpired"
  let params : EncodableMap := []
  l.base.SendEvent tag params

/-- The callback `ZoomSDKEventListenerAuthService::onZoomAuthIdentityExpired`. -/
def ZoomSDKEventListenerAuthService.onZoomAuthIdentityExpired
    (l : ZoomSDKEventListenerAuthService) : List (Nat × EncodableValue) :=
  let tag := "onZoomAuthIdentityExpired"
  let params : EncodableMap := []
  l.base.SendEvent tag params

/-- The callback `ZoomSDKEventListenerAuthService::onNotificationServiceStatus`. -/
def ZoomSDKEventListenerAuthService.onNotificationServiceStatus
    (l : ZoomSDKEventListenerAuthService)
    (statusValue : SDKNotificationServiceStatusName → SDKNotificationServiceStatus)
    (errorValue : SDKNotificationServiceErrorName → SDKNotificationServiceError)
    (status : SDKNotificationServiceStatus) (error : SDKNotificationServiceError) :
    List (Nat × EncodableValue) :=
  let tag := "onNotificationServiceStatus"
  let params : EncodableMap := []
  let params := EncodableMap.assign params (.string "statusCode") (.int32 status)
  let params := EncodableMap.assign params (.string "statusLabel")
    (.string (EnumToString_SDKNotificationServiceStatus statusValue status))
  let params := EncodableMap.assign params (.string "errorCode") (.int32 error)
  let params := EncodableMap.assign params (.string "errorLabel")
    (.string (EnumToString_SDKNotificationServiceError errorValue error))
  l.base.SendEvent tag params

/-! ## Callback invocations by the vendor SDK -/

/-- One invocation of a callback of the interface `IAuthServiceEvent`, with its
arguments. -/
inductive IAuthServiceEvent where
  | onAuthenticationReturn (ret : AuthResult)
  | onLoginReturnWithReason (ret : LOGINSTATUS) (pAccountInfo : Option IAccountInfo)
      (reason : LoginFailReason)
  | onLogout
  | onZoomIdentityExpired
  | onZoomAuthIdentityExpired
  | onNotificationServiceStatus (status : SDKNotificationServiceStatus)
      (error : SDKNotificationServiceError)

/-- The name of the callback that an invocation calls. -/
def IAuthServiceEvent.name : IAuthServiceEvent → String
  | .onAuthenticationReturn _ => "onAuthenticationReturn"
  | .onLoginReturnWithReason _ _ _ => "onLoginReturnWithReason"
  | .onLogout => "onLogout"
  | .onZoomIdentityExpired => "onZoomIdentityExpired"
  | .onZoomAuthIdentityExpired => "onZoomAuthIdentityExpired"
  | .onNotificationServiceStatus _ _ => "onNotificationServiceStatus"

/-- The virtual call of an `IAuthServiceEvent` callback on the auth listener. -/
def ZoomSDKEventListenerAuthService.invoke (h : EnumValues)
    (wcstombs_s : Option Nat → WString → Nat → Nat × String)
    (l : ZoomSDKEventListenerAuthService) : IAuthServiceEvent → List (Nat × EncodableValue)
  | .onAuthenticationReturn ret => l.onAuthenticationReturn h.AuthResult ret
  | .onLoginReturnWithReason ret pAccountInfo reason =>
      l.onLoginReturnWithReason h.LOGINSTATUS h.LoginFailReason h.LoginType wcstombs_s ret
        pAccountInfo reason
  | .onLogout => l.onLogout
  | .onZoomIdentityExpired => l.onZoomIdentityExpired
  | .onZoomAuthIdentityExpired => l.onZoomAuthIdentityExpired
  | .onNotificationServiceStatus status error =>
      l.onNotificationServiceStatus h.SDKNotificationServiceStatus
        h.SDKNotificationServiceError status error

/-- One invocation of a callback of the interface `IMeetingServiceEvent` that
the meeting listener overrides, with its arguments. -/
inductive IMeetingServiceEvent where
  | onMeetingStatusChanged (status : MeetingStatus) (iResult : Int)
  | onMeetingStatisticsWarningNotification (type : StatisticsWarningType)
  | onMeetingParameterNotification (meeting_param : Option MeetingParameter)
  | onSuspendParticipantsActivities
  | onAICompanionActiveChangeNotice (bActive : Bool)
  | onMeetingTopicChanged (sTopic : Option WString)
  | onMeetingFullToWatchLiveStream (sLiveStreamUrl : Option WString)

/-- The name of the callback that an invocation calls. -/
def IMeetingServiceEvent.name : IMeetingServiceEvent → String
  | .onMeetingStatusChanged _ _ => "onMeetingStatusChanged"
  | .onMeetingStatisticsWarningNotification _ => "onMeetingStatisticsWarningNotification"
  | .onMeetingParameterNotification _ => "onMeetingParameterNotification"
  | .onSuspendParticipantsActivities => "onSuspendParticipantsActivities"
  | .onAICompanionActiveChangeNotice _ => "onAICompanionActiveChangeNotice"
  | .onMeetingTopicChanged _ => "onMeetingTopicChanged"
  | .onMeetingFullToWatchLiveStream _ => "onMeetingFullToWatchLiveStream"

/-- The virtual call of an `IMeetingServiceEvent` callback on the meeting listener. -/
def ZoomSDKEventListenerMeetingService.invoke (h : EnumValues)
    (wcstombs_s : Option Nat → WString → Nat → Nat × String)
    (l : ZoomSDKEventListenerMeetingService) :
    IMeetingServiceEvent → List (Nat × EncodableValue)
  | .onMeetingStatusChanged status iResult =>
      l.onMeetingStatusChanged h.MeetingStatus h.MeetingFailCode h.MeetingEndReason status iResult
  | .onMeetingStatisticsWarningNotification type =>
      l.onMeetingStatisticsWarningNotification h.StatisticsWarningType type
  | .onMeetingParameterNotification meeting_param =>
      l.onMeetingParameterNotification h.MeetingType wcstombs_s meeting_param
  | .onSuspendParticipantsActivities => l.onSuspendParticipantsActivities
  | .onAICompanionActiveChangeNotice bActive => l.onAICompanionActiveChangeNotice bActive
  | .onMeetingTopicChanged sTopic => l.onMeetingTopicChanged sTopic
  | .onMeetingFullToWatchLiveStream sLiveStreamUrl =>
      l.onMeetingFullToWatchLiveStream sLiveStreamUrl

/-! ## Sequences of builder calls -/

/-- One call of a fluent setter of `ZoomResponseBuilder`. -/
inductive ZoomResponseBuilderCall where
  | Success (success : Bool)
  | Message (message : String)
  | Param (key : String) (value : EncodableValue)

/-- The effect of one setter call on a builder. -/
def ZoomResponseBuilder.call (b : ZoomResponseBuilder) : ZoomResponseBuilderCall →
    ZoomResponseBuilder
  | .Success success => b.Success success
  | .Message message => b.Message message
  | .Param key value => b.Param key value

/-! # Theorems -/

mutual
/-- The equality test on `EncodableValue` decides equality. -/
theorem EncodableValue.beq_iff : ∀ a b : EncodableValue, EncodableValue.beq a b = true ↔ a = b
  | .null, b => by cases b <;> simp [EncodableValue.beq]
  | .bool a, b => by cases b <;> simp [EncodableValue.beq]
  | .int32 a, b => by cases b <;> simp [EncodableValue.beq]
  | .int64 a, b => by cases b <;> simp [EncodableValue.beq]
  | .string a, b => by cases b <;> simp [EncodableValue.beq]
  | .list a, b => by
      cases b <;> simp [EncodableValue.beq]
      exact EncodableValue.beqList_iff a _
  | .map a, b => by
      cases b <;> simp [EncodableValue.beq]
      exact EncodableValue.beqMap_iff a _
/-- The equality test on lists of `EncodableValue` decides equality. -/
theorem EncodableValue.beqList_iff :
    ∀ a b : List EncodableValue, EncodableValue.beqList a b = true ↔ a = b
  | [], b => by cases b <;> simp [EncodableValue.beqList]
  | x :: xs, b => by
      cases b with
      | nil => simp [EncodableValue.beqList]
      | cons y ys =>
        simp [EncodableValue.beqList, EncodableValue.beq_iff x y, EncodableValue.beqList_iff xs ys]
/-- The equality test on association lists of `EncodableValue` decides equality. -/
theorem EncodableValue.beqMap_iff :
    ∀ a b : List (EncodableValue × EncodableValue), EncodableValue.beqMap a b = true ↔ a = b
  | [], b => by cases b <;> simp [EncodableValue.beqMap]
  | (k, v) :: xs, b => by
      cases b with
      | nil => simp [EncodableValue.beqMap]
      | cons y ys =>
        obtain ⟨k2, v2⟩ := y
        simp [EncodableValue.beqMap, EncodableValue.beq_iff k k2, EncodableValue.beq_iff v v2,
          EncodableValue.beqMap_iff xs ys, and_assoc]
end

/-- The parameter map built by `Param("statusCode", c)` followed by
`Param("statusLabel", l)` on a fresh builder. -/
theorem status_params (action : String) (success : Bool) (message : String) (c : Int)
    (l : String) :
    (((((ZoomResponseBuilder.new action).Success success).Message message).Param
        "statusCode" (.int32 c)).Param "statusLabel" (.string l)).Build
      = { platform := "windows", isSuccess := success, action := action, message := message,
          params := [(.string "statusCode", .int32 c), (.string "statusLabel", .string l)] } := by
  simp [ZoomResponseBuilder.new, ZoomResponseBuilder.Success, ZoomResponseBuilder.Message,
    ZoomResponseBuilder.Param, ZoomResponseBuilder.Build, EncodableMap.assign, EncodableValue.beq]

/-- The envelope built without any `Param` call. -/
theorem plain_response (action : String) (success : Bool) (message : String) :
    (((ZoomResponseBuilder.new action).Success success).Message message).Build
      = { platform := "windows", isSuccess := success, action := action, message := message,
          params := [] } := by
  simp [ZoomResponseBuilder.new, ZoomResponseBuilder.Success, ZoomResponseBuilder.Message,
    ZoomResponseBuilder.Build]

/-- C1: from a state whose init flag is false, `InitZoom` reports the result `r`
of the native `InitSDK` call: when `r` is `SDKERR_SUCCESS` the flag becomes true
and the envelope is a success with message "MSG_INIT_SUCCESS"; otherwise the
flag stays false and the envelope is a failure with message "MSG_INIT_FAILED";
in both cases the params are `statusCode = int(r)` and
`statusLabel = EnumToString(r)`. -/
theorem InitZoom_reports_native_result (value : SDKErrorName → SDKError) (sdk : ZoomSDK)
    (s : PluginState) (r : SDKError) (hflag : s.sdkInitialized = false)
    (hr : sdk s.nativeCalls (.InitSDK { strWebDomain := some (L "https://zoom.us") }) = r) :
    (r = value .SDKERR_SUCCESS →
      (InitZoom value sdk s).2.sdkInitialized = true ∧
      (InitZoom value sdk s).1.isSuccess = true ∧
      (InitZoom value sdk s).1.message = "MSG_INIT_SUCCESS" ∧
      (InitZoom value sdk s).1.params =
        [(.string "statusCode", .int32 r), (.string "statusLabel", .string (EnumToString value r))]) ∧
    (r ≠ value .SDKERR_SUCCESS →
      (InitZoom value sdk s).2.sdkInitialized = false ∧
      (InitZoom value sdk s).1.isSuccess = false ∧
      (InitZoom value sdk s).1.message = "MSG_INIT_FAILED" ∧
      (InitZoom value sdk s).1.params =
        [(.string "statusCode", .int32 r), (.string "statusLabel", .string (EnumToString value r))]) := by
  subst hr
  constructor
  · intro h
    simp [InitZoom, callNative, hflag, h, status_params]
  · intro h
    simp [InitZoom, callNative, hflag, h, status_params]

/-- Witness of C1: the native init call returns 0, the value of `SDKERR_SUCCESS`. -/
theorem InitZoom_reports_native_result_witness :
    (({} : PluginState).sdkInitialized = false ∧
      (fun _ _ => 0 : ZoomSDK) ({} : PluginState).nativeCalls
        (.InitSDK { strWebDomain := some (L "https://zoom.us") }) = 0) ∧
    (InitZoom (fun e => (e.toCtorIdx : Int)) (fun _ _ => 0) {}).2.sdkInitialized = true ∧
    (InitZoom (fun e => (e.toCtorIdx : Int)) (fun _ _ => 0) {}).1.isSuccess = true ∧
    (InitZoom (fun e => (e.toCtorIdx : Int)) (fun _ _ => 0) {}).1.message = "MSG_INIT_SUCCESS" :=
  have h := (InitZoom_reports_native_result (fun e => (e.toCtorIdx : Int)) (fun _ _ => 0) {} 0
    rfl rfl).1 rfl
  ⟨⟨rfl, rfl⟩, h.1, h.2.1, h.2.2.1⟩

/-- C2: in a state whose init flag is true, `InitZoom` returns a success envelope
with action "initZoom", message "MSG_INITIALIZED" and empty params, and leaves
the whole state as it was: no native call is logged (so `InitSDK` is not
invoked) and the init flag is still true. -/
theorem InitZoom_already_initialized (value : SDKErrorName → SDKError) (sdk : ZoomSDK)
    (s : PluginState) (hflag : s.sdkInitialized = true) :
    (InitZoom value sdk s).1.isSuccess = true ∧
    (InitZoom value sdk s).1.action = "initZoom" ∧
    (InitZoom value sdk s).1.message = "MSG_INITIALIZED" ∧
    (InitZoom value sdk s).1.params = [] ∧
    (InitZoom value sdk s).2.nativeCalls = s.nativeCalls ∧
    (InitZoom value sdk s).2.sdkInitialized = true ∧
    (InitZoom value sdk s).2 = s := by
  simp [InitZoom, hflag, plain_response]

/-- Witness of C2: an initialized state with one earlier native call. -/
theorem InitZoom_already_initialized_witness :
    ({ sdkInitialized := true, nativeCalls := [.CreateAuthService] } : PluginState).sdkInitialized
      = true ∧
    (InitZoom (fun e => (e.toCtorIdx : Int)) (fun _ _ => 1)
      { sdkInitialized := true, nativeCalls := [.CreateAuthService] }).1.message
      = "MSG_INITIALIZED" ∧
    (InitZoom (fun e => (e.toCtorIdx : Int)) (fun _ _ => 1)
      { sdkInitialized := true, nativeCalls := [.CreateAuthService] }).2.nativeCalls
      = [.CreateAuthService] :=
  have h := InitZoom_already_initialized (fun e => (e.toCtorIdx : Int)) (fun _ _ => 1)
    { sdkInitialized := true, nativeCalls := [.CreateAuthService] } rfl
  ⟨rfl, h.2.2.1, h.2.2.2.2.1⟩

/-- Counterexample to C3 as stated: with the init flag false and a native init
call that returns 1 where `SDKERR_SUCCESS` is 0, it is not the case that two
consecutive `InitZoom` calls both succeed with the second one answering
"MSG_INITIALIZED". -/
theorem InitZoom_twice_counterexample :
    ¬ ((InitZoom (fun e => (e.toCtorIdx : Int)) (fun _ _ => 1) {}).1.isSuccess = true ∧
       (InitZoom (fun e => (e.toCtorIdx : Int)) (fun _ _ => 1)
          (InitZoom (fun e => (e.toCtorIdx : Int)) (fun _ _ => 1) {}).2).1.isSuccess = true ∧
       (InitZoom (fun e => (e.toCtorIdx : Int)) (fun _ _ => 1)
          (InitZoom (fun e => (e.toCtorIdx : Int)) (fun _ _ => 1) {}).2).1.message
          = "MSG_INITIALIZED") := by
  decide

/-- C3 (amended): the first of two consecutive `InitZoom` calls succeeds exactly
when the init flag was already true or the native init call returned
`SDKERR_SUCCESS`; whenever the first call succeeds, the second call succeeds
too, its message is "MSG_INITIALIZED", and it makes no native call. -/
theorem InitZoom_twice (value : SDKErrorName → SDKError) (sdk : ZoomSDK) (s : PluginState) :
    ((InitZoom value sdk s).1.isSuccess = true ↔
      (s.sdkInitialized = true ∨
        sdk s.nativeCalls (.InitSDK { strWebDomain := some (L "https://zoom.us") })
          = value .SDKERR_SUCCESS)) ∧
    ((InitZoom value sdk s).1.isSuccess = true →
      (InitZoom value sdk (InitZoom value sdk s).2).1.isSuccess = true ∧
      (InitZoom value sdk (InitZoom value sdk s).2).1.message = "MSG_INITIALIZED" ∧
      (InitZoom value sdk (InitZoom value sdk s).2).2 = (InitZoom value sdk s).2) := by
  by_cases hflag : s.sdkInitialized = true
  · simp [InitZoom, hflag, plain_response]
  · by_cases hr : sdk s.nativeCalls (.InitSDK { strWebDomain := some (L "https://zoom.us") })
        = value .SDKERR_SUCCESS
    · simp [InitZoom, callNative, hflag, hr, status_params, plain_response]
    · simp [InitZoom, callNative, hflag, hr, status_params]

/-- Witness of C3 (amended): the first call initializes the SDK, the second
answers "MSG_INITIALIZED". -/
theorem InitZoom_twice_witness :
    (InitZoom (fun e => (e.toCtorIdx : Int)) (fun _ _ => 0) {}).1.isSuccess = true ∧
    (InitZoom (fun e => (e.toCtorIdx : Int)) (fun _ _ => 0)
      (InitZoom (fun e => (e.toCtorIdx : Int)) (fun _ _ => 0) {}).2).1.isSuccess = true ∧
    (InitZoom (fun e => (e.toCtorIdx : Int)) (fun _ _ => 0)
      (InitZoom (fun e => (e.toCtorIdx : Int)) (fun _ _ => 0) {}).2).1.message
      = "MSG_INITIALIZED" :=
  have h := (InitZoom_twice (fun e => (e.toCtorIdx : Int)) (fun _ _ => 0) {}).2 (by decide)
  ⟨by decide, h.1, h.2.1⟩

/-- C4: in a state whose init flag is false, for every token, meeting number,
password, display name, optional webinar token and sink registration,
`AuthZoom` and `JoinMeeting` each return a failure envelope with message
"MSG_NO_YET_INITIALIZED" and empty params, and leave the state as it was: no
native call is logged, and the init flag and both listeners are unchanged. -/
theorem AuthZoom_JoinMeeting_not_initialized (value : SDKErrorName → SDKError) (sdk : ZoomSDK)
    (s : PluginState) (token : WString) (meetingNumber : Nat) (password displayName : WString)
    (webinarToken : Option WString) (hflag : s.sdkInitialized = false) :
    ((AuthZoom value sdk token s).1.isSuccess = false ∧
      (AuthZoom value sdk token s).1.message = "MSG_NO_YET_INITIALIZED" ∧
      (AuthZoom value sdk token s).1.params = [] ∧
      (AuthZoom value sdk token s).2.nativeCalls = s.nativeCalls ∧
      (AuthZoom value sdk token s).2.sdkInitialized = s.sdkInitialized ∧
      (AuthZoom value sdk token s).2.authListener = s.authListener ∧
      (AuthZoom value sdk token s).2.meetingListener = s.meetingListener ∧
      (AuthZoom value sdk token s).2 = s) ∧
    ((JoinMeeting value sdk meetingNumber password displayName webinarToken s).1.isSuccess
        = false ∧
      (JoinMeeting value sdk meetingNumber password displayName webinarToken s).1.message
        = "MSG_NO_YET_INITIALIZED" ∧
      (JoinMeeting value sdk meetingNumber password displayName webinarToken s).1.params = [] ∧
      (JoinMeeting value sdk meetingNumber password displayName webinarToken s).2.nativeCalls
        = s.nativeCalls ∧
      (JoinMeeting value sdk meetingNumber password displayName webinarToken s).2.sdkInitialized
        = s.sdkInitialized ∧
      (JoinMeeting value sdk meetingNumber password displayName webinarToken s).2.authListener
        = s.authListener ∧
      (JoinMeeting value sdk meetingNumber password displayName webinarToken s).2.meetingListener
        = s.meetingListener ∧
      (JoinMeeting value sdk meetingNumber password displayName webinarToken s).2 = s) := by
  simp [AuthZoom, JoinMeeting, hflag, plain_response]

/-- Witness of C4: a state with a registered sink and existing listeners, never
initialized. -/
theorem AuthZoom_JoinMeeting_not_initialized_witness :
    ({ event_handler_ := some 7, authListener := some {} } : PluginState).sdkInitialized = false ∧
    (AuthZoom (fun e => (e.toCtorIdx : Int)) (fun _ _ => 0) (L "jwt")
      { event_handler_ := some 7, authListener := some {} }).1.message
      = "MSG_NO_YET_INITIALIZED" ∧
    (JoinMeeting (fun e => (e.toCtorIdx : Int)) (fun _ _ => 0) 123456 (L "pw") (L "me") none
      { event_handler_ := some 7, authListener := some {} }).1.message
      = "MSG_NO_YET_INITIALIZED" :=
  have h := AuthZoom_JoinMeeting_not_initialized (fun e => (e.toCtorIdx : Int)) (fun _ _ => 0)
    { event_handler_ := some 7, authListener := some {} } (L "jwt") 123456 (L "pw") (L "me") none
    rfl
  ⟨rfl, h.1.2.1, h.2.2.1⟩

/-- C5: with the init flag false, `UnInitZoom` returns a failure envelope with
message "MSG_NO_YET_INITIALIZED", logs no native call and leaves the flag
false; with the init flag true it makes exactly the native teardown call
`CleanUPSDK` and, whatever that call returns, the init flag is false afterwards. -/
theorem UnInitZoom_flag (value : SDKErrorName → SDKError) (sdk : ZoomSDK) (s : PluginState) :
    (s.sdkInitialized = false →
      (UnInitZoom value sdk s).1.isSuccess = false ∧
      (UnInitZoom value sdk s).1.message = "MSG_NO_YET_INITIALIZED" ∧
      (UnInitZoom value sdk s).2.nativeCalls = s.nativeCalls ∧
      (UnInitZoom value sdk s).2.sdkInitialized = false) ∧
    (s.sdkInitialized = true →
      (UnInitZoom value sdk s).2.nativeCalls = s.nativeCalls ++ [.CleanUPSDK] ∧
      (UnInitZoom value sdk s).2.sdkInitialized = false) := by
  constructor
  · intro hflag
    simp [UnInitZoom, hflag, plain_response]
  · intro hflag
    simp [UnInitZoom, callNative, hflag]

/-- Witness of C5: teardown of an initialized state whose native cleanup fails. -/
theorem UnInitZoom_flag_witness :
    ({ sdkInitialized := true } : PluginState).sdkInitialized = true ∧
    (UnInitZoom (fun e => (e.toCtorIdx : Int)) (fun _ _ => 3)
      { sdkInitialized := true }).2.nativeCalls = [] ++ [.CleanUPSDK] ∧
    (UnInitZoom (fun e => (e.toCtorIdx : Int)) (fun _ _ => 3)
      { sdkInitialized := true }).2.sdkInitialized = false :=
  ⟨rfl, (UnInitZoom_flag (fun e => (e.toCtorIdx : Int)) (fun _ _ => 3)
    { sdkInitialized := true }).2 rfl⟩

/-- C6: with the init flag true, for the result `r` of the native cleanup call,
the envelope of `UnInitZoom` has `isSuccess = true` if and only if `r` is
`SDKERR_SUCCESS`, and its params are exactly `statusCode = int(r)` and
`statusLabel = EnumToString(r)`. -/
theorem UnInitZoom_reports_native_result (value : SDKErrorName → SDKError) (sdk : ZoomSDK)
    (s : PluginState) (r : SDKError) (hflag : s.sdkInitialized = true)
    (hr : sdk s.nativeCalls .CleanUPSDK = r) :
    ((UnInitZoom value sdk s).1.isSuccess = true ↔ r = value .SDKERR_SUCCESS) ∧
    (UnInitZoom value sdk s).1.params =
      [(.string "statusCode", .int32 r), (.string "statusLabel", .string (EnumToString value r))] := by
  subst hr
  simp [UnInitZoom, callNative, hflag, status_params]

/-- Witness of C6: the native cleanup returns 3, which is not `SDKERR_SUCCESS`. -/
theorem UnInitZoom_reports_native_result_witness :
    (({ sdkInitialized := true } : PluginState).sdkInitialized = true ∧
      (fun _ _ => 3 : ZoomSDK) ({ sdkInitialized := true } : PluginState).nativeCalls
        .CleanUPSDK = 3) ∧
    (UnInitZoom (fun e => (e.toCtorIdx : Int)) (fun _ _ => 3)
      { sdkInitialized := true }).1.params =
      [(.string "statusCode", .int32 3),
       (.string "statusLabel", .string (EnumToString (fun e => (e.toCtorIdx : Int)) 3))] :=
  ⟨⟨rfl, rfl⟩, (UnInitZoom_reports_native_result (fun e => (e.toCtorIdx : Int)) (fun _ _ => 3)
    { sdkInitialized := true } 3 rfl rfl).2⟩

/-- Counterexample to C7 as stated: with the init flag true and no sink
registered, `AuthZoom` and `JoinMeeting` do invoke the native service
creation: the log of native calls, empty before, holds `CreateAuthService`
(resp. `CreateMeetingService`) afterwards. -/
theorem sink_null_counterexample :
    ({ sdkInitialized := true } : PluginState).event_handler_ = none ∧
    (AuthZoom (fun e => (e.toCtorIdx : Int)) (fun _ _ => 0) (L "jwt")
      { sdkInitialized := true }).2.nativeCalls = [.CreateAuthService] ∧
    (JoinMeeting (fun e => (e.toCtorIdx : Int)) (fun _ _ => 0) 123456 (L "pw") (L "me") none
      { sdkInitialized := true }).2.nativeCalls = [.CreateMeetingService] := by
  decide

/-- C7 (amended): in every state whose sink registration is null, `AuthZoom` and
`JoinMeeting` return a failure envelope whose message names the failed
precondition ("MSG_NO_YET_INITIALIZED" when the init flag is false, the
service-not-available message when service creation fails, and
"MSG_ZOOM_EVENT_MANAGER_HANDLER_NOT_AVAILABLE" otherwise), issue no
`SDKAuth`/`Join` request and attach no listener: the state changes only in the
log of native calls, which gains the service-creation call
(`CreateAuthService`, resp. `CreateMeetingService`) exactly when the init flag
is true, and nothing else. -/
theorem sink_null_no_request (value : SDKErrorName → SDKError) (sdk : ZoomSDK)
    (s : PluginState) (token : WString) (meetingNumber : Nat) (password displayName : WString)
    (webinarToken : Option WString) (hsink : s.event_handler_ = none) :
    ((AuthZoom value sdk token s).1.isSuccess = false ∧
      (AuthZoom value sdk token s).1.message =
        (if s.sdkInitialized = false then "MSG_NO_YET_INITIALIZED"
         else if sdk s.nativeCalls .CreateAuthService ≠ value .SDKERR_SUCCESS then
           "MSG_AUTH_SERVICE_NOT_AVAILABLE"
         else "MSG_ZOOM_EVENT_MANAGER_HANDLER_NOT_AVAILABLE") ∧
      (AuthZoom value sdk token s).2 =
        { s with nativeCalls :=
            if s.sdkInitialized = true then s.nativeCalls ++ [.CreateAuthService]
            else s.nativeCalls }) ∧
    ((JoinMeeting value sdk meetingNumber password displayName webinarToken s).1.isSuccess
        = false ∧
      (JoinMeeting value sdk meetingNumber password displayName webinarToken s).1.message =
        (if s.sdkInitialized = false then "MSG_NO_YET_INITIALIZED"
         else if sdk s.nativeCalls .CreateMeetingService ≠ value .SDKERR_SUCCESS then
           "MSG_MEETING_SERVICE_NOT_AVAILABLE"
         else "MSG_ZOOM_EVENT_MANAGER_HANDLER_NOT_AVAILABLE") ∧
      (JoinMeeting value sdk meetingNumber password displayName webinarToken s).2 =
        { s with nativeCalls :=
            if s.sdkInitialized = true then s.nativeCalls ++ [.CreateMeetingService]
            else s.nativeCalls }) := by
  obtain ⟨flag, authL, meetingL, sink, calls⟩ := s
  simp only at hsink
  subst hsink
  cases flag
  · simp [AuthZoom, JoinMeeting, plain_response]
  · by_cases hA : sdk calls .CreateAuthService = value .SDKERR_SUCCESS <;>
    by_cases hM : sdk calls .CreateMeetingService = value .SDKERR_SUCCESS <;>
    simp [AuthZoom, JoinMeeting, callNative, ZoomEventManager.GetEventHandler,
      hA, hM, status_params, plain_response]

/-- Witness of C7 (amended): an initialized state with no sink and a listener
left from an earlier call. -/
theorem sink_null_no_request_witness :
    ({ sdkInitialized := true, authListener := some {} } : PluginState).event_handler_ = none ∧
    (AuthZoom (fun e => (e.toCtorIdx : Int)) (fun _ _ => 0) (L "jwt")
      { sdkInitialized := true, authListener := some {} }).1.isSuccess = false ∧
    (JoinMeeting (fun e => (e.toCtorIdx : Int)) (fun _ _ => 0) 123456 (L "pw") (L "me") none
      { sdkInitialized := true, authListener := some {} }).1.isSuccess = false :=
  have h := sink_null_no_request (fun e => (e.toCtorIdx : Int)) (fun _ _ => 0)
    { sdkInitialized := true, authListener := some {} } (L "jwt") 123456 (L "pw") (L "me") none
    rfl
  ⟨rfl, h.1.1, h.2.1⟩

/-- C8: with the init flag true and a sink `h` registered, when native service
creation succeeds, `AuthZoom` (resp. `JoinMeeting`) returns `isSuccess = true`
if and only if the native `SDKAuth` (resp. `Join`) call returns
`SDKERR_SUCCESS`; the message is "MSG_AUTH_SENT_SUCCESS" or
"MSG_AUTH_SENT_FAILED" (resp. "MSG_JOIN_SENT_SUCCESS" or
"MSG_JOIN_SENT_FAILED") accordingly, the params are `statusCode` and
`statusLabel` of that call's own result, and the init flag is unchanged. -/
theorem request_sent_report (value : SDKErrorName → SDKError) (sdk : ZoomSDK)
    (s : PluginState) (h : Nat) (token : WString) (meetingNumber : Nat)
    (password displayName : WString) (webinarToken : Option WString)
    (hflag : s.sdkInitialized = true) (hsink : s.event_handler_ = some h) :
    (∀ rAuth : SDKError,
      sdk s.nativeCalls .CreateAuthService = value .SDKERR_SUCCESS →
      sdk (s.nativeCalls ++ [.CreateAuthService] ++
        [.AuthService_SetEvent { base := { event_handler_ := some h } }])
        (.SDKAuth { jwt_token := some token }) = rAuth →
      ((AuthZoom value sdk token s).1.isSuccess = true ↔ rAuth = value .SDKERR_SUCCESS) ∧
      (AuthZoom value sdk token s).1.message =
        (if rAuth = value .SDKERR_SUCCESS then "MSG_AUTH_SENT_SUCCESS"
         else "MSG_AUTH_SENT_FAILED") ∧
      (AuthZoom value sdk token s).1.params =
        [(.string "statusCode", .int32 rAuth),
         (.string "statusLabel", .string (EnumToString value rAuth))] ∧
      (AuthZoom value sdk token s).2.sdkInitialized = s.sdkInitialized) ∧
    (∀ rJoin : SDKError,
      sdk s.nativeCalls .CreateMeetingService = value .SDKERR_SUCCESS →
      sdk (s.nativeCalls ++ [.CreateMeetingService] ++
        [.MeetingService_SetEvent { base := { event_handler_ := some h } }])
        (.Join { userType := .SDK_UT_NORMALUSER, meetingNumber := meetingNumber,
                 userName := some displayName, psw := some password, isVideoOff := false,
                 isAudioOff := false, webinarToken := webinarToken }) = rJoin →
      ((JoinMeeting value sdk meetingNumber password displayName webinarToken s).1.isSuccess
        = true ↔ rJoin = value .SDKERR_SUCCESS) ∧
      (JoinMeeting value sdk meetingNumber password displayName webinarToken s).1.message =
        (if rJoin = value .SDKERR_SUCCESS then "MSG_JOIN_SENT_SUCCESS"
         else "MSG_JOIN_SENT_FAILED") ∧
      (JoinMeeting value sdk meetingNumber password displayName webinarToken s).1.params =
        [(.string "statusCode", .int32 rJoin),
         (.string "statusLabel", .string (EnumToString value rJoin))] ∧
      (JoinMeeting value sdk meetingNumber password displayName webinarToken s).2.sdkInitialized
        = s.sdkInitialized) := by
  constructor
  · intro rAuth hcreate hAuth
    subst hAuth
    by_cases hr : sdk (s.nativeCalls ++ [.CreateAuthService] ++
        [.AuthService_SetEvent { base := { event_handler_ := some h } }])
        (.SDKAuth { jwt_token := some token }) = value .SDKERR_SUCCESS <;>
    simp_all [AuthZoom, callNative, ZoomEventManager.GetEventHandler,
      ZoomSDKEventListenerBase.SetEventHandler, status_params]
  · intro rJoin hcreate hJoin
    subst hJoin
    by_cases hr : sdk (s.nativeCalls ++ [.CreateMeetingService] ++
        [.MeetingService_SetEvent { base := { event_handler_ := some h } }])
        (.Join { userType := .SDK_UT_NORMALUSER, meetingNumber := meetingNumber,
                 userName := some displayName, psw := some password, isVideoOff := false,
                 isAudioOff := false, webinarToken := webinarToken }) = value .SDKERR_SUCCESS <;>
    cases webinarToken <;>
    simp_all [JoinMeeting, callNative, ZoomEventManager.GetEventHandler,
      ZoomSDKEventListenerBase.SetEventHandler, status_params]

/-- Witness of C8: an initialized state with sink 7; the native `SDKAuth` call
is rejected with code 3 although service creation succeeded. -/
theorem request_sent_report_witness :
    (({ sdkInitialized := true, event_handler_ := some 7 } : PluginState).sdkInitialized = true ∧
      ({ sdkInitialized := true, event_handler_ := some 7 } : PluginState).event_handler_
        = some 7) ∧
    ((AuthZoom (fun e => (e.toCtorIdx : Int))
        (fun _ c => if c = .SDKAuth { jwt_token := some (L "jwt") } then 3 else 0) (L "jwt")
        { sdkInitialized := true, event_handler_ := some 7 }).1.isSuccess = true ↔
      (3 : SDKError) = (fun e => (e.toCtorIdx : Int)) SDKErrorName.SDKERR_SUCCESS) ∧
    (AuthZoom (fun e => (e.toCtorIdx : Int))
        (fun _ c => if c = .SDKAuth { jwt_token := some (L "jwt") } then 3 else 0) (L "jwt")
        { sdkInitialized := true, event_handler_ := some 7 }).1.params =
      [(.string "statusCode", .int32 3),
       (.string "statusLabel", .string (EnumToString (fun e => (e.toCtorIdx : Int)) 3))] :=
  have h := (request_sent_report (fun e => (e.toCtorIdx : Int))
    (fun _ c => if c = .SDKAuth { jwt_token := some (L "jwt") } then 3 else 0)
    { sdkInitialized := true, event_handler_ := some 7 } 7 (L "jwt") 123456 (L "pw") (L "me") none
    rfl rfl).1 3 (by decide) (by decide)
  ⟨⟨rfl, rfl⟩, h.1, h.2.2.1⟩

/-- C9: with the init flag true, when native service creation returns a result
`r` other than `SDKERR_SUCCESS`, `AuthZoom` returns a failure envelope with
message "MSG_AUTH_SERVICE_NOT_AVAILABLE" and `JoinMeeting` one with message
"MSG_MEETING_SERVICE_NOT_AVAILABLE", each with params `statusCode = int(r)` and
`statusLabel = EnumToString(r)`; nothing is assumed about the sink; the only
native call logged is the service creation (no auth or join request), and the
listeners and the init flag are unchanged. -/
theorem service_creation_failure (value : SDKErrorName → SDKError) (sdk : ZoomSDK)
    (s : PluginState) (token : WString) (meetingNumber : Nat) (password displayName : WString)
    (webinarToken : Option WString) (hflag : s.sdkInitialized = true) :
    (∀ r : SDKError, sdk s.nativeCalls .CreateAuthService = r → r ≠ value .SDKERR_SUCCESS →
      (AuthZoom value sdk token s).1.isSuccess = false ∧
      (AuthZoom value sdk token s).1.message = "MSG_AUTH_SERVICE_NOT_AVAILABLE" ∧
      (AuthZoom value sdk token s).1.params =
        [(.string "statusCode", .int32 r), (.string "statusLabel", .string (EnumToString value r))] ∧
      (AuthZoom value sdk token s).2.nativeCalls = s.nativeCalls ++ [.CreateAuthService] ∧
      (AuthZoom value sdk token s).2.authListener = s.authListener ∧
      (AuthZoom value sdk token s).2.meetingListener = s.meetingListener ∧
      (AuthZoom value sdk token s).2.sdkInitialized = s.sdkInitialized ∧
      (AuthZoom value sdk token s).2.event_handler_ = s.event_handler_) ∧
    (∀ r : SDKError, sdk s.nativeCalls .CreateMeetingService = r → r ≠ value .SDKERR_SUCCESS →
      (JoinMeeting value sdk meetingNumber password displayName webinarToken s).1.isSuccess
        = false ∧
      (JoinMeeting value sdk meetingNumber password displayName webinarToken s).1.message
        = "MSG_MEETING_SERVICE_NOT_AVAILABLE" ∧
      (JoinMeeting value sdk meetingNumber password displayName webinarToken s).1.params =
        [(.string "statusCode", .int32 r), (.string "statusLabel", .string (EnumToString value r))] ∧
      (JoinMeeting value sdk meetingNumber password displayName webinarToken s).2.nativeCalls
        = s.nativeCalls ++ [.CreateMeetingService] ∧
      (JoinMeeting value sdk meetingNumber password displayName webinarToken s).2.authListener
        = s.authListener ∧
      (JoinMeeting value sdk meetingNumber password displayName webinarToken s).2.meetingListener
        = s.meetingListener ∧
      (JoinMeeting value sdk meetingNumber password displayName webinarToken s).2.sdkInitialized
        = s.sdkInitialized ∧
      (JoinMeeting value sdk meetingNumber password displayName webinarToken s).2.event_handler_
        = s.event_handler_) := by
  constructor
  · intro r hr hne
    subst hr
    simp [AuthZoom, callNative, hflag, hne, status_params]
  · intro r hr hne
    subst hr
    simp [JoinMeeting, callNative, hflag, hne, status_params]

/-- Witness of C9: service creation returns 6 in an initialized state that has a
sink and an earlier auth listener. -/
theorem service_creation_failure_witness :
    ({ sdkInitialized := true, event_handler_ := some 7, authListener := some {} }
      : PluginState).sdkInitialized = true ∧
    (AuthZoom (fun e => (e.toCtorIdx : Int)) (fun _ _ => 6) (L "jwt")
      { sdkInitialized := true, event_handler_ := some 7, authListener := some {} }).1.message
      = "MSG_AUTH_SERVICE_NOT_AVAILABLE" ∧
    (AuthZoom (fun e => (e.toCtorIdx : Int)) (fun _ _ => 6) (L "jwt")
      { sdkInitialized := true, event_handler_ := some 7, authListener := some {} }).2.nativeCalls
      = [] ++ [.CreateAuthService] :=
  have h := (service_creation_failure (fun e => (e.toCtorIdx : Int)) (fun _ _ => 6)
    { sdkInitialized := true, event_handler_ := some 7, authListener := some {} }
    (L "jwt") 123456 (L "pw") (L "me") none rfl).1 6 rfl (by decide)
  ⟨rfl, h.2.1, h.2.2.2.1⟩

/-- Calls logged by `JoinMeeting`: none when the init flag is false, the service
creation alone when creation fails or no sink is registered, and otherwise the
creation, the listener attachment and one `Join` carrying the request built
from the arguments. -/
theorem JoinMeeting_nativeCalls (value : SDKErrorName → SDKError) (sdk : ZoomSDK)
    (meetingNumber : Nat) (password displayName : WString) (webinarToken : Option WString)
    (s : PluginState) :
    (JoinMeeting value sdk meetingNumber password displayName webinarToken s).2.nativeCalls =
      s.nativeCalls ++
        (if s.sdkInitialized = false then []
         else if sdk s.nativeCalls .CreateMeetingService ≠ value .SDKERR_SUCCESS then
           [.CreateMeetingService]
         else if s.event_handler_ = none then [.CreateMeetingService]
         else
           [.CreateMeetingService,
            .MeetingService_SetEvent { base := { event_handler_ := s.event_handler_ } },
            .Join { userType := .SDK_UT_NORMALUSER, meetingNumber := meetingNumber,
                    userName := some displayName, psw := some password, isVideoOff := false,
                    isAudioOff := false, webinarToken := webinarToken }]) := by
  obtain ⟨flag, authL, meetingL, sink, calls⟩ := s
  cases flag
  · simp [JoinMeeting]
  · by_cases hM : sdk calls .CreateMeetingService = value .SDKERR_SUCCESS
    · cases sink <;> cases webinarToken <;>
      simp [JoinMeeting, callNative, ZoomEventManager.GetEventHandler,
        ZoomSDKEventListenerBase.SetEventHandler, hM] <;>
      split_ifs <;> simp
    · simp [JoinMeeting, callNative, hM]

/-- For the method name "joinMeeting", the state after `HandleMethodCall` is the
state after `JoinMeeting` on the arguments read by the `ArgReader`. -/
theorem HandleMethodCall_joinMeeting_state (value : SDKErrorName → SDKError)
    (mbstowcs_s : WString → Nat → String → Nat → WString) (sdk : ZoomSDK)
    (call : MethodCall) (s : PluginState) (hname : call.method_name = "joinMeeting") :
    (HandleMethodCall value mbstowcs_s sdk call s).2 =
      (JoinMeeting value sdk (((ArgReader.mk_from call).GetUINT64 "meetingNumber").getD 0)
        (((ArgReader.mk_from call).GetWString mbstowcs_s "password").getD (L ""))
        (((ArgReader.mk_from call).GetWString mbstowcs_s "displayName").getD (L "Zoom User"))
        ((ArgReader.mk_from call).GetWString mbstowcs_s "webinarToken") s).2 := by
  simp [HandleMethodCall, hname]

/-- The value of `GetWString` in terms of the call payload: present exactly when
the payload is a map that stores a string under the key. -/
theorem GetWString_eq (mbstowcs_s : WString → Nat → String → Nat → WString)
    (call : MethodCall) (key : String) :
    (ArgReader.mk_from call).GetWString mbstowcs_s key =
      match call.arguments with
      | some (.map m) =>
        match EncodableMap.find m (.string key) with
        | some (.string str) => some (StringToWString mbstowcs_s str)
        | _ => none
      | _ => none := by
  unfold ArgReader.GetWString ArgReader.GetString ArgReader.Get ArgReader.mk_from
  rcases hargs : call.arguments with _ | v
  · rfl
  · cases v <;> try rfl
    rename_i m
    simp only
    rcases hfind : EncodableMap.find m (.string key) with _ | w
    · rfl
    · cases w <;> rfl

/-- C10: during a `joinMeeting` call, every request handed to the native `Join`
call has a null webinar token when the arguments hold no string-typed
`webinarToken` (no argument map, no such key, or a value of another type), and
the transcoding `StringToWString` of the stored value when they hold a string;
in both cases the request has user type `SDK_UT_NORMALUSER`, the meeting number
read from the arguments, and `isVideoOff = isAudioOff = false`.  Such a request
is handed over whenever the init flag is true, service creation succeeds and a
sink is registered. -/
theorem joinMeeting_request (value : SDKErrorName → SDKError)
    (mbstowcs_s : WString → Nat → String → Nat → WString) (sdk : ZoomSDK)
    (call : MethodCall) (s : PluginState) (hname : call.method_name = "joinMeeting") :
    (∀ p : JoinParam,
      NativeCall.Join p ∈
        (HandleMethodCall value mbstowcs_s sdk call s).2.nativeCalls.drop s.nativeCalls.length →
      (((∀ m, call.arguments ≠ some (.map m)) ∨
        (∃ m, call.arguments = some (.map m) ∧
          EncodableMap.find m (.string "webinarToken") = none) ∨
        (∃ m v, call.arguments = some (.map m) ∧
          EncodableMap.find m (.string "webinarToken") = some v ∧
          ∀ str, v ≠ .string str)) →
        p.webinarToken = none) ∧
      (∀ m str, call.arguments = some (.map m) →
        EncodableMap.find m (.string "webinarToken") = some (.string str) →
        p.webinarToken = some (StringToWString mbstowcs_s str)) ∧
      p.userType = .SDK_UT_NORMALUSER ∧
      p.meetingNumber = ((ArgReader.mk_from call).GetUINT64 "meetingNumber").getD 0 ∧
      p.isVideoOff = false ∧
      p.isAudioOff = false) ∧
    (s.sdkInitialized = true →
      sdk s.nativeCalls .CreateMeetingService = value .SDKERR_SUCCESS →
      s.event_handler_ ≠ none →
      ∃ p : JoinParam, NativeCall.Join p ∈
        (HandleMethodCall value mbstowcs_s sdk call s).2.nativeCalls.drop
          s.nativeCalls.length) := by
  rw [HandleMethodCall_joinMeeting_state value mbstowcs_s sdk call s hname,
    JoinMeeting_nativeCalls, List.drop_left]
  constructor
  · intro p hp
    have hp2 : p =
        { userType := SDKUserType.SDK_UT_NORMALUSER
          meetingNumber := ((ArgReader.mk_from call).GetUINT64 "meetingNumber").getD 0
          isVideoOff := false
          isAudioOff := false
          webinarToken := (ArgReader.mk_from call).GetWString mbstowcs_s "webinarToken"
          psw := some (((ArgReader.mk_from call).GetWString mbstowcs_s "password").getD (L ""))
          userName := some
              (((ArgReader.mk_from call).GetWString mbstowcs_s "displayName").getD
                (L "Zoom User")) } := by
      split_ifs at hp <;> simp at hp
      exact hp
    subst hp2
    simp only [GetWString_eq, true_and, and_true]
    constructor
    · rintro (hno | ⟨m, hm, hfind⟩ | ⟨m, v, hm, hfind, hv⟩)
      · rcases hargs : call.arguments with _ | v
        · rfl
        · cases v <;> try rfl
          exact absurd hargs (hno _)
      · simp [hm, hfind]
      · simp only [hm, hfind]
        cases v <;> try rfl
        exact absurd rfl (hv _)
    · intro m str hm hfind
      simp [hm, hfind]
  · intro hflag hcreate hsink
    simp [hflag, hcreate, hsink]

/-- Witness of C10: a `joinMeeting` call in an initialized state with sink 7,
whose arguments hold the meeting number as a string and no `webinarToken`. -/
theorem joinMeeting_request_witness :
    (({ method_name := "joinMeeting",
        arguments := some (.map [(.string "meetingNumber", .string "123456")]) }
        : MethodCall).method_name = "joinMeeting" ∧
      NativeCall.Join
          { userType := .SDK_UT_NORMALUSER, meetingNumber := 123456,
            userName := some (L "Zoom User"), psw := some (L ""), isVideoOff := false,
            isAudioOff := false, webinarToken := none } ∈
        (HandleMethodCall (fun e => (e.toCtorIdx : Int)) (fun _ _ str _ => L str) (fun _ _ => 0)
          { method_name := "joinMeeting",
            arguments := some (.map [(.string "meetingNumber", .string "123456")]) }
          { sdkInitialized := true, event_handler_ := some 7 }).2.nativeCalls.drop
          ({ sdkInitialized := true, event_handler_ := some 7 } : PluginState).nativeCalls.length) ∧
    (123456 : Nat) =
      ((ArgReader.mk_from
        { method_name := "joinMeeting",
          arguments := some (.map [(.string "meetingNumber", .string "123456")]) }).GetUINT64
        "meetingNumber").getD 0 :=
  have h := (joinMeeting_request (fun e => (e.toCtorIdx : Int)) (fun _ _ str _ => L str)
    (fun _ _ => 0)
    { method_name := "joinMeeting",
      arguments := some (.map [(.string "meetingNumber", .string "123456")]) }
    { sdkInitialized := true, event_handler_ := some 7 } rfl).1
    { userType := .SDK_UT_NORMALUSER, meetingNumber := 123456,
      userName := some (L "Zoom User"), psw := some (L ""), isVideoOff := false,
      isAudioOff := false, webinarToken := none } (by decide)
  ⟨⟨rfl, by decide⟩, h.2.2.2.1⟩


/-- The five-key map produced by `ZoomResponse::ToEncodableMap`. -/
theorem ToEncodableMap_eq (r : ZoomResponse) :
    r.ToEncodableMap =
      [(.string "platform", .string r.platform), (.string "isSuccess", .bool r.isSuccess),
       (.string "action", .string r.action), (.string "message", .string r.message),
       (.string "params", .map r.params)] := by
  simp [ZoomResponse.ToEncodableMap, EncodableMap.assign, EncodableValue.beq]

/-- The lookup `find` is absent exactly when no entry of the map has the key. -/
theorem EncodableMap.find_eq_none_iff (m : EncodableMap) (key : EncodableValue) :
    EncodableMap.find m key = none ↔ ∀ v, (key, v) ∉ m := by
  induction m with
  | nil => simp [EncodableMap.find]
  | cons p rest ih =>
    obtain ⟨k, w⟩ := p
    by_cases hk : EncodableValue.beq k key = true
    · have hkey : k = key := (EncodableValue.beq_iff k key).1 hk
      simp only [EncodableMap.find, hk, if_true]
      constructor
      · intro h
        cases h
      · intro h
        exact absurd (List.mem_cons_self _ _) (hkey ▸ h w)
    · have hne : k ≠ key := fun h => hk ((EncodableValue.beq_iff k key).2 h)
      simp only [EncodableMap.find, hk]
      rw [if_neg (by simp), ih]
      constructor
      · intro h v hmem
        rcases List.mem_cons.1 hmem with heq | hin
        · exact hne (Prod.mk.inj heq).1.symm
        · exact h v hin
      · intro h v hin
        exact h v (List.mem_cons_of_mem _ hin)

/-- The value of the template `Get<T>` in terms of the call payload. -/
theorem ArgReader.Get_eq {T : Type} (getIf : EncodableValue → Option T) (call : MethodCall)
    (key : String) :
    (ArgReader.mk_from call).Get getIf key =
      match call.arguments with
      | some (.map m) =>
        match EncodableMap.find m (.string key) with
        | some v => getIf v
        | none => none
      | _ => none := by
  unfold ArgReader.Get ArgReader.mk_from
  rcases hargs : call.arguments with _ | v
  · rfl
  · cases v <;> rfl

/-- The template `Get<T>` is absent exactly when the payload is not a map, the
key has no entry, or the stored value does not hold a `T`; otherwise it is the
stored value.  Here `ctor` builds the alternative of the variant that holds a `T`. -/
theorem ArgReader.Get_absent_iff {T : Type} (getIf : EncodableValue → Option T)
    (ctor : T → EncodableValue) (hspec : ∀ v t, getIf v = some t ↔ v = ctor t)
    (call : MethodCall) (key : String) :
    ((ArgReader.mk_from call).Get getIf key = none ↔
      ((∀ m, call.arguments ≠ some (.map m)) ∨
       (∃ m, call.arguments = some (.map m) ∧
          ((∀ v, (EncodableValue.string key, v) ∉ m) ∨
           (∃ v, EncodableMap.find m (.string key) = some v ∧ ∀ t, v ≠ ctor t))))) ∧
    (∀ m t, call.arguments = some (.map m) →
      EncodableMap.find m (.string key) = some (ctor t) →
      (ArgReader.mk_from call).Get getIf key = some t) := by
  have hnone : ∀ v, getIf v = none ↔ ∀ t, v ≠ ctor t := by
    intro v
    constructor
    · intro h t ht
      have := (hspec v t).2 ht
      rw [h] at this
      cases this
    · intro h
      rcases hg : getIf v with _ | t
      · rfl
      · exact absurd ((hspec v t).1 hg) (h t)
  rw [ArgReader.Get_eq]
  constructor
  · constructor
    · intro h
      rcases hargs : call.arguments with _ | v
      · left
        intro m hm
        cases hm
      · rw [hargs] at h
        cases v with
        | map m =>
          right
          refine ⟨m, rfl, ?_⟩
          simp only at h
          rcases hfind : EncodableMap.find m (.string key) with _ | w
          · left
            exact (EncodableMap.find_eq_none_iff m _).1 hfind
          · right
            rw [hfind] at h
            exact ⟨w, rfl, (hnone w).1 h⟩
        | _ =>
          left
          intro m hm
          cases hm
    · rintro (hno | ⟨m, hm, hkey | ⟨v, hfind, hv⟩⟩)
      · rcases hargs : call.arguments with _ | v
        · rfl
        · cases v <;> try rfl
          exact absurd hargs (hno _)
      · rw [hm]
        simp only
        rw [(EncodableMap.find_eq_none_iff m _).2 hkey]
      · rw [hm]
        simp only
        rw [hfind]
        exact (hnone v).2 hv
  · intro m t hm hfind
    rw [hm]
    simp only
    rw [hfind]
    exact (hspec _ t).2 rfl

/-- C13: each typed getter of the Argument Reader (`GetString`, `GetInt` for
`int64_t`, `GetBool`) returns absent if and only if the payload is not a map,
the key has no entry in the map, or the stored value does not hold the
requested type; otherwise it returns the stored value unchanged.  In particular
`GetString` on a key whose value is an integer (of either width) is absent.
The getters are total functions: none of them raises. -/
theorem typed_getters (call : MethodCall) (key : String) :
    (((ArgReader.mk_from call).GetString key = none ↔
        ((∀ m, call.arguments ≠ some (.map m)) ∨
         (∃ m, call.arguments = some (.map m) ∧
            ((∀ v, (EncodableValue.string key, v) ∉ m) ∨
             (∃ v, EncodableMap.find m (.string key) = some v ∧ ∀ s, v ≠ .string s))))) ∧
      (∀ m s, call.arguments = some (.map m) →
        EncodableMap.find m (.string key) = some (.string s) →
        (ArgReader.mk_from call).GetString key = some s)) ∧
    (((ArgReader.mk_from call).GetInt key = none ↔
        ((∀ m, call.arguments ≠ some (.map m)) ∨
         (∃ m, call.arguments = some (.map m) ∧
            ((∀ v, (EncodableValue.string key, v) ∉ m) ∨
             (∃ v, EncodableMap.find m (.string key) = some v ∧ ∀ n, v ≠ .int64 n))))) ∧
      (∀ m n, call.arguments = some (.map m) →
        EncodableMap.find m (.string key) = some (.int64 n) →
        (ArgReader.mk_from call).GetInt key = some n)) ∧
    (((ArgReader.mk_from call).GetBool key = none ↔
        ((∀ m, call.arguments ≠ some (.map m)) ∨
         (∃ m, call.arguments = some (.map m) ∧
            ((∀ v, (EncodableValue.string key, v) ∉ m) ∨
             (∃ v, EncodableMap.find m (.string key) = some v ∧ ∀ b, v ≠ .bool b))))) ∧
      (∀ m b, call.arguments = some (.map m) →
        EncodableMap.find m (.string key) = some (.bool b) →
        (ArgReader.mk_from call).GetBool key = some b)) ∧
    (∀ m n, call.arguments = some (.map m) →
      (EncodableMap.find m (.string key) = some (.int32 n) ∨
        EncodableMap.find m (.string key) = some (.int64 n)) →
      (ArgReader.mk_from call).GetString key = none) := by
  have hS := ArgReader.Get_absent_iff getIfString EncodableValue.string
    (by intro v t; cases v <;> simp [getIfString]) call key
  have hI := ArgReader.Get_absent_iff getIfInt64 EncodableValue.int64
    (by intro v t; cases v <;> simp [getIfInt64]) call key
  have hB := ArgReader.Get_absent_iff getIfBool EncodableValue.bool
    (by intro v t; cases v <;> simp [getIfBool]) call key
  refine ⟨hS, hI, hB, ?_⟩
  intro m n hm hfind
  refine hS.1.2 (Or.inr ⟨m, hm, Or.inr ?_⟩)
  rcases hfind with h | h
  · exact ⟨_, h, by intro s hs; cases hs⟩
  · exact ⟨_, h, by intro s hs; cases hs⟩

/-- Witness of C13: a payload that stores the integer 42 under "meetingNumber";
the string getter is absent. -/
theorem typed_getters_witness :
    (({ method_name := "joinMeeting",
        arguments := some (.map [(.string "meetingNumber", .int64 42)]) } : MethodCall).arguments
        = some (.map [(.string "meetingNumber", .int64 42)]) ∧
      EncodableMap.find [(.string "meetingNumber", .int64 42)] (.string "meetingNumber")
        = some (.int64 42)) ∧
    (ArgReader.mk_from
      { method_name := "joinMeeting",
        arguments := some (.map [(.string "meetingNumber", .int64 42)]) }).GetString
      "meetingNumber" = none ∧
    (ArgReader.mk_from
      { method_name := "joinMeeting",
        arguments := some (.map [(.string "meetingNumber", .int64 42)]) }).GetInt
      "meetingNumber" = some 42 :=
  have h := typed_getters
    { method_name := "joinMeeting",
      arguments := some (.map [(.string "meetingNumber", .int64 42)]) } "meetingNumber"
  ⟨⟨rfl, rfl⟩, h.2.2.2 _ 42 rfl (Or.inr rfl), h.2.1.2 _ 42 rfl rfl⟩

/-- The value of `GetUINT64` in terms of the call payload. -/
theorem GetUINT64_eq (call : MethodCall) (key : String) :
    (ArgReader.mk_from call).GetUINT64 key =
      match call.arguments with
      | some (.map m) =>
        match EncodableMap.find m (.string key) with
        | some (.string str) => some (StringToUINT64 str)
        | some (.int64 intVal) => some (intVal % 2 ^ 64).toNat
        | _ => none
      | _ => none := by
  unfold ArgReader.GetUINT64 ArgReader.GetString ArgReader.GetInt
  rw [ArgReader.Get_eq, ArgReader.Get_eq]
  rcases hargs : call.arguments with _ | v
  · rfl
  · cases v <;> try rfl
    rename_i m
    simp only
    rcases hfind : EncodableMap.find m (.string key) with _ | w
    · rfl
    · cases w <;> rfl

/-- A string stored under the key is returned by `GetWString` after transcoding. -/
theorem GetWString_string (mbstowcs_s : WString → Nat → String → Nat → WString)
    (call : MethodCall) (key : String) (m : EncodableMap) (str : String)
    (hm : call.arguments = some (.map m))
    (hfind : EncodableMap.find m (.string key) = some (.string str)) :
    (ArgReader.mk_from call).GetWString mbstowcs_s key
      = some (StringToWString mbstowcs_s str) := by
  rw [GetWString_eq, hm]
  simp only
  rw [hfind]

/-- Without a string stored under the key, `GetWString` is absent. -/
theorem GetWString_absent (mbstowcs_s : WString → Nat → String → Nat → WString)
    (call : MethodCall) (key : String)
    (hno : ∀ m str, call.arguments = some (.map m) →
      EncodableMap.find m (.string key) ≠ some (.string str)) :
    (ArgReader.mk_from call).GetWString mbstowcs_s key = none := by
  rw [GetWString_eq]
  rcases hargs : call.arguments with _ | v
  · rfl
  · cases v <;> try rfl
    rename_i m
    simp only
    rcases hfind : EncodableMap.find m (.string key) with _ | w
    · rfl
    · cases w <;> try rfl
      exact absurd hfind (hno m _ hargs)

/-- C11: `HandleMethodCall` substitutes the defaults for unset arguments.  A
`joinMeeting` call is `JoinMeeting` on a meeting number, password, display name
and webinar token such that: a display name stored as a string is passed
through (transcoded by `StringToWString`), also when it is empty, and otherwise
the display name is "Zoom User"; without a string-typed password the password
is empty; without a string-typed or integer-typed meeting number the meeting
number is 0.  An `authZoom` call is `AuthZoom` on a token that is empty when no
string-typed `jwtToken` is stored. -/
theorem HandleMethodCall_defaults (value : SDKErrorName → SDKError)
    (mbstowcs_s : WString → Nat → String → Nat → WString) (call : MethodCall) :
    (call.method_name = "joinMeeting" →
      ∃ (meetingNumber : Nat) (password displayName : WString) (webinarToken : Option WString),
        (∀ (sdk : ZoomSDK) (s : PluginState),
          HandleMethodCall value mbstowcs_s sdk call s =
            (.Success (.map (JoinMeeting value sdk meetingNumber password displayName
                webinarToken s).1.ToEncodableMap),
             (JoinMeeting value sdk meetingNumber password displayName webinarToken s).2)) ∧
        (∀ m str, call.arguments = some (.map m) →
          EncodableMap.find m (.string "displayName") = some (.string str) →
          displayName = StringToWString mbstowcs_s str) ∧
        ((∀ m str, call.arguments = some (.map m) →
          EncodableMap.find m (.string "displayName") ≠ some (.string str)) →
          displayName = L "Zoom User") ∧
        ((∀ m str, call.arguments = some (.map m) →
          EncodableMap.find m (.string "password") ≠ some (.string str)) →
          password = L "") ∧
        ((∀ m v, call.arguments = some (.map m) →
          EncodableMap.find m (.string "meetingNumber") = some v →
          (∀ str, v ≠ .string str) ∧ (∀ n, v ≠ .int32 n) ∧ (∀ n, v ≠ .int64 n)) →
          meetingNumber = 0)) ∧
    (call.method_name = "authZoom" →
      ∃ token : WString,
        (∀ (sdk : ZoomSDK) (s : PluginState),
          HandleMethodCall value mbstowcs_s sdk call s =
            (.Success (.map (AuthZoom value sdk token s).1.ToEncodableMap),
             (AuthZoom value sdk token s).2)) ∧
        (∀ m str, call.arguments = some (.map m) →
          EncodableMap.find m (.string "jwtToken") = some (.string str) →
          token = StringToWString mbstowcs_s str) ∧
        ((∀ m str, call.arguments = some (.map m) →
          EncodableMap.find m (.string "jwtToken") ≠ some (.string str)) →
          token = L "")) := by
  constructor
  · intro hname
    refine ⟨((ArgReader.mk_from call).GetUINT64 "meetingNumber").getD 0,
      ((ArgReader.mk_from call).GetWString mbstowcs_s "password").getD (L ""),
      ((ArgReader.mk_from call).GetWString mbstowcs_s "displayName").getD (L "Zoom User"),
      (ArgReader.mk_from call).GetWString mbstowcs_s "webinarToken", ?_, ?_, ?_, ?_, ?_⟩
    · intro sdk s
      simp [HandleMethodCall, hname]
    · intro m str hm hfind
      rw [GetWString_string mbstowcs_s call _ m str hm hfind]
      rfl
    · intro hno
      rw [GetWString_absent mbstowcs_s call _ hno]
      rfl
    · intro hno
      rw [GetWString_absent mbstowcs_s call _ hno]
      rfl
    · intro hno
      rw [GetUINT64_eq]
      rcases hargs : call.arguments with _ | v
      · rfl
      · cases v <;> try rfl
        rename_i m
        simp only
        rcases hfind : EncodableMap.find m (.string "meetingNumber") with _ | w
        · rfl
        · have hw := hno m w hargs hfind
          cases w <;> try rfl
          · exact absurd rfl (hw.2.2 _)
          · exact absurd rfl (hw.1 _)
  · intro hname
    refine ⟨((ArgReader.mk_from call).GetWString mbstowcs_s "jwtToken").getD (L ""), ?_, ?_, ?_⟩
    · intro sdk s
      simp [HandleMethodCall, hname]
    · intro m str hm hfind
      rw [GetWString_string mbstowcs_s call _ m str hm hfind]
      rfl
    · intro hno
      rw [GetWString_absent mbstowcs_s call _ hno]
      rfl

/-- Witness of C11: a `joinMeeting` call that stores only the meeting number. -/
theorem HandleMethodCall_defaults_witness :
    ({ method_name := "joinMeeting",
       arguments := some (.map [(.string "meetingNumber", .string "123456")]) }
       : MethodCall).method_name = "joinMeeting" ∧
    ∃ (meetingNumber : Nat) (password displayName : WString) (webinarToken : Option WString),
      (∀ (sdk : ZoomSDK) (s : PluginState),
        HandleMethodCall (fun e => (e.toCtorIdx : Int)) (fun _ _ str _ => L str) sdk
          { method_name := "joinMeeting",
            arguments := some (.map [(.string "meetingNumber", .string "123456")]) } s =
          (.Success (.map (JoinMeeting (fun e => (e.toCtorIdx : Int)) sdk meetingNumber password
              displayName webinarToken s).1.ToEncodableMap),
           (JoinMeeting (fun e => (e.toCtorIdx : Int)) sdk meetingNumber password displayName
              webinarToken s).2)) ∧
      displayName = L "Zoom User" ∧ password = L "" := by
  refine ⟨rfl, ?_⟩
  obtain ⟨mn, pw, dn, wt, heq, -, hdn, hpw, -⟩ :=
    (HandleMethodCall_defaults (fun e => (e.toCtorIdx : Int)) (fun _ _ str _ => L str)
      { method_name := "joinMeeting",
        arguments := some (.map [(.string "meetingNumber", .string "123456")]) }).1 rfl
  refine ⟨mn, pw, dn, wt, heq, hdn ?_, hpw ?_⟩
  · intro m str hm
    cases hm
    simp [EncodableMap.find, EncodableValue.beq]
  · intro m str hm
    cases hm
    simp [EncodableMap.find, EncodableValue.beq]

/-- C12: `HandleMethodCall` returns one reply, and it is never an error reply.
For the method names "initZoom", "authZoom", "joinMeeting" and "unInitZoom" the
reply is `Success` carrying the map of the envelope of the corresponding
operation, a map with exactly the five keys platform, isSuccess, action,
message and params; for every other method name the reply is `NotImplemented`
and the state is returned as it was, so no operation runs, no native call is
made and the init flag and listeners are unchanged. -/
theorem HandleMethodCall_reply (value : SDKErrorName → SDKError)
    (mbstowcs_s : WString → Nat → String → Nat → WString) (sdk : ZoomSDK)
    (call : MethodCall) (s : PluginState) :
    (call.method_name = "initZoom" →
      HandleMethodCall value mbstowcs_s sdk call s =
        (.Success (.map (InitZoom value sdk s).1.ToEncodableMap), (InitZoom value sdk s).2)) ∧
    (call.method_name = "authZoom" →
      HandleMethodCall value mbstowcs_s sdk call s =
        (.Success (.map (AuthZoom value sdk
            (((ArgReader.mk_from call).GetWString mbstowcs_s "jwtToken").getD (L ""))
            s).1.ToEncodableMap),
         (AuthZoom value sdk
            (((ArgReader.mk_from call).GetWString mbstowcs_s "jwtToken").getD (L "")) s).2)) ∧
    (call.method_name = "joinMeeting" →
      HandleMethodCall value mbstowcs_s sdk call s =
        (.Success (.map (JoinMeeting value sdk
            (((ArgReader.mk_from call).GetUINT64 "meetingNumber").getD 0)
            (((ArgReader.mk_from call).GetWString mbstowcs_s "password").getD (L ""))
            (((ArgReader.mk_from call).GetWString mbstowcs_s "displayName").getD (L "Zoom User"))
            ((ArgReader.mk_from call).GetWString mbstowcs_s "webinarToken")
            s).1.ToEncodableMap),
         (JoinMeeting value sdk
            (((ArgReader.mk_from call).GetUINT64 "meetingNumber").getD 0)
            (((ArgReader.mk_from call).GetWString mbstowcs_s "password").getD (L ""))
            (((ArgReader.mk_from call).GetWString mbstowcs_s "displayName").getD (L "Zoom User"))
            ((ArgReader.mk_from call).GetWString mbstowcs_s "webinarToken") s).2)) ∧
    (call.method_name = "unInitZoom" →
      HandleMethodCall value mbstowcs_s sdk call s =
        (.Success (.map (UnInitZoom value sdk s).1.ToEncodableMap),
         (UnInitZoom value sdk s).2)) ∧
    (call.method_name ≠ "initZoom" → call.method_name ≠ "authZoom" →
      call.method_name ≠ "joinMeeting" → call.method_name ≠ "unInitZoom" →
      HandleMethodCall value mbstowcs_s sdk call s = (.NotImplemented, s)) ∧
    (∀ error_code error_message,
      (HandleMethodCall value mbstowcs_s sdk call s).1 ≠ .Error error_code error_message) ∧
    (∀ r : ZoomResponse,
      r.ToEncodableMap =
        [(.string "platform", .string r.platform), (.string "isSuccess", .bool r.isSuccess),
         (.string "action", .string r.action), (.string "message", .string r.message),
         (.string "params", .map r.params)]) := by
  refine ⟨?_, ?_, ?_, ?_, ?_, ?_, ToEncodableMap_eq⟩
  · intro h
    simp [HandleMethodCall, h]
  · intro h
    simp [HandleMethodCall, h]
  · intro h
    simp [HandleMethodCall, h]
  · intro h
    simp [HandleMethodCall, h]
  · intro h1 h2 h3 h4
    simp [HandleMethodCall, h1, h2, h3, h4]
  · intro c msg
    unfold HandleMethodCall
    simp only
    split_ifs <;> simp

/-- Witness of C12: the method name "leaveMeeting" is not one of the four. -/
theorem HandleMethodCall_reply_witness :
    (({ method_name := "leaveMeeting", arguments := none } : MethodCall).method_name
        ≠ "initZoom" ∧
      ({ method_name := "leaveMeeting", arguments := none } : MethodCall).method_name
        ≠ "unInitZoom") ∧
    HandleMethodCall (fun e => (e.toCtorIdx : Int)) (fun _ _ str _ => L str) (fun _ _ => 0)
      { method_name := "leaveMeeting", arguments := none }
      { sdkInitialized := true, event_handler_ := some 7 }
      = (.NotImplemented, { sdkInitialized := true, event_handler_ := some 7 }) :=
  ⟨⟨by decide, by decide⟩,
    (HandleMethodCall_reply (fun e => (e.toCtorIdx : Int)) (fun _ _ str _ => L str)
      (fun _ _ => 0) { method_name := "leaveMeeting", arguments := none }
      { sdkInitialized := true, event_handler_ := some 7 }).2.2.2.2.1
      (by decide) (by decide) (by decide) (by decide)⟩


/-- Appending one digit to a run of digits. -/
theorem digitsValue_append_single (ds : List Char) (c : Char) :
    digitsValue (ds ++ [c]) = 10 * digitsValue ds + (c.toNat - 48) := by
  simp [digitsValue, List.foldl_append]

/-- The character of a decimal digit is a digit, is not NUL, and has the digit
as its value. -/
theorem digitChar_spec (k : Nat) (hk : k < 10) :
    (Nat.digitChar k).isDigit = true ∧ (Nat.digitChar k).toNat - 48 = k ∧
      ((Nat.digitChar k).toNat != 0) = true := by
  interval_cases k <;> decide

/-- The decimal digits that `Nat.toDigitsCore` puts in front of its accumulator. -/
theorem toDigitsCore_decimal (fuel : Nat) :
    ∀ n, n < fuel →
      ∃ D : List Char, D ≠ [] ∧ (∀ c ∈ D, c.isDigit = true ∧ (c.toNat != 0) = true) ∧
        digitsValue D = n ∧ ∀ ds, Nat.toDigitsCore 10 fuel n ds = D ++ ds := by
  induction fuel with
  | zero => intro n hn; omega
  | succ fuel ih =>
    intro n hn
    have hd := digitChar_spec (n % 10) (Nat.mod_lt _ (by decide))
    by_cases hq : n / 10 = 0
    · refine ⟨[Nat.digitChar (n % 10)], by simp, ?_, ?_, ?_⟩
      · intro c hc
        rw [List.mem_singleton] at hc
        subst hc
        exact ⟨hd.1, hd.2.2⟩
      · have : digitsValue [Nat.digitChar (n % 10)] = (Nat.digitChar (n % 10)).toNat - 48 := by
          simp [digitsValue]
        rw [this, hd.2.1]
        omega
      · intro ds
        simp [Nat.toDigitsCore, hq]
    · obtain ⟨D, hne, hall, hval, hcore⟩ := ih (n / 10) (by omega)
      refine ⟨D ++ [Nat.digitChar (n % 10)], by simp, ?_, ?_, ?_⟩
      · intro c hc
        rcases List.mem_append.1 hc with h | h
        · exact hall c h
        · rw [List.mem_singleton] at h
          subst h
          exact ⟨hd.1, hd.2.2⟩
      · rw [digitsValue_append_single, hval, hd.2.1]
        omega
      · intro ds
        simp [Nat.toDigitsCore, hq, hcore]

/-- A nonempty run of decimal digits without NUL, of value below `2^64`, is
parsed by `stoull` to its value. -/
theorem stoull_digits (D : List Char) (hne : D ≠ [])
    (hall : ∀ c ∈ D, c.isDigit = true ∧ (c.toNat != 0) = true)
    (hlt : digitsValue D < 2 ^ 64) :
    stoull (String.mk D) = some (digitsValue D) := by
  have hc : c_str (String.mk D) = D := by
    unfold c_str
    simp only [String.toList]
    exact List.takeWhile_eq_self_iff.2 (fun c hc => (hall c hc).2)
  have htake : D.takeWhile Char.isDigit = D :=
    List.takeWhile_eq_self_iff.2 (fun c hc => (hall c hc).1)
  obtain ⟨c, rest, rfl⟩ := List.exists_cons_of_ne_nil hne
  have hcd := (hall c (List.mem_cons_self _ _)).1
  have hrange : 48 ≤ c.toNat ∧ c.toNat ≤ 57 := by
    simp only [Char.isDigit, Bool.and_eq_true, decide_eq_true_eq] at hcd
    exact ⟨by simpa using hcd.1, by simpa using hcd.2⟩
  have hsp : isspace c = false := by
    simp only [isspace, Bool.or_eq_false_iff, Bool.and_eq_false_iff, beq_eq_false_iff_ne,
      decide_eq_false_iff_not]
    omega
  have h45 : (c.toNat == 45) = false := by
    simp only [beq_eq_false_iff_ne]
    omega
  have h43 : (c.toNat == 43) = false := by
    simp only [beq_eq_false_iff_ne]
    omega
  unfold stoull
  simp only [hc, List.dropWhile_cons, hsp, h45, h43, Bool.or_self, Bool.false_eq_true, if_false,
    htake]
  have hlt2 : digitsValue (c :: rest) < 18446744073709551616 := by
    norm_num at hlt
    exact hlt
  simp [hlt2]

/-- The decimal digit string of every `n < 2^64` is parsed by `stoull` to `n`. -/
theorem stoull_repr (n : Nat) (hn : n < 2 ^ 64) : stoull (Nat.repr n) = some n := by
  obtain ⟨D, hne, hall, hval, hcore⟩ := toDigitsCore_decimal (n + 1) n (Nat.lt_succ_self n)
  have hrepr : Nat.repr n = String.mk D := by
    simp [Nat.repr, Nat.toDigits, hcore, List.asString]
  rw [hrepr, stoull_digits D hne hall (by rw [hval]; exact hn), hval]

/-- A string stored under the key: `GetUINT64` is the value of `StringToUINT64`. -/
theorem GetUINT64_string (call : MethodCall) (key : String) (m : EncodableMap) (str : String)
    (hm : call.arguments = some (.map m))
    (hfind : EncodableMap.find m (.string key) = some (.string str)) :
    (ArgReader.mk_from call).GetUINT64 key = some (StringToUINT64 str) := by
  rw [GetUINT64_eq, hm]
  simp only
  rw [hfind]

/-- A value of the `int64_t` alternative stored under the key: `GetUINT64` is its
cast to `uint64_t`. -/
theorem GetUINT64_int64 (call : MethodCall) (key : String) (m : EncodableMap) (n : Int)
    (hm : call.arguments = some (.map m))
    (hfind : EncodableMap.find m (.string key) = some (.int64 n)) :
    (ArgReader.mk_from call).GetUINT64 key = some (n % 2 ^ 64).toNat := by
  rw [GetUINT64_eq, hm]
  simp only
  rw [hfind]

/-- A value of the `int32_t` alternative stored under the key: `GetUINT64` is absent. -/
theorem GetUINT64_int32 (call : MethodCall) (key : String) (m : EncodableMap) (n : Int)
    (hm : call.arguments = some (.map m))
    (hfind : EncodableMap.find m (.string key) = some (.int32 n)) :
    (ArgReader.mk_from call).GetUINT64 key = none := by
  rw [GetUINT64_eq, hm]
  simp only
  rw [hfind]

/-- The part of C14 that holds, strings: for every `n < 2^64`, a map whose key
holds the decimal digit string of `n` yields `n`. -/
theorem GetUINT64_decimal_string (call : MethodCall) (key : String) (m : EncodableMap) (n : Nat)
    (hn : n < 2 ^ 64) (hm : call.arguments = some (.map m))
    (hfind : EncodableMap.find m (.string key) = some (.string (Nat.repr n))) :
    (ArgReader.mk_from call).GetUINT64 key = some n := by
  rw [GetUINT64_string call key m _ hm hfind, StringToUINT64, stoull_repr n hn]

/-- The part of C14 that holds, 64-bit integers: for every `0 ≤ n < 2^63`, a map
whose key holds `n` in the `int64_t` alternative yields `n`. -/
theorem GetUINT64_int64_nonneg (call : MethodCall) (key : String) (m : EncodableMap) (n : Nat)
    (hn : n < 2 ^ 63) (hm : call.arguments = some (.map m))
    (hfind : EncodableMap.find m (.string key) = some (.int64 (n : Int))) :
    (ArgReader.mk_from call).GetUINT64 key = some n := by
  rw [GetUINT64_int64 call key m _ hm hfind]
  have h : ((n : Int) % 2 ^ 64).toNat = n := by
    have h1 : ((n : Int) % 2 ^ 64) = ((n % 2 ^ 64 : Nat) : Int) := by
      push_cast
      rfl
    rw [h1, Int.toNat_ofNat]
    exact Nat.mod_eq_of_lt (lt_trans hn (by norm_num))
  rw [h]

/-- C14, the code at the failing input: the meeting number 123456 stored as a
string or in the `int64_t` alternative yields 123456, but stored in the
`int32_t` alternative (the one that holds an integer of this size) `GetInt`
and `GetUINT64` are absent, and `HandleMethodCall` hands the meeting number 0 to
the native `Join` call. -/
theorem GetUINT64_int32_meeting_number :
    (ArgReader.mk_from
      { method_name := "joinMeeting",
        arguments := some (.map [(.string "meetingNumber", .string "123456")]) }).GetUINT64
      "meetingNumber" = some 123456 ∧
    (ArgReader.mk_from
      { method_name := "joinMeeting",
        arguments := some (.map [(.string "meetingNumber", .int64 123456)]) }).GetUINT64
      "meetingNumber" = some 123456 ∧
    (ArgReader.mk_from
      { method_name := "joinMeeting",
        arguments := some (.map [(.string "meetingNumber", .int32 123456)]) }).GetInt
      "meetingNumber" = none ∧
    (ArgReader.mk_from
      { method_name := "joinMeeting",
        arguments := some (.map [(.string "meetingNumber", .int32 123456)]) }).GetUINT64
      "meetingNumber" = none ∧
    (HandleMethodCall (fun e => (e.toCtorIdx : Int)) (fun _ _ str _ => L str) (fun _ _ => 0)
      { method_name := "joinMeeting",
        arguments := some (.map [(.string "meetingNumber", .int32 123456)]) }
      { sdkInitialized := true, event_handler_ := some 7 }).2.nativeCalls =
      [.CreateMeetingService,
       .MeetingService_SetEvent { base := { event_handler_ := some 7 } },
       .Join { userType := .SDK_UT_NORMALUSER, meetingNumber := 0,
               userName := some (L "Zoom User"), psw := some (L ""), isVideoOff := false,
               isAudioOff := false, webinarToken := none }] := by
  decide

/-- The part of C15 that holds: a stored string that `std::stoull` rejects
yields the present value 0. -/
theorem GetUINT64_rejected_string (call : MethodCall) (key : String) (m : EncodableMap)
    (str : String) (hm : call.arguments = some (.map m))
    (hfind : EncodableMap.find m (.string key) = some (.string str))
    (hreject : stoull str = none) :
    (ArgReader.mk_from call).GetUINT64 key = some 0 := by
  rw [GetUINT64_string call key m _ hm hfind, StringToUINT64, hreject]

/-- C15, the code at the failing input: the strings "abc", "" and
"18446744073709551616" (the value `2^64`) are rejected by the parse and yield
the present value 0; but with the integer 5 stored in the `int32_t`
alternative `GetUINT64` is absent although the key holds an integer. -/
theorem GetUINT64_absent_for_int32 :
    (stoull "abc" = none ∧ stoull "" = none ∧ stoull "18446744073709551616" = none) ∧
    (ArgReader.mk_from
      { method_name := "joinMeeting",
        arguments := some (.map [(.string "meetingNumber", .string "abc")]) }).GetUINT64
      "meetingNumber" = some 0 ∧
    (ArgReader.mk_from
      { method_name := "joinMeeting",
        arguments := some (.map [(.string "meetingNumber", .string "")]) }).GetUINT64
      "meetingNumber" = some 0 ∧
    (ArgReader.mk_from
      { method_name := "joinMeeting",
        arguments := some
          (.map [(.string "meetingNumber", .string "18446744073709551616")]) }).GetUINT64
      "meetingNumber" = some 0 ∧
    EncodableMap.find [(.string "meetingNumber", .int32 5)] (.string "meetingNumber")
      = some (.int32 5) ∧
    (ArgReader.mk_from
      { method_name := "joinMeeting",
        arguments := some (.map [(.string "meetingNumber", .int32 5)]) }).GetUINT64
      "meetingNumber" = none := by
  refine ⟨by decide, by decide, by decide, by decide, rfl, by decide⟩

/-- Counterexample to C16 as stated: the stored string "abc" fails to parse and
no integer is stored under the key, yet `GetUINT64` is not absent: it is the
present value 0, so the default of the caller is not used. -/
theorem GetUINT64_fallback_counterexample :
    stoull "abc" = none ∧
    (ArgReader.mk_from
      { method_name := "joinMeeting",
        arguments := some (.map [(.string "meetingNumber", .string "abc")]) }).GetInt
      "meetingNumber" = none ∧
    (ArgReader.mk_from
      { method_name := "joinMeeting",
        arguments := some (.map [(.string "meetingNumber", .string "abc")]) }).GetUINT64
      "meetingNumber" ≠ none ∧
    (ArgReader.mk_from
      { method_name := "joinMeeting",
        arguments := some (.map [(.string "meetingNumber", .string "abc")]) }).GetUINT64
      "meetingNumber" = some 0 := by
  decide

/-- C16 (amended): `GetUINT64` reads the string-typed argument first; when a
string is stored it returns the unsigned decimal parse of it, and the present
value 0 when the parse fails, without falling back.  Only when no string is
stored does it fall back to the argument of the `int64_t` alternative, whose
value it returns reduced modulo `2^64`.  When the payload is not a map, the key
has no entry, or the stored value is neither a string nor an integer, it
returns absent. -/
theorem GetUINT64_order (call : MethodCall) (key : String) :
    (∀ m str, call.arguments = some (.map m) →
      EncodableMap.find m (.string key) = some (.string str) →
      (∀ v, stoull str = some v → (ArgReader.mk_from call).GetUINT64 key = some v) ∧
      (stoull str = none → (ArgReader.mk_from call).GetUINT64 key = some 0)) ∧
    (∀ m n, call.arguments = some (.map m) →
      EncodableMap.find m (.string key) = some (.int64 n) →
      (ArgReader.mk_from call).GetUINT64 key = some (n % 2 ^ 64).toNat) ∧
    (((∀ m, call.arguments ≠ some (.map m)) ∨
      (∃ m, call.arguments = some (.map m) ∧
        ((∀ v, (EncodableValue.string key, v) ∉ m) ∨
         (∃ v, EncodableMap.find m (.string key) = some v ∧
            (∀ str, v ≠ .string str) ∧ (∀ n, v ≠ .int32 n) ∧ (∀ n, v ≠ .int64 n))))) →
      (ArgReader.mk_from call).GetUINT64 key = none) := by
  refine ⟨?_, ?_, ?_⟩
  · intro m str hm hfind
    rw [GetUINT64_string call key m str hm hfind]
    constructor
    · intro v hv
      rw [StringToUINT64, hv]
    · intro hv
      rw [StringToUINT64, hv]
  · intro m n hm hfind
    exact GetUINT64_int64 call key m n hm hfind
  · rintro (hno | ⟨m, hm, hkey | ⟨v, hfind, hs, -, hi⟩⟩)
    · rw [GetUINT64_eq]
      rcases hargs : call.arguments with _ | v
      · rfl
      · cases v <;> try rfl
        exact absurd hargs (hno _)
    · rw [GetUINT64_eq, hm]
      simp only
      rw [(EncodableMap.find_eq_none_iff m _).2 hkey]
    · rw [GetUINT64_eq, hm]
      simp only
      rw [hfind]
      cases v <;> try rfl
      · exact absurd rfl (hi _)
      · exact absurd rfl (hs _)

/-- Witness of C16 (amended): the string "42" is parsed, and a payload without
arguments is absent. -/
theorem GetUINT64_order_witness :
    (({ method_name := "joinMeeting",
        arguments := some (.map [(.string "meetingNumber", .string "42")]) }
        : MethodCall).arguments = some (.map [(.string "meetingNumber", .string "42")]) ∧
      EncodableMap.find [(.string "meetingNumber", .string "42")] (.string "meetingNumber")
        = some (.string "42") ∧
      stoull "42" = some 42) ∧
    (ArgReader.mk_from
      { method_name := "joinMeeting",
        arguments := some (.map [(.string "meetingNumber", .string "42")]) }).GetUINT64
      "meetingNumber" = some 42 :=
  ⟨⟨rfl, rfl, by decide⟩,
    ((GetUINT64_order
      { method_name := "joinMeeting",
        arguments := some (.map [(.string "meetingNumber", .string "42")]) }
      "meetingNumber").1 _ "42" rfl rfl).1 42 (by decide)⟩


/-- A table without the label "UNDEFINED": `ConvertEnumToString` answers
"UNDEFINED" exactly for the values that have no entry. -/
theorem ConvertEnumToString_undefined_iff (names : List (Int × String))
    (hlabels : ∀ e ∈ names, e.2 ≠ "UNDEFINED") (v : Int) :
    ConvertEnumToString v names = "UNDEFINED" ↔ ∀ l, (v, l) ∉ names := by
  induction names with
  | nil => simp [ConvertEnumToString]
  | cons e rest ih =>
    obtain ⟨k, label⟩ := e
    have hrest : ∀ e ∈ rest, e.2 ≠ "UNDEFINED" := fun e he => hlabels e (List.mem_cons_of_mem _ he)
    have hlabel : label ≠ "UNDEFINED" := hlabels (k, label) (List.mem_cons_self _ _)
    by_cases hk : k = v
    · subst hk
      simp only [ConvertEnumToString, if_true]
      constructor
      · intro h
        exact absurd h hlabel
      · intro h
        exact absurd (List.mem_cons_self _ _) (h label)
    · simp only [ConvertEnumToString, if_neg hk]
      rw [ih hrest]
      constructor
      · intro h l hmem
        rcases List.mem_cons.1 hmem with heq | hin
        · exact hk (Prod.mk.inj heq).1.symm
        · exact h l hin
      · intro h l hin
        exact h l (List.mem_cons_of_mem _ hin)

/-- The label of a value is the label of its first entry in the table. -/
theorem ConvertEnumToString_first_entry (pre post : List (Int × String)) (k : Int)
    (label : String) (hfirst : ∀ l, (k, l) ∉ pre) :
    ConvertEnumToString k (pre ++ (k, label) :: post) = label := by
  induction pre with
  | nil => simp [ConvertEnumToString]
  | cons e rest ih =>
    obtain ⟨k2, l2⟩ := e
    have hne : k2 ≠ k := by
      intro h
      subst h
      exact hfirst l2 (List.mem_cons_self _ _)
    simp only [List.cons_append, ConvertEnumToString, if_neg hne]
    exact ih (fun l hl => hfirst l (List.mem_cons_of_mem _ hl))

/-- No table of `helper_enum.h` has an entry labelled "UNDEFINED". -/
theorem EnumToString_overloads_labels (h : EnumValues) :
    ∀ p ∈ EnumToString_overloads h, ∀ e ∈ p.2, e.2 ≠ "UNDEFINED" := by
  intro p hp
  simp only [EnumToString_overloads, List.mem_cons, List.mem_singleton, List.not_mem_nil,
    or_false] at hp
  rcases hp with rfl | rfl | rfl | rfl | rfl | rfl | rfl | rfl | rfl | rfl | rfl | rfl
  · simp [SDKError_names]
  · simp [AuthResult_names]
  · simp [LOGINSTATUS_names]
  · simp [LoginFailReason_names]
  · simp [SDKNotificationServiceStatus_names]
  · simp [SDKNotificationServiceError_names]
  · simp [LoginType_names]
  · simp [MeetingStatus_names]
  · simp [MeetingFailCode_names]
  · simp [MeetingEndReason_names]
  · simp [StatisticsWarningType_names]
  · simp [MeetingType_names]

/-- Every overload of `EnumToString` is `ConvertEnumToString` on its table. -/
theorem EnumToString_overloads_def (h : EnumValues) :
    ∀ p ∈ EnumToString_overloads h, ∀ v, p.1 v = ConvertEnumToString v p.2 := by
  intro p hp v
  simp only [EnumToString_overloads, List.mem_cons, List.mem_singleton, List.not_mem_nil,
    or_false] at hp
  rcases hp with rfl | rfl | rfl | rfl | rfl | rfl | rfl | rfl | rfl | rfl | rfl | rfl <;> rfl

/-- Counterexample to C17 as stated: `helper_enum.h` defines twelve overloads of
`EnumToString`, not thirteen. -/
theorem EnumToString_overloads_count :
    ¬ ∃ h : EnumValues, (EnumToString_overloads h).length = 13 := by
  rintro ⟨h, hlen⟩
  simp [EnumToString_overloads] at hlen

/-- C17 (amended): `helper_enum.h` defines twelve overloads of `EnumToString`.
For each of them and every value `v` of its enumeration, enumerator or not,
`EnumToString(v)` is "UNDEFINED" if and only if `v` has no entry in the static
table of the overload; a value with an entry maps to the label of its entry
(the first one of that value in the initializer list, which is the one the
`std::unordered_map` keeps); and no entry of the table has the label
"UNDEFINED". -/
theorem EnumToString_tables (h : EnumValues) (p : (Int → String) × List (Int × String))
    (hp : p ∈ EnumToString_overloads h) :
    (EnumToString_overloads h).length = 12 ∧
    (∀ v, p.1 v = "UNDEFINED" ↔ ∀ l, (v, l) ∉ p.2) ∧
    (∀ pre post k label, p.2 = pre ++ (k, label) :: post → (∀ l, (k, l) ∉ pre) →
      p.1 k = label) ∧
    (∀ e ∈ p.2, e.2 ≠ "UNDEFINED") := by
  have hdef := EnumToString_overloads_def h p hp
  have hlabels := EnumToString_overloads_labels h p hp
  refine ⟨by simp [EnumToString_overloads], ?_, ?_, hlabels⟩
  · intro v
    rw [hdef v]
    exact ConvertEnumToString_undefined_iff p.2 hlabels v
  · intro pre post k label hsplit hfirst
    rw [hdef k, hsplit]
    exact ConvertEnumToString_first_entry pre post k label hfirst

/-- Witness of C17 (amended): the overload for `MeetingType`, with the
enumerators numbered in table order; the value 7 has no entry. -/
theorem EnumToString_tables_witness :
    ((EnumToString_MeetingType (fun e => (e.toCtorIdx : Int)),
        MeetingType_names (fun e => (e.toCtorIdx : Int))) ∈
      EnumToString_overloads
        { SDKError := fun e => (e.toCtorIdx : Int),
          AuthResult := fun e => (e.toCtorIdx : Int),
          LOGINSTATUS := fun e => (e.toCtorIdx : Int),
          LoginFailReason := fun e => (e.toCtorIdx : Int),
          SDKNotificationServiceStatus := fun e => (e.toCtorIdx : Int),
          SDKNotificationServiceError := fun e => (e.toCtorIdx : Int),
          LoginType := fun e => (e.toCtorIdx : Int),
          MeetingStatus := fun e => (e.toCtorIdx : Int),
          MeetingFailCode := fun e => (e.toCtorIdx : Int),
          MeetingEndReason := fun e => (e.toCtorIdx : Int),
          StatisticsWarningType := fun e => (e.toCtorIdx : Int),
          MeetingType := fun e => (e.toCtorIdx : Int) }) ∧
    (EnumToString_MeetingType (fun e => (e.toCtorIdx : Int)) 7 = "UNDEFINED" ↔
      ∀ l, ((7 : Int), l) ∉ MeetingType_names (fun e => (e.toCtorIdx : Int))) ∧
    EnumToString_MeetingType (fun e => (e.toCtorIdx : Int)) 7 = "UNDEFINED" := by
  have hmem : (EnumToString_MeetingType (fun e => (e.toCtorIdx : Int)),
        MeetingType_names (fun e => (e.toCtorIdx : Int))) ∈
      EnumToString_overloads
        { SDKError := fun e => (e.toCtorIdx : Int),
          AuthResult := fun e => (e.toCtorIdx : Int),
          LOGINSTATUS := fun e => (e.toCtorIdx : Int),
          LoginFailReason := fun e => (e.toCtorIdx : Int),
          SDKNotificationServiceStatus := fun e => (e.toCtorIdx : Int),
          SDKNotificationServiceError := fun e => (e.toCtorIdx : Int),
          LoginType := fun e => (e.toCtorIdx : Int),
          MeetingStatus := fun e => (e.toCtorIdx : Int),
          MeetingFailCode := fun e => (e.toCtorIdx : Int),
          MeetingEndReason := fun e => (e.toCtorIdx : Int),
          StatisticsWarningType := fun e => (e.toCtorIdx : Int),
          MeetingType := fun e => (e.toCtorIdx : Int) } := by
    simp [EnumToString_overloads]
  have h := EnumToString_tables _ _ hmem
  exact ⟨hmem, h.2.1 7, by decide⟩


/-- Running two sequences of calls one after the other. -/
theorem ZoomEventStreamHandler.run_append (a b : List StreamHandlerCall)
    (st : ZoomEventStreamHandler × List (Nat × EncodableValue)) :
    ZoomEventStreamHandler.run (a ++ b) st
      = ZoomEventStreamHandler.run b (ZoomEventStreamHandler.run a st) := by
  simp [ZoomEventStreamHandler.run, List.foldl_append]

/-- A run of `SendEvent` calls leaves the stored channel as it was. -/
theorem ZoomEventStreamHandler.run_sends (sends : List StreamHandlerCall)
    (hsends : ∀ c ∈ sends, ∃ e, c = StreamHandlerCall.SendEvent e) :
    ∀ st, (ZoomEventStreamHandler.run sends st).1 = st.1 := by
  induction sends with
  | nil => intro st; rfl
  | cons c rest ih =>
    intro st
    obtain ⟨e, rfl⟩ := hsends c (List.mem_cons_self _ _)
    have hrest := ih (fun c hc => hsends c (List.mem_cons_of_mem _ hc))
    show (ZoomEventStreamHandler.run rest (ZoomEventStreamHandler.step st (.SendEvent e))).1 = st.1
    rw [hrest]
    rfl

/-- Without an `OnListenInternal` call, a handler that stores no channel still
stores none afterwards. -/
theorem ZoomEventStreamHandler.run_never_subscribed (calls : List StreamHandlerCall)
    (hno : ∀ c ∈ calls, ∀ a ev, c ≠ StreamHandlerCall.OnListenInternal a ev) :
    ∀ st : ZoomEventStreamHandler × List (Nat × EncodableValue), st.1.event_sink_ = none →
      (ZoomEventStreamHandler.run calls st).1.event_sink_ = none := by
  induction calls with
  | nil => intro st hst; exact hst
  | cons c rest ih =>
    intro st hst
    have hrest := ih (fun c hc => hno c (List.mem_cons_of_mem _ hc))
    show (ZoomEventStreamHandler.run rest (ZoomEventStreamHandler.step st c)).1.event_sink_ = none
    apply hrest
    cases c with
    | OnListenInternal a ev => exact absurd rfl (hno _ (List.mem_cons_self _ _) a ev)
    | OnCancelInternal a => rfl
    | SendEvent e => exact hst

/-- A `SendEvent` call on a handler that stores no channel changes nothing. -/
theorem ZoomEventStreamHandler.step_send_none
    (st : ZoomEventStreamHandler × List (Nat × EncodableValue)) (event : EncodableValue)
    (hst : st.1.event_sink_ = none) :
    ZoomEventStreamHandler.step st (.SendEvent event) = st := by
  obtain ⟨h, log⟩ := st
  simp only at hst
  simp [ZoomEventStreamHandler.step, ZoomEventStreamHandler.SendEvent, hst]

/-- C18: the stream handler holds zero or one channel.  After any sequence of
calls `pre` from any handler and delivery log: when the last call of `pre` other
than `SendEvent` is `OnListenInternal` with channel `events`, `SendEvent(event)`
appends exactly one delivery, of `event` unmodified, to `events`; when that last
call is `OnCancelInternal`, or when the handler started without a channel and
`pre` has no `OnListenInternal`, `SendEvent(event)` has no effect at all, now or
later: every continuation `post` ends in the same handler and log as if the
event had never been pushed.  `OnListenInternal` and `OnCancelInternal` deliver
nothing and return a null error. -/
theorem stream_handler_delivery (pre : List StreamHandlerCall) (event : EncodableValue)
    (st : ZoomEventStreamHandler × List (Nat × EncodableValue)) :
    (∀ pre1 arguments events sends,
      pre = pre1 ++ StreamHandlerCall.OnListenInternal arguments events :: sends →
      (∀ c ∈ sends, ∃ e, c = StreamHandlerCall.SendEvent e) →
      (ZoomEventStreamHandler.run (pre ++ [.SendEvent event]) st).2
        = (ZoomEventStreamHandler.run pre st).2 ++ [(events, event)] ∧
      (ZoomEventStreamHandler.run (pre ++ [.SendEvent event]) st).1
        = (ZoomEventStreamHandler.run pre st).1) ∧
    (∀ pre1 arguments sends post,
      pre = pre1 ++ StreamHandlerCall.OnCancelInternal arguments :: sends →
      (∀ c ∈ sends, ∃ e, c = StreamHandlerCall.SendEvent e) →
      ZoomEventStreamHandler.run (pre ++ .SendEvent event :: post) st
        = ZoomEventStreamHandler.run (pre ++ post) st) ∧
    (∀ post, st.1.event_sink_ = none →
      (∀ c ∈ pre, ∀ a ev, c ≠ StreamHandlerCall.OnListenInternal a ev) →
      ZoomEventStreamHandler.run (pre ++ .SendEvent event :: post) st
        = ZoomEventStreamHandler.run (pre ++ post) st) ∧
    (∀ arguments events,
      (ZoomEventStreamHandler.run (pre ++ [.OnListenInternal arguments events]) st).2
        = (ZoomEventStreamHandler.run pre st).2 ∧
      ((ZoomEventStreamHandler.run pre st).1.OnListenInternal arguments events).1 = none) ∧
    (∀ arguments,
      (ZoomEventStreamHandler.run (pre ++ [.OnCancelInternal arguments]) st).2
        = (ZoomEventStreamHandler.run pre st).2 ∧
      ((ZoomEventStreamHandler.run pre st).1.OnCancelInternal arguments).1 = none) := by
  refine ⟨?_, ?_, ?_, ?_, ?_⟩
  · intro pre1 arguments events sends hpre hsends
    have hsink : (ZoomEventStreamHandler.run pre st).1.event_sink_ = some events := by
      rw [hpre, ZoomEventStreamHandler.run_append]
      show (ZoomEventStreamHandler.run sends (ZoomEventStreamHandler.step
        (ZoomEventStreamHandler.run pre1 st) (.OnListenInternal arguments events))).1.event_sink_
        = some events
      rw [ZoomEventStreamHandler.run_sends sends hsends]
      rfl
    rw [ZoomEventStreamHandler.run_append]
    show (ZoomEventStreamHandler.step (ZoomEventStreamHandler.run pre st) (.SendEvent event)).2
        = _ ∧
      (ZoomEventStreamHandler.step (ZoomEventStreamHandler.run pre st) (.SendEvent event)).1 = _
    simp [ZoomEventStreamHandler.step, ZoomEventStreamHandler.SendEvent, hsink]
  · intro pre1 arguments sends post hpre hsends
    have hsink : (ZoomEventStreamHandler.run pre st).1.event_sink_ = none := by
      rw [hpre, ZoomEventStreamHandler.run_append]
      show (ZoomEventStreamHandler.run sends (ZoomEventStreamHandler.step
        (ZoomEventStreamHandler.run pre1 st) (.OnCancelInternal arguments))).1.event_sink_ = none
      rw [ZoomEventStreamHandler.run_sends sends hsends]
      rfl
    rw [ZoomEventStreamHandler.run_append, ZoomEventStreamHandler.run_append]
    show ZoomEventStreamHandler.run post (ZoomEventStreamHandler.step
      (ZoomEventStreamHandler.run pre st) (.SendEvent event)) = _
    rw [ZoomEventStreamHandler.step_send_none _ event hsink]
  · intro post hst hno
    have hsink := ZoomEventStreamHandler.run_never_subscribed pre hno st hst
    rw [ZoomEventStreamHandler.run_append, ZoomEventStreamHandler.run_append]
    show ZoomEventStreamHandler.run post (ZoomEventStreamHandler.step
      (ZoomEventStreamHandler.run pre st) (.SendEvent event)) = _
    rw [ZoomEventStreamHandler.step_send_none _ event hsink]
  · intro arguments events
    rw [ZoomEventStreamHandler.run_append]
    exact ⟨rfl, rfl⟩
  · intro arguments
    rw [ZoomEventStreamHandler.run_append]
    exact ⟨rfl, rfl⟩

/-- Witness of C18: an event pushed before any subscription is lost, and after
subscribing channel 3 the next event is delivered to it once. -/
theorem stream_handler_delivery_witness :
    ([StreamHandlerCall.SendEvent (.string "early"), .OnListenInternal none 3]
        = [StreamHandlerCall.SendEvent (.string "early")] ++
            StreamHandlerCall.OnListenInternal none 3 :: [] ∧
      ∀ c ∈ ([] : List StreamHandlerCall), ∃ e, c = StreamHandlerCall.SendEvent e) ∧
    (ZoomEventStreamHandler.run
        ([StreamHandlerCall.SendEvent (.string "early"), .OnListenInternal none 3] ++
          [.SendEvent (.string "late")]) ({}, [])).2
      = (ZoomEventStreamHandler.run
          [StreamHandlerCall.SendEvent (.string "early"), .OnListenInternal none 3]
          ({}, [])).2 ++ [(3, .string "late")] ∧
    (ZoomEventStreamHandler.run
        [StreamHandlerCall.SendEvent (.string "early"), .OnListenInternal none 3]
        ({}, [])).2 = [] :=
  ⟨⟨rfl, by simp⟩,
    ((stream_handler_delivery
      [StreamHandlerCall.SendEvent (.string "early"), .OnListenInternal none 3]
      (.string "late") ({}, [])).1
      [StreamHandlerCall.SendEvent (.string "early")] none 3 [] rfl (by simp)).1,
    rfl⟩


/-- C19: for every event name `n` and parameter map `p`, `SendEvent(n, p)` of a
listener adapter whose handler pointer is set pushes to that handler exactly
one map, with exactly the four keys platform = "windows", event = `n`,
oriEvent = `n` and params = `p`; with a null handler pointer it pushes nothing. -/
theorem listener_SendEvent (l : ZoomSDKEventListenerBase) (eventName : String)
    (params : EncodableMap) :
    (∀ handler, l.event_handler_ = some handler →
      l.SendEvent eventName params =
        [(handler, .map [(.string "platform", .string "windows"),
                         (.string "event", .string eventName),
                         (.string "oriEvent", .string eventName),
                         (.string "params", .map params)])]) ∧
    (l.event_handler_ = none → l.SendEvent eventName params = []) := by
  constructor
  · intro handler h
    simp [ZoomSDKEventListenerBase.SendEvent, h, EncodableMap.assign, EncodableValue.beq]
  · intro h
    simp [ZoomSDKEventListenerBase.SendEvent, h]

/-- Witness of C19: a listener bound to the handler at address 7. -/
theorem listener_SendEvent_witness :
    ({ event_handler_ := some 7 } : ZoomSDKEventListenerBase).event_handler_ = some 7 ∧
    ({ event_handler_ := some 7 } : ZoomSDKEventListenerBase).SendEvent "onLogout" [] =
      [(7, .map [(.string "platform", .string "windows"),
                 (.string "event", .string "onLogout"),
                 (.string "oriEvent", .string "onLogout"),
                 (.string "params", .map [])])] :=
  ⟨rfl, (listener_SendEvent { event_handler_ := some 7 } "onLogout" []).1 7 rfl⟩

/-- C20: for every meeting status `s` and integer `iResult`,
`onMeetingStatusChanged` sends the event "onMeetingStatusChanged" with params of
exactly the six keys statusCode, statusLabel, errorCode, errorLabel,
endReasonCode and endReasonLabel, where statusCode = int(s) and statusLabel =
EnumToString(s).  When `s` is FAILED the error pair is `iResult` with its label
as a `MeetingFailCode` and the end-reason pair is the sentinel
(-99, "NO_PROVIDED"); when `s` is ENDED (an enumerator the vendor header gives
a value other than that of FAILED) the end-reason pair is `iResult` with its
label as a `MeetingEndReason` and the error pair is the sentinel; for every
other status both pairs are the sentinel and `iResult` does not occur in the
event. -/
theorem onMeetingStatusChanged_params (statusValue : MeetingStatusName → MeetingStatus)
    (failValue : MeetingFailCodeName → MeetingFailCode)
    (endValue : MeetingEndReasonName → MeetingEndReason)
    (l : ZoomSDKEventListenerMeetingService) (status : MeetingStatus) (iResult : Int) :
    (status = statusValue .MEETING_STATUS_FAILED →
      l.onMeetingStatusChanged statusValue failValue endValue status iResult =
        l.base.SendEvent "onMeetingStatusChanged"
          [(.string "statusCode", .int32 status),
           (.string "statusLabel", .string (EnumToString_MeetingStatus statusValue status)),
           (.string "errorCode", .int32 iResult),
           (.string "errorLabel", .string (EnumToString_MeetingFailCode failValue iResult)),
           (.string "endReasonCode", .int32 (-99)),
           (.string "endReasonLabel", .string "NO_PROVIDED")]) ∧
    (status = statusValue .MEETING_STATUS_ENDED →
      statusValue .MEETING_STATUS_ENDED ≠ statusValue .MEETING_STATUS_FAILED →
      l.onMeetingStatusChanged statusValue failValue endValue status iResult =
        l.base.SendEvent "onMeetingStatusChanged"
          [(.string "statusCode", .int32 status),
           (.string "statusLabel", .string (EnumToString_MeetingStatus statusValue status)),
           (.string "errorCode", .int32 (-99)),
           (.string "errorLabel", .string "NO_PROVIDED"),
           (.string "endReasonCode", .int32 iResult),
           (.string "endReasonLabel",
              .string (EnumToString_MeetingEndReason endValue iResult))]) ∧
    (status ≠ statusValue .MEETING_STATUS_FAILED →
      status ≠ statusValue .MEETING_STATUS_ENDED →
      l.onMeetingStatusChanged statusValue failValue endValue status iResult =
        l.base.SendEvent "onMeetingStatusChanged"
          [(.string "statusCode", .int32 status),
           (.string "statusLabel", .string (EnumToString_MeetingStatus statusValue status)),
           (.string "errorCode", .int32 (-99)),
           (.string "errorLabel", .string "NO_PROVIDED"),
           (.string "endReasonCode", .int32 (-99)),
           (.string "endReasonLabel", .string "NO_PROVIDED")]) := by
  refine ⟨?_, ?_, ?_⟩
  · intro h
    simp [ZoomSDKEventListenerMeetingService.onMeetingStatusChanged, h, EncodableMap.assign,
      EncodableValue.beq]
  · intro h hne
    simp [ZoomSDKEventListenerMeetingService.onMeetingStatusChanged, h, hne, EncodableMap.assign,
      EncodableValue.beq]
  · intro h1 h2
    simp [ZoomSDKEventListenerMeetingService.onMeetingStatusChanged, h1, h2, EncodableMap.assign,
      EncodableValue.beq]

/-- Witness of C20: with the enumerators numbered in table order, FAILED is 6
and ENDED is 7; the status ENDED with end reason 2 is reported by a listener
bound to the handler at address 7. -/
theorem onMeetingStatusChanged_params_witness :
    ((7 : Int) = (fun e => (e.toCtorIdx : Int)) MeetingStatusName.MEETING_STATUS_ENDED ∧
      (fun e => (e.toCtorIdx : Int)) MeetingStatusName.MEETING_STATUS_ENDED ≠
        (fun e => (e.toCtorIdx : Int)) MeetingStatusName.MEETING_STATUS_FAILED) ∧
    ({ base := { event_handler_ := some 7 } }
        : ZoomSDKEventListenerMeetingService).onMeetingStatusChanged
        (fun e => (e.toCtorIdx : Int)) (fun e => (e.toCtorIdx : Int))
        (fun e => (e.toCtorIdx : Int)) 7 2 =
      ({ event_handler_ := some 7 } : ZoomSDKEventListenerBase).SendEvent
        "onMeetingStatusChanged"
        [(.string "statusCode", .int32 7),
         (.string "statusLabel",
            .string (EnumToString_MeetingStatus (fun e => (e.toCtorIdx : Int)) 7)),
         (.string "errorCode", .int32 (-99)),
         (.string "errorLabel", .string "NO_PROVIDED"),
         (.string "endReasonCode", .int32 2),
         (.string "endReasonLabel",
            .string (EnumToString_MeetingEndReason (fun e => (e.toCtorIdx : Int)) 2))] :=
  ⟨⟨by decide, by decide⟩,
    (onMeetingStatusChanged_params (fun e => (e.toCtorIdx : Int)) (fun e => (e.toCtorIdx : Int))
      (fun e => (e.toCtorIdx : Int)) { base := { event_handler_ := some 7 } } 7 2).2.1
      (by decide) (by decide)⟩


/-- Counterexample to C24 as stated: after plugin teardown of an initialized
state no sink is registered; the service creation of `AuthZoom` (resp.
`JoinMeeting`) then succeeds, yet the auth (resp. meeting) listener is not
replaced by a fresh instance: there is no listener after the call. -/
theorem listener_replacement_counterexample :
    (FlutterZoomMeetingSdkPlugin.destroy
      { sdkInitialized := true, event_handler_ := some 7 }).sdkInitialized = true ∧
    (fun _ _ => 0 : ZoomSDK)
      (FlutterZoomMeetingSdkPlugin.destroy
        { sdkInitialized := true, event_handler_ := some 7 }).nativeCalls .CreateAuthService
      = (fun e => (e.toCtorIdx : Int)) SDKErrorName.SDKERR_SUCCESS ∧
    (AuthZoom (fun e => (e.toCtorIdx : Int)) (fun _ _ => 0) (L "jwt")
      (FlutterZoomMeetingSdkPlugin.destroy
        { sdkInitialized := true, event_handler_ := some 7 })).2.authListener = none ∧
    (JoinMeeting (fun e => (e.toCtorIdx : Int)) (fun _ _ => 0) 123456 (L "pw") (L "me") none
      (FlutterZoomMeetingSdkPlugin.destroy
        { sdkInitialized := true, event_handler_ := some 7 })).2.meetingListener = none := by
  decide

/-- C24 (amended): on each `AuthZoom` (resp. `JoinMeeting`) call made with the
init flag true in which native service creation succeeds and a sink `h` is
registered, the auth (resp. meeting) listener is replaced, whatever it was, by
a fresh instance bound to `h`; the listener is held in an optional owner, so at
most one of each kind exists.  In every state and for every native result
`AuthZoom` leaves the meeting listener and `JoinMeeting` the auth listener as
they were, and plugin teardown leaves both listeners absent. -/
theorem listener_replacement (value : SDKErrorName → SDKError) (sdk : ZoomSDK)
    (s : PluginState) (token : WString) (meetingNumber : Nat) (password displayName : WString)
    (webinarToken : Option WString) :
    (∀ h, s.sdkInitialized = true → s.event_handler_ = some h →
      sdk s.nativeCalls .CreateAuthService = value .SDKERR_SUCCESS →
      (AuthZoom value sdk token s).2.authListener
        = some { base := { event_handler_ := some h } }) ∧
    (∀ h, s.sdkInitialized = true → s.event_handler_ = some h →
      sdk s.nativeCalls .CreateMeetingService = value .SDKERR_SUCCESS →
      (JoinMeeting value sdk meetingNumber password displayName webinarToken s).2.meetingListener
        = some { base := { event_handler_ := some h } }) ∧
    (AuthZoom value sdk token s).2.meetingListener = s.meetingListener ∧
    (JoinMeeting value sdk meetingNumber password displayName webinarToken s).2.authListener
      = s.authListener ∧
    (FlutterZoomMeetingSdkPlugin.destroy s).authListener = none ∧
    (FlutterZoomMeetingSdkPlugin.destroy s).meetingListener = none := by
  obtain ⟨flag, authL, meetingL, sink, calls⟩ := s
  refine ⟨?_, ?_, ?_, ?_, rfl, rfl⟩
  · intro h hflag hsink hcreate
    simp only at hflag hsink hcreate
    subst hflag hsink
    simp only [AuthZoom, callNative, ZoomEventManager.GetEventHandler,
      ZoomSDKEventListenerBase.SetEventHandler, hcreate]
    split_ifs <;> simp_all
  · intro h hflag hsink hcreate
    simp only at hflag hsink hcreate
    subst hflag hsink
    simp only [JoinMeeting, callNative, ZoomEventManager.GetEventHandler,
      ZoomSDKEventListenerBase.SetEventHandler, hcreate]
    split_ifs <;> simp_all
  · simp only [AuthZoom, callNative, ZoomEventManager.GetEventHandler]
    split_ifs <;> rfl
  · simp only [JoinMeeting, callNative, ZoomEventManager.GetEventHandler]
    split_ifs <;> rfl

/-- Witness of C24 (amended): an earlier auth listener bound to handler 3 is
replaced by one bound to the registered handler 7. -/
theorem listener_replacement_witness :
    (({ sdkInitialized := true, event_handler_ := some 7,
        authListener := some { base := { event_handler_ := some 3 } } }
        : PluginState).sdkInitialized = true ∧
      ({ sdkInitialized := true, event_handler_ := some 7,
         authListener := some { base := { event_handler_ := some 3 } } }
        : PluginState).event_handler_ = some 7) ∧
    (AuthZoom (fun e => (e.toCtorIdx : Int)) (fun _ _ => 0) (L "jwt")
      { sdkInitialized := true, event_handler_ := some 7,
        authListener := some { base := { event_handler_ := some 3 } } }).2.authListener
      = some { base := { event_handler_ := some 7 } } :=
  ⟨⟨rfl, rfl⟩,
    (listener_replacement (fun e => (e.toCtorIdx : Int)) (fun _ _ => 0)
      { sdkInitialized := true, event_handler_ := some 7,
        authListener := some { base := { event_handler_ := some 3 } } }
      (L "jwt") 123456 (L "pw") (L "me") none).1 7 rfl rfl (by decide)⟩

/-- C25: with the init flag true, for every result `r` of the native teardown
call, also one for which `isSuccess` is false, the message of `UnInitZoom` is
"MSG_UNINIT_SUCCESS": the message alone does not tell a failed teardown from a
successful one. -/
theorem UnInitZoom_message (value : SDKErrorName → SDKError) (sdk : ZoomSDK)
    (s : PluginState) (r : SDKError) (hflag : s.sdkInitialized = true)
    (hr : sdk s.nativeCalls .CleanUPSDK = r) :
    (UnInitZoom value sdk s).1.message = "MSG_UNINIT_SUCCESS" ∧
    (r ≠ value .SDKERR_SUCCESS →
      (UnInitZoom value sdk s).1.isSuccess = false ∧
      (UnInitZoom value sdk s).1.message = "MSG_UNINIT_SUCCESS") ∧
    (r = value .SDKERR_SUCCESS →
      (UnInitZoom value sdk s).1.isSuccess = true ∧
      (UnInitZoom value sdk s).1.message = "MSG_UNINIT_SUCCESS") := by
  subst hr
  by_cases h : sdk s.nativeCalls .CleanUPSDK = value .SDKERR_SUCCESS <;>
  simp [UnInitZoom, callNative, hflag, h, status_params]

/-- Witness of C25: the native teardown returns 3, not `SDKERR_SUCCESS`; the
envelope is a failure with the message "MSG_UNINIT_SUCCESS". -/
theorem UnInitZoom_message_witness :
    (({ sdkInitialized := true } : PluginState).sdkInitialized = true ∧
      (fun _ _ => 3 : ZoomSDK) ({ sdkInitialized := true } : PluginState).nativeCalls
        .CleanUPSDK = 3 ∧
      (3 : SDKError) ≠ (fun e => (e.toCtorIdx : Int)) SDKErrorName.SDKERR_SUCCESS) ∧
    (UnInitZoom (fun e => (e.toCtorIdx : Int)) (fun _ _ => 3)
      { sdkInitialized := true }).1.isSuccess = false ∧
    (UnInitZoom (fun e => (e.toCtorIdx : Int)) (fun _ _ => 3)
      { sdkInitialized := true }).1.message = "MSG_UNINIT_SUCCESS" :=
  ⟨⟨rfl, rfl, by decide⟩,
    (UnInitZoom_message (fun e => (e.toCtorIdx : Int)) (fun _ _ => 3)
      { sdkInitialized := true } 3 rfl rfl).2.1 (by decide)⟩

/-- C26: plugin teardown clears the sink registration and both listeners and
leaves the init flag (and the log of native calls) as it was.  When the flag
was true, a following `InitZoom` answers "MSG_INITIALIZED" and makes no native
call, and a following `AuthZoom` or `JoinMeeting` passes the initialization
gate (it calls the service creation) and, when that creation succeeds, fails
with "MSG_ZOOM_EVENT_MANAGER_HANDLER_NOT_AVAILABLE" without an auth or join
request. -/
theorem teardown_keeps_init_flag (value : SDKErrorName → SDKError) (sdk : ZoomSDK)
    (s : PluginState) (token : WString) (meetingNumber : Nat) (password displayName : WString)
    (webinarToken : Option WString) :
    ((FlutterZoomMeetingSdkPlugin.destroy s).event_handler_ = none ∧
      (FlutterZoomMeetingSdkPlugin.destroy s).authListener = none ∧
      (FlutterZoomMeetingSdkPlugin.destroy s).meetingListener = none ∧
      (FlutterZoomMeetingSdkPlugin.destroy s).sdkInitialized = s.sdkInitialized ∧
      (FlutterZoomMeetingSdkPlugin.destroy s).nativeCalls = s.nativeCalls) ∧
    (s.sdkInitialized = true →
      ((InitZoom value sdk (FlutterZoomMeetingSdkPlugin.destroy s)).1.isSuccess = true ∧
        (InitZoom value sdk (FlutterZoomMeetingSdkPlugin.destroy s)).1.message
          = "MSG_INITIALIZED" ∧
        (InitZoom value sdk (FlutterZoomMeetingSdkPlugin.destroy s)).2
          = FlutterZoomMeetingSdkPlugin.destroy s) ∧
      (sdk s.nativeCalls .CreateAuthService = value .SDKERR_SUCCESS →
        (AuthZoom value sdk token (FlutterZoomMeetingSdkPlugin.destroy s)).1.isSuccess = false ∧
        (AuthZoom value sdk token (FlutterZoomMeetingSdkPlugin.destroy s)).1.message
          = "MSG_ZOOM_EVENT_MANAGER_HANDLER_NOT_AVAILABLE" ∧
        (AuthZoom value sdk token (FlutterZoomMeetingSdkPlugin.destroy s)).2.nativeCalls
          = s.nativeCalls ++ [.CreateAuthService]) ∧
      (sdk s.nativeCalls .CreateMeetingService = value .SDKERR_SUCCESS →
        (JoinMeeting value sdk meetingNumber password displayName webinarToken
          (FlutterZoomMeetingSdkPlugin.destroy s)).1.isSuccess = false ∧
        (JoinMeeting value sdk meetingNumber password displayName webinarToken
          (FlutterZoomMeetingSdkPlugin.destroy s)).1.message
          = "MSG_ZOOM_EVENT_MANAGER_HANDLER_NOT_AVAILABLE" ∧
        (JoinMeeting value sdk meetingNumber password displayName webinarToken
          (FlutterZoomMeetingSdkPlugin.destroy s)).2.nativeCalls
          = s.nativeCalls ++ [.CreateMeetingService])) := by
  obtain ⟨flag, authL, meetingL, sink, calls⟩ := s
  refine ⟨⟨rfl, rfl, rfl, rfl, rfl⟩, ?_⟩
  intro hflag
  simp only at hflag
  subst hflag
  refine ⟨?_, ?_, ?_⟩
  · simp [InitZoom, FlutterZoomMeetingSdkPlugin.destroy, ZoomEventManager.SetEventHandler,
      plain_response]
  · intro hcreate
    simp only at hcreate
    simp [AuthZoom, callNative, FlutterZoomMeetingSdkPlugin.destroy,
      ZoomEventManager.SetEventHandler, ZoomEventManager.GetEventHandler, hcreate,
      plain_response]
  · intro hcreate
    simp only at hcreate
    simp [JoinMeeting, callNative, FlutterZoomMeetingSdkPlugin.destroy,
      ZoomEventManager.SetEventHandler, ZoomEventManager.GetEventHandler, hcreate,
      plain_response]

/-- Witness of C26: teardown of an initialized plugin with sink 7 and an auth
listener, followed by `AuthZoom`. -/
theorem teardown_keeps_init_flag_witness :
    (({ sdkInitialized := true, event_handler_ := some 7, authListener := some {} }
        : PluginState).sdkInitialized = true ∧
      (fun _ _ => 0 : ZoomSDK)
        ({ sdkInitialized := true, event_handler_ := some 7, authListener := some {} }
          : PluginState).nativeCalls .CreateAuthService
        = (fun e => (e.toCtorIdx : Int)) SDKErrorName.SDKERR_SUCCESS) ∧
    (AuthZoom (fun e => (e.toCtorIdx : Int)) (fun _ _ => 0) (L "jwt")
      (FlutterZoomMeetingSdkPlugin.destroy
        { sdkInitialized := true, event_handler_ := some 7, authListener := some {} })).1.message
      = "MSG_ZOOM_EVENT_MANAGER_HANDLER_NOT_AVAILABLE" :=
  ⟨⟨rfl, by decide⟩,
    (((teardown_keeps_init_flag (fun e => (e.toCtorIdx : Int)) (fun _ _ => 0)
      { sdkInitialized := true, event_handler_ := some 7, authListener := some {} }
      (L "jwt") 123456 (L "pw") (L "me") none).2 rfl).2.1 (by decide)).2.1⟩


/-- The part of C27 that holds: a negative `v` with `-2^63 ≤ v` stored in the
`int64_t` alternative yields the present value `2^64 + v`, which is neither 0
nor below `2^63`. -/
theorem GetUINT64_int64_negative (call : MethodCall) (key : String) (m : EncodableMap) (v : Int)
    (hlo : -2 ^ 63 ≤ v) (hneg : v < 0) (hm : call.arguments = some (.map m))
    (hfind : EncodableMap.find m (.string key) = some (.int64 v)) :
    (ArgReader.mk_from call).GetUINT64 key = some (2 ^ 64 + v).toNat ∧
    2 ^ 63 ≤ (2 ^ 64 + v).toNat ∧ ((2 ^ 64 + v).toNat : Int) = 2 ^ 64 + v := by
  rw [GetUINT64_int64 call key m _ hm hfind]
  have hmod : v % 2 ^ 64 = 2 ^ 64 + v := by
    have h1 : v % 2 ^ 64 = (v + 2 ^ 64) % 2 ^ 64 := by
      rw [Int.add_emod_self]
    rw [h1, Int.emod_eq_of_lt (by omega) (by omega)]
    omega
  rw [hmod]
  refine ⟨rfl, ?_, ?_⟩
  · omega
  · omega

/-- C27, the code at the failing input: the negative meeting number -5 stored
in the `int64_t` alternative yields `2^64 - 5`, but stored in the `int32_t`
alternative (the one that holds an integer of this size) `GetUINT64` is absent,
and `HandleMethodCall` hands the meeting number 0 to the native `Join` call. -/
theorem GetUINT64_negative_int32 :
    (ArgReader.mk_from
      { method_name := "joinMeeting",
        arguments := some (.map [(.string "meetingNumber", .int64 (-5))]) }).GetUINT64
      "meetingNumber" = some 18446744073709551611 ∧
    (ArgReader.mk_from
      { method_name := "joinMeeting",
        arguments := some (.map [(.string "meetingNumber", .int32 (-5))]) }).GetUINT64
      "meetingNumber" = none ∧
    (HandleMethodCall (fun e => (e.toCtorIdx : Int)) (fun _ _ str _ => L str) (fun _ _ => 0)
      { method_name := "joinMeeting",
        arguments := some (.map [(.string "meetingNumber", .int32 (-5))]) }
      { sdkInitialized := true, event_handler_ := some 7 }).2.nativeCalls =
      [.CreateMeetingService,
       .MeetingService_SetEvent { base := { event_handler_ := some 7 } },
       .Join { userType := .SDK_UT_NORMALUSER, meetingNumber := 0,
               userName := some (L "Zoom User"), psw := some (L ""), isVideoOff := false,
               isAudioOff := false, webinarToken := none }] ∧
    (HandleMethodCall (fun e => (e.toCtorIdx : Int)) (fun _ _ str _ => L str) (fun _ _ => 0)
      { method_name := "joinMeeting",
        arguments := some (.map [(.string "meetingNumber", .int64 (-5))]) }
      { sdkInitialized := true, event_handler_ := some 7 }).2.nativeCalls =
      [.CreateMeetingService,
       .MeetingService_SetEvent { base := { event_handler_ := some 7 } },
       .Join { userType := .SDK_UT_NORMALUSER, meetingNumber := 18446744073709551611,
               userName := some (L "Zoom User"), psw := some (L ""), isVideoOff := false,
               isAudioOff := false, webinarToken := none }] := by
  decide

/-- The label of a value that has an entry is a label of the table. -/
theorem ConvertEnumToString_mem (names : List (Int × String)) (v : Int)
    (hentry : ∃ l, (v, l) ∈ names) :
    ConvertEnumToString v names ∈ names.map Prod.snd := by
  induction names with
  | nil =>
    obtain ⟨l, hl⟩ := hentry
    cases hl
  | cons e rest ih =>
    obtain ⟨k, label⟩ := e
    by_cases hk : k = v
    · simp [ConvertEnumToString, hk]
    · simp only [ConvertEnumToString, if_neg hk, List.map_cons, List.mem_cons]
      right
      apply ih
      obtain ⟨l, hl⟩ := hentry
      rcases List.mem_cons.1 hl with heq | hin
      · exact absurd (Prod.mk.inj heq).1.symm hk
      · exact ⟨l, hin⟩

/-- In a table whose labels are pairwise distinct, two values with entries and
the same label are equal. -/
theorem ConvertEnumToString_injective (names : List (Int × String))
    (hnodup : (names.map Prod.snd).Nodup) (a b : Int)
    (ha : ∃ l, (a, l) ∈ names) (hb : ∃ l, (b, l) ∈ names)
    (heq : ConvertEnumToString a names = ConvertEnumToString b names) : a = b := by
  induction names with
  | nil =>
    obtain ⟨l, hl⟩ := ha
    cases hl
  | cons e rest ih =>
    obtain ⟨k, label⟩ := e
    rw [List.map_cons, List.nodup_cons] at hnodup
    have hrest : ∀ v, (∃ l, (v, l) ∈ (k, label) :: rest) → k ≠ v → ∃ l, (v, l) ∈ rest := by
      intro v hv hne
      obtain ⟨l, hl⟩ := hv
      rcases List.mem_cons.1 hl with h | h
      · exact absurd (Prod.mk.inj h).1.symm hne
      · exact ⟨l, h⟩
    by_cases hka : k = a <;> by_cases hkb : k = b
    · rw [← hka, ← hkb]
    · exfalso
      have hmem := ConvertEnumToString_mem rest b (hrest b hb hkb)
      subst hka
      simp only [ConvertEnumToString, if_true, if_neg hkb] at heq
      rw [← heq] at hmem
      exact hnodup.1 hmem
    · exfalso
      have hmem := ConvertEnumToString_mem rest a (hrest a ha hka)
      subst hkb
      simp only [ConvertEnumToString, if_true, if_neg hka] at heq
      rw [heq] at hmem
      exact hnodup.1 hmem
    · simp only [ConvertEnumToString, if_neg hka, if_neg hkb] at heq
      exact ih hnodup.2 (hrest a ha hka) (hrest b hb hkb) heq

/-- The labels of every table of `helper_enum.h` are pairwise distinct. -/
theorem EnumToString_overloads_nodup (h : EnumValues) :
    ∀ p ∈ EnumToString_overloads h, (p.2.map Prod.snd).Nodup := by
  intro p hp
  simp only [EnumToString_overloads, List.mem_cons, List.mem_singleton, List.not_mem_nil,
    or_false] at hp
  rcases hp with rfl | rfl | rfl | rfl | rfl | rfl | rfl | rfl | rfl | rfl | rfl | rfl
  · simp only [SDKError_names, List.map]; decide
  · simp only [AuthResult_names, List.map]; decide
  · simp only [LOGINSTATUS_names, List.map]; decide
  · simp only [LoginFailReason_names, List.map]; decide
  · simp only [SDKNotificationServiceStatus_names, List.map]; decide
  · simp only [SDKNotificationServiceError_names, List.map]; decide
  · simp only [LoginType_names, List.map]; decide
  · simp only [MeetingStatus_names, List.map]; decide
  · simp only [MeetingFailCode_names, List.map]; decide
  · simp only [MeetingEndReason_names, List.map]; decide
  · simp only [StatisticsWarningType_names, List.map]; decide
  · simp only [MeetingType_names, List.map]; decide

/-- C28: within each `EnumToString` table the labels are pairwise distinct, and
for every two values `a` and `b` of the same enumeration that both have table
entries, `EnumToString(a) = EnumToString(b)` implies `a = b`. -/
theorem EnumToString_labels_distinct (h : EnumValues)
    (p : (Int → String) × List (Int × String)) (hp : p ∈ EnumToString_overloads h) :
    (p.2.map Prod.snd).Nodup ∧
    (∀ a b : Int, (∃ l, (a, l) ∈ p.2) → (∃ l, (b, l) ∈ p.2) → p.1 a = p.1 b → a = b) := by
  have hnodup := EnumToString_overloads_nodup h p hp
  refine ⟨hnodup, ?_⟩
  intro a b ha hb heq
  rw [EnumToString_overloads_def h p hp a, EnumToString_overloads_def h p hp b] at heq
  exact ConvertEnumToString_injective p.2 hnodup a b ha hb heq

/-- Witness of C28: the table of `MeetingType`, with the enumerators numbered in
table order; the values 1 and 2 both have entries. -/
theorem EnumToString_labels_distinct_witness :
    ((EnumToString_MeetingType (fun e => (e.toCtorIdx : Int)),
        MeetingType_names (fun e => (e.toCtorIdx : Int))) ∈
      EnumToString_overloads
        { SDKError := fun e => (e.toCtorIdx : Int),
          AuthResult := fun e => (e.toCtorIdx : Int),
          LOGINSTATUS := fun e => (e.toCtorIdx : Int),
          LoginFailReason := fun e => (e.toCtorIdx : Int),
          SDKNotificationServiceStatus := fun e => (e.toCtorIdx : Int),
          SDKNotificationServiceError := fun e => (e.toCtorIdx : Int),
          LoginType := fun e => (e.toCtorIdx : Int),
          MeetingStatus := fun e => (e.toCtorIdx : Int),
          MeetingFailCode := fun e => (e.toCtorIdx : Int),
          MeetingEndReason := fun e => (e.toCtorIdx : Int),
          StatisticsWarningType := fun e => (e.toCtorIdx : Int),
          MeetingType := fun e => (e.toCtorIdx : Int) } ∧
      ((1 : Int), "NORMAL") ∈ MeetingType_names (fun e => (e.toCtorIdx : Int)) ∧
      ((2 : Int), "WEBINAR") ∈ MeetingType_names (fun e => (e.toCtorIdx : Int))) ∧
    (EnumToString_MeetingType (fun e => (e.toCtorIdx : Int)) 1
        = EnumToString_MeetingType (fun e => (e.toCtorIdx : Int)) 2 → (1 : Int) = 2) := by
  have hmem : (EnumToString_MeetingType (fun e => (e.toCtorIdx : Int)),
        MeetingType_names (fun e => (e.toCtorIdx : Int))) ∈
      EnumToString_overloads
        { SDKError := fun e => (e.toCtorIdx : Int),
          AuthResult := fun e => (e.toCtorIdx : Int),
          LOGINSTATUS := fun e => (e.toCtorIdx : Int),
          LoginFailReason := fun e => (e.toCtorIdx : Int),
          SDKNotificationServiceStatus := fun e => (e.toCtorIdx : Int),
          SDKNotificationServiceError := fun e => (e.toCtorIdx : Int),
          LoginType := fun e => (e.toCtorIdx : Int),
          MeetingStatus := fun e => (e.toCtorIdx : Int),
          MeetingFailCode := fun e => (e.toCtorIdx : Int),
          MeetingEndReason := fun e => (e.toCtorIdx : Int),
          StatisticsWarningType := fun e => (e.toCtorIdx : Int),
          MeetingType := fun e => (e.toCtorIdx : Int) } := by
    simp [EnumToString_overloads]
  have h1 : ((1 : Int), "NORMAL") ∈ MeetingType_names (fun e => (e.toCtorIdx : Int)) := by
    decide
  have h2 : ((2 : Int), "WEBINAR") ∈ MeetingType_names (fun e => (e.toCtorIdx : Int)) := by
    decide
  exact ⟨⟨hmem, h1, h2⟩, (EnumToString_labels_distinct _ _ hmem).2 1 2 ⟨_, h1⟩ ⟨_, h2⟩⟩

/-- The lookup after an assignment: the assigned key holds the new value, every
other key what it held before. -/
theorem EncodableMap.find_assign (m : EncodableMap) (k v k2 : EncodableValue) :
    EncodableMap.find (EncodableMap.assign m k v) k2 =
      if EncodableValue.beq k k2 then some v else EncodableMap.find m k2 := by
  induction m with
  | nil => simp [EncodableMap.assign, EncodableMap.find]
  | cons e rest ih =>
    obtain ⟨k0, v0⟩ := e
    by_cases h0 : EncodableValue.beq k0 k = true
    · have hk : k0 = k := (EncodableValue.beq_iff k0 k).1 h0
      subst hk
      simp only [EncodableMap.assign, h0, if_true, EncodableMap.find]
      by_cases h2 : EncodableValue.beq k0 k2 = true
      · simp [h2]
      · simp [h2]
    · have h0f : EncodableValue.beq k0 k = false := by simpa using h0
      simp only [EncodableMap.assign, h0f, Bool.false_eq_true, if_false, EncodableMap.find, ih]
      by_cases h2 : EncodableValue.beq k0 k2 = true
      · have hk2 : k0 = k2 := (EncodableValue.beq_iff k0 k2).1 h2
        have hne : ¬ EncodableValue.beq k k2 = true := by
          intro h
          have : k = k2 := (EncodableValue.beq_iff k k2).1 h
          apply h0
          rw [hk2, this]
          exact (EncodableValue.beq_iff k2 k2).2 rfl
        simp [h2, hne]
      · simp [h2]

/-- A projection of the builder that no call of a sequence changes is the same
after the sequence. -/
theorem ZoomResponseBuilder.foldl_preserve {β : Type} (f : ZoomResponseBuilder → β)
    (calls : List ZoomResponseBuilderCall)
    (hkeep : ∀ c ∈ calls, ∀ b : ZoomResponseBuilder, f (b.call c) = f b) :
    ∀ b : ZoomResponseBuilder, f (calls.foldl ZoomResponseBuilder.call b) = f b := by
  induction calls with
  | nil => intro b; rfl
  | cons c rest ih =>
    intro b
    rw [List.foldl_cons, ih (fun c hc => hkeep c (List.mem_cons_of_mem _ hc)),
      hkeep c (List.mem_cons_self _ _)]

/-- A projection of the builder after a sequence of calls, when the call `c`
fixes the projection to `x` and no later call changes it. -/
theorem ZoomResponseBuilder.foldl_last {β : Type} (f : ZoomResponseBuilder → β) (x : β)
    (pre post : List ZoomResponseBuilderCall) (c : ZoomResponseBuilderCall)
    (hset : ∀ b : ZoomResponseBuilder, f (b.call c) = x)
    (hkeep : ∀ d ∈ post, ∀ b : ZoomResponseBuilder, f (b.call d) = f b)
    (b : ZoomResponseBuilder) :
    f ((pre ++ c :: post).foldl ZoomResponseBuilder.call b) = x := by
  rw [List.foldl_append, List.foldl_cons, ZoomResponseBuilder.foldl_preserve f post hkeep, hset]

/-- The action tag of the envelope of each of the four operations. -/
theorem operation_action (value : SDKErrorName → SDKError) (sdk : ZoomSDK) (s : PluginState)
    (token : WString) (meetingNumber : Nat) (password displayName : WString)
    (webinarToken : Option WString) :
    (InitZoom value sdk s).1.action = "initZoom" ∧
    (AuthZoom value sdk token s).1.action = "authZoom" ∧
    (JoinMeeting value sdk meetingNumber password displayName webinarToken s).1.action
      = "joinMeeting" ∧
    (UnInitZoom value sdk s).1.action = "unInitZoom" := by
  refine ⟨?_, ?_, ?_, ?_⟩
  · simp only [InitZoom, callNative, status_params, plain_response]
    split_ifs <;> rfl
  · simp only [AuthZoom, callNative, status_params, plain_response]
    split_ifs <;> rfl
  · simp only [JoinMeeting, callNative, status_params, plain_response]
    split_ifs <;> rfl
  · simp only [UnInitZoom, callNative, status_params, plain_response]
    split_ifs <;> rfl

/-- C23: for every action tag `a` and every sequence of `Success`, `Message` and
`Param` calls on a `ZoomResponseBuilder(a)`, `Build` returns an envelope with
platform "windows" and action `a`; `isSuccess` is the argument of the last
`Success` call (false without one), `message` the argument of the last
`Message` call (empty without one), and in `params` each key holds the value of
its last `Param` call and no other key holds anything.  `ToEncodableMap` of an
envelope has exactly the five keys platform, isSuccess, action, message and
params with the values of the envelope.  The envelopes of `InitZoom`,
`AuthZoom`, `JoinMeeting` and `UnInitZoom` have the name of the method as
action. -/
theorem builder_sequence (a : String) (calls : List ZoomResponseBuilderCall) :
    ((calls.foldl ZoomResponseBuilder.call (ZoomResponseBuilder.new a)).Build.platform
        = "windows" ∧
      (calls.foldl ZoomResponseBuilder.call (ZoomResponseBuilder.new a)).Build.action = a) ∧
    ((∀ pre post success, calls = pre ++ ZoomResponseBuilderCall.Success success :: post →
        (∀ c ∈ post, ∀ x, c ≠ ZoomResponseBuilderCall.Success x) →
        (calls.foldl ZoomResponseBuilder.call (ZoomResponseBuilder.new a)).Build.isSuccess
          = success) ∧
      ((∀ c ∈ calls, ∀ x, c ≠ ZoomResponseBuilderCall.Success x) →
        (calls.foldl ZoomResponseBuilder.call (ZoomResponseBuilder.new a)).Build.isSuccess
          = false)) ∧
    ((∀ pre post message, calls = pre ++ ZoomResponseBuilderCall.Message message :: post →
        (∀ c ∈ post, ∀ x, c ≠ ZoomResponseBuilderCall.Message x) →
        (calls.foldl ZoomResponseBuilder.call (ZoomResponseBuilder.new a)).Build.message
          = message) ∧
      ((∀ c ∈ calls, ∀ x, c ≠ ZoomResponseBuilderCall.Message x) →
        (calls.foldl ZoomResponseBuilder.call (ZoomResponseBuilder.new a)).Build.message
          = "")) ∧
    ((∀ pre post key value, calls = pre ++ ZoomResponseBuilderCall.Param key value :: post →
        (∀ c ∈ post, ∀ x, c ≠ ZoomResponseBuilderCall.Param key x) →
        EncodableMap.find
          (calls.foldl ZoomResponseBuilder.call (ZoomResponseBuilder.new a)).Build.params
          (.string key) = some value) ∧
      (∀ key, (∀ c ∈ calls, ∀ x, c ≠ ZoomResponseBuilderCall.Param key x) →
        EncodableMap.find
          (calls.foldl ZoomResponseBuilder.call (ZoomResponseBuilder.new a)).Build.params
          (.string key) = none) ∧
      (∀ k : EncodableValue, (∀ key, k ≠ .string key) →
        EncodableMap.find
          (calls.foldl ZoomResponseBuilder.call (ZoomResponseBuilder.new a)).Build.params
          k = none)) ∧
    (∀ r : ZoomResponse,
      r.ToEncodableMap =
        [(.string "platform", .string r.platform), (.string "isSuccess", .bool r.isSuccess),
         (.string "action", .string r.action), (.string "message", .string r.message),
         (.string "params", .map r.params)]) ∧
    (∀ (value : SDKErrorName → SDKError) (sdk : ZoomSDK) (s : PluginState) (token : WString)
      (meetingNumber : Nat) (password displayName : WString) (webinarToken : Option WString),
      (InitZoom value sdk s).1.action = "initZoom" ∧
      (AuthZoom value sdk token s).1.action = "authZoom" ∧
      (JoinMeeting value sdk meetingNumber password displayName webinarToken s).1.action
        = "joinMeeting" ∧
      (UnInitZoom value sdk s).1.action = "unInitZoom") := by
  have hparam : ∀ (key : String) (d : ZoomResponseBuilderCall),
      (∀ x, d ≠ ZoomResponseBuilderCall.Param key x) → ∀ b : ZoomResponseBuilder,
      EncodableMap.find (b.call d).params_ (.string key)
        = EncodableMap.find b.params_ (.string key) := by
    intro key d hd b
    cases d with
    | Success x => rfl
    | Message x => rfl
    | Param k2 x =>
      have hne : k2 ≠ key := fun h => hd x (by rw [h])
      simp [ZoomResponseBuilder.call, ZoomResponseBuilder.Param, EncodableMap.find_assign,
        EncodableValue.beq, hne]
  have hother : ∀ (k : EncodableValue), (∀ key, k ≠ .string key) →
      ∀ (d : ZoomResponseBuilderCall) (b : ZoomResponseBuilder),
      EncodableMap.find (b.call d).params_ k = EncodableMap.find b.params_ k := by
    intro k hk d b
    cases d with
    | Success x => rfl
    | Message x => rfl
    | Param k2 x =>
      have hne : ¬ EncodableValue.beq (.string k2) k = true := by
        intro h
        exact hk k2 ((EncodableValue.beq_iff _ _).1 h).symm
      simp [ZoomResponseBuilder.call, ZoomResponseBuilder.Param, EncodableMap.find_assign, hne]
  refine ⟨⟨?_, ?_⟩, ⟨?_, ?_⟩, ⟨?_, ?_⟩, ⟨?_, ?_, ?_⟩, ToEncodableMap_eq, operation_action⟩
  · exact ZoomResponseBuilder.foldl_preserve (fun b => b.platform_) calls
      (by intro c _ b; cases c <;> rfl) _
  · exact ZoomResponseBuilder.foldl_preserve (fun b => b.action_) calls
      (by intro c _ b; cases c <;> rfl) _
  · intro pre post success hcalls hpost
    rw [hcalls]
    exact ZoomResponseBuilder.foldl_last (fun b => b.success_) success pre post
      (ZoomResponseBuilderCall.Success success) (fun b => rfl)
      (by
        intro d hd b
        cases d with
        | Success x => exact absurd rfl (hpost _ hd x)
        | Message x => rfl
        | Param k x => rfl) _
  · intro hno
    exact ZoomResponseBuilder.foldl_preserve (fun b => b.success_) calls
      (by
        intro d hd b
        cases d with
        | Success x => exact absurd rfl (hno _ hd x)
        | Message x => rfl
        | Param k x => rfl) _
  · intro pre post message hcalls hpost
    rw [hcalls]
    exact ZoomResponseBuilder.foldl_last (fun b => b.message_) message pre post
      (ZoomResponseBuilderCall.Message message) (fun b => rfl)
      (by
        intro d hd b
        cases d with
        | Success x => rfl
        | Message x => exact absurd rfl (hpost _ hd x)
        | Param k x => rfl) _
  · intro hno
    exact ZoomResponseBuilder.foldl_preserve (fun b => b.message_) calls
      (by
        intro d hd b
        cases d with
        | Success x => rfl
        | Message x => exact absurd rfl (hno _ hd x)
        | Param k x => rfl) _
  · intro pre post key value hcalls hpost
    rw [hcalls]
    exact ZoomResponseBuilder.foldl_last
      (fun b => EncodableMap.find b.params_ (.string key)) (some value) pre post
      (ZoomResponseBuilderCall.Param key value)
      (by
        intro b
        simp [ZoomResponseBuilder.call, ZoomResponseBuilder.Param, EncodableMap.find_assign,
          EncodableValue.beq])
      (fun d hd b => hparam key d (hpost d hd) b) _
  · intro key hno
    exact ZoomResponseBuilder.foldl_preserve
      (fun b => EncodableMap.find b.params_ (.string key)) calls
      (fun d hd b => hparam key d (hno d hd) b) _
  · intro k hk
    exact ZoomResponseBuilder.foldl_preserve (fun b => EncodableMap.find b.params_ k) calls
      (fun d _ b => hother k hk d b) _

/-- Witness of C23: the key "statusCode" is set twice; the later value is kept. -/
theorem builder_sequence_witness :
    ([ZoomResponseBuilderCall.Param "statusCode" (.int32 1), .Success true,
        .Param "statusCode" (.int32 2), .Message "MSG"]
        = [ZoomResponseBuilderCall.Param "statusCode" (.int32 1), .Success true] ++
            ZoomResponseBuilderCall.Param "statusCode" (.int32 2) :: [.Message "MSG"] ∧
      ∀ c ∈ [ZoomResponseBuilderCall.Message "MSG"],
        ∀ x, c ≠ ZoomResponseBuilderCall.Param "statusCode" x) ∧
    EncodableMap.find
      (([ZoomResponseBuilderCall.Param "statusCode" (.int32 1), .Success true,
          .Param "statusCode" (.int32 2), .Message "MSG"].foldl ZoomResponseBuilder.call
        (ZoomResponseBuilder.new "initZoom")).Build.params)
      (.string "statusCode") = some (.int32 2) := by
  have hpost : ∀ c ∈ [ZoomResponseBuilderCall.Message "MSG"],
      ∀ x, c ≠ ZoomResponseBuilderCall.Param "statusCode" x := by
    intro c hc x
    rw [List.mem_singleton] at hc
    subst hc
    intro h
    cases h
  exact ⟨⟨rfl, hpost⟩,
    (builder_sequence "initZoom"
      [ZoomResponseBuilderCall.Param "statusCode" (.int32 1), .Success true,
        .Param "statusCode" (.int32 2), .Message "MSG"]).2.2.2.1.1
      [ZoomResponseBuilderCall.Param "statusCode" (.int32 1), .Success true]
      [.Message "MSG"] "statusCode" (.int32 2) rfl hpost⟩


/-- C22: for every login status, fail reason and account pointer,
`onLoginReturnWithReason` sends the event "onLoginReturnWithReason" whose params
hold statusCode and statusLabel of the status, failReasonCode and
failReasonLabel of the reason, and always the key accountInfo; accountInfo is
the empty map if and only if the account pointer is null, and otherwise holds
exactly loginType, loginTypeName = EnumToString(loginType) and displayName, the
display name of the account converted by `WStringToString`. -/
theorem onLoginReturnWithReason_params (l : ZoomSDKEventListenerAuthService)
    (statusValue : LOGINSTATUSName → LOGINSTATUS)
    (reasonValue : LoginFailReasonName → LoginFailReason)
    (loginTypeValue : LoginTypeName → LoginType)
    (wcstombs_s : Option Nat → WString → Nat → Nat × String)
    (ret : LOGINSTATUS) (pAccountInfo : Option IAccountInfo) (reason : LoginFailReason) :
    ∃ accountInfo : EncodableMap,
      l.onLoginReturnWithReason statusValue reasonValue loginTypeValue wcstombs_s ret
          pAccountInfo reason =
        l.base.SendEvent "onLoginReturnWithReason"
          [(.string "statusCode", .int32 ret),
           (.string "statusLabel", .string (EnumToString_LOGINSTATUS statusValue ret)),
           (.string "failReasonCode", .int32 reason),
           (.string "failReasonLabel", .string (EnumToString_LoginFailReason reasonValue reason)),
           (.string "accountInfo", .map accountInfo)] ∧
      (accountInfo = [] ↔ pAccountInfo = none) ∧
      (∀ info, pAccountInfo = some info →
        accountInfo =
          [(.string "loginType", .int32 info.GetLoginType),
           (.string "loginTypeName",
              .string (EnumToString_LoginType loginTypeValue info.GetLoginType)),
           (.string "displayName",
              .string (WStringToString wcstombs_s info.GetDisplayName))]) := by
  cases pAccountInfo with
  | none =>
    refine ⟨[], ?_, by simp, by simp⟩
    simp [ZoomSDKEventListenerAuthService.onLoginReturnWithReason, EncodableMap.assign,
      EncodableValue.beq]
  | some info =>
    refine ⟨[(.string "loginType", .int32 info.GetLoginType),
      (.string "loginTypeName",
        .string (EnumToString_LoginType loginTypeValue info.GetLoginType)),
      (.string "displayName",
        .string (WStringToString wcstombs_s info.GetDisplayName))], ?_, by simp, ?_⟩
    · simp [ZoomSDKEventListenerAuthService.onLoginReturnWithReason, EncodableMap.assign,
        EncodableValue.beq]
    · intro info2 hinfo
      cases hinfo
      rfl

/-- The push made by `SendEvent` of a listener whose handler pointer is set. -/
theorem ZoomSDKEventListenerBase.SendEvent_some (l : ZoomSDKEventListenerBase) (handler : Nat)
    (hset : l.event_handler_ = some handler) (eventName : String) (params : EncodableMap) :
    l.SendEvent eventName params =
      [(handler, .map [(.string "platform", .string "windows"),
                       (.string "event", .string eventName),
                       (.string "oriEvent", .string eventName),
                       (.string "params", .map params)])] := by
  simp [ZoomSDKEventListenerBase.SendEvent, hset, EncodableMap.assign, EncodableValue.beq]

/-- Every push made by `SendEvent` carries the event name in `event` and `oriEvent`. -/
theorem ZoomSDKEventListenerBase.SendEvent_mem (l : ZoomSDKEventListenerBase)
    (eventName : String) (params : EncodableMap) (x : Nat × EncodableValue)
    (hx : x ∈ l.SendEvent eventName params) :
    ∃ handler, x =
      (handler, .map [(.string "platform", .string "windows"),
                      (.string "event", .string eventName),
                      (.string "oriEvent", .string eventName),
                      (.string "params", .map params)]) := by
  rcases hl : l.event_handler_ with _ | handler
  · simp [ZoomSDKEventListenerBase.SendEvent, hl] at hx
  · rw [ZoomSDKEventListenerBase.SendEvent_some l handler hl, List.mem_singleton] at hx
    exact ⟨handler, hx⟩

/-- Every auth callback is one `SendEvent` under the name of the callback. -/
theorem ZoomSDKEventListenerAuthService.invoke_auth_eq (h : EnumValues)
    (wcstombs_s : Option Nat → WString → Nat → Nat × String)
    (l : ZoomSDKEventListenerAuthService) (c : IAuthServiceEvent) :
    ∃ params, l.invoke h wcstombs_s c = l.base.SendEvent c.name params := by
  cases c with
  | onAuthenticationReturn ret => exact ⟨_, rfl⟩
  | onLoginReturnWithReason ret pAccountInfo reason => exact ⟨_, rfl⟩
  | onLogout => exact ⟨_, rfl⟩
  | onZoomIdentityExpired => exact ⟨_, rfl⟩
  | onZoomAuthIdentityExpired => exact ⟨_, rfl⟩
  | onNotificationServiceStatus status error => exact ⟨_, rfl⟩

/-- Every meeting callback is one `SendEvent` under the name of the callback,
except `onMeetingParameterNotification` on a null pointer. -/
theorem ZoomSDKEventListenerMeetingService.invoke_meeting_eq (h : EnumValues)
    (wcstombs_s : Option Nat → WString → Nat → Nat × String)
    (l : ZoomSDKEventListenerMeetingService) (c : IMeetingServiceEvent)
    (hc : c ≠ IMeetingServiceEvent.onMeetingParameterNotification none) :
    ∃ params, l.invoke h wcstombs_s c = l.base.SendEvent c.name params := by
  cases c with
  | onMeetingStatusChanged status iResult => exact ⟨_, rfl⟩
  | onMeetingStatisticsWarningNotification type => exact ⟨_, rfl⟩
  | onMeetingParameterNotification meeting_param =>
    cases meeting_param with
    | none => exact absurd rfl hc
    | some p => exact ⟨_, rfl⟩
  | onSuspendParticipantsActivities => exact ⟨_, rfl⟩
  | onAICompanionActiveChangeNotice bActive => exact ⟨_, rfl⟩
  | onMeetingTopicChanged sTopic => exact ⟨_, rfl⟩
  | onMeetingFullToWatchLiveStream sLiveStreamUrl => exact ⟨_, rfl⟩

/-- Witness of C22: a login result with the account of "Ann", of login type 1. -/
theorem onLoginReturnWithReason_params_witness :
    ∃ accountInfo : EncodableMap,
      ({ base := { event_handler_ := some 7 } }
          : ZoomSDKEventListenerAuthService).onLoginReturnWithReason
          (fun e => (e.toCtorIdx : Int)) (fun e => (e.toCtorIdx : Int))
          (fun e => (e.toCtorIdx : Int)) (fun _ _ _ => (4, "Ann")) 2
          (some { GetDisplayName := L "Ann", GetLoginType := 1 }) 0 =
        ({ event_handler_ := some 7 } : ZoomSDKEventListenerBase).SendEvent
          "onLoginReturnWithReason"
          [(.string "statusCode", .int32 2),
           (.string "statusLabel",
              .string (EnumToString_LOGINSTATUS (fun e => (e.toCtorIdx : Int)) 2)),
           (.string "failReasonCode", .int32 0),
           (.string "failReasonLabel",
              .string (EnumToString_LoginFailReason (fun e => (e.toCtorIdx : Int)) 0)),
           (.string "accountInfo", .map accountInfo)] ∧
      accountInfo ≠ [] := by
  obtain ⟨accountInfo, heq, hiff, -⟩ :=
    onLoginReturnWithReason_params { base := { event_handler_ := some 7 } }
      (fun e => (e.toCtorIdx : Int)) (fun e => (e.toCtorIdx : Int))
      (fun e => (e.toCtorIdx : Int)) (fun _ _ _ => (4, "Ann")) 2
      (some { GetDisplayName := L "Ann", GetLoginType := 1 }) 0
  exact ⟨accountInfo, heq, fun hempty => by cases hiff.1 hempty⟩

/-- Counterexample to C21 as stated: with a handler set,
`onMeetingParameterNotification` called with a null parameter pointer emits no
event at all, so not every callback emits an event named after itself. -/
theorem callback_event_counterexample :
    ({ base := { event_handler_ := some 7 } }
        : ZoomSDKEventListenerMeetingService).base.event_handler_ = some 7 ∧
    ({ base := { event_handler_ := some 7 } }
        : ZoomSDKEventListenerMeetingService).onMeetingParameterNotification
        (fun e => (e.toCtorIdx : Int)) (fun _ _ _ => (1, "")) none = [] := by
  exact ⟨rfl, rfl⟩

/-- C21 (amended): every callback of the two listener adapters hands to
`SendEvent` exactly the name of the callback, except
`onMeetingParameterNotification` called with a null parameter pointer, which
emits nothing.  Every event a callback emits therefore carries, in `event` and
`oriEvent`, one of the thirteen listed names, and with a handler set each of
the thirteen names is emitted by some callback.  The four stubbed meeting
callbacks hand an empty params map to `SendEvent` for every value of their
arguments. -/
theorem callback_event_names (h : EnumValues)
    (wcstombs_s : Option Nat → WString → Nat → Nat × String)
    (la : ZoomSDKEventListenerAuthService) (lm : ZoomSDKEventListenerMeetingService) :
    (∀ c : IAuthServiceEvent,
      ∃ params, la.invoke h wcstombs_s c = la.base.SendEvent c.name params) ∧
    (∀ c : IMeetingServiceEvent, c ≠ IMeetingServiceEvent.onMeetingParameterNotification none →
      ∃ params, lm.invoke h wcstombs_s c = lm.base.SendEvent c.name params) ∧
    lm.invoke h wcstombs_s (.onMeetingParameterNotification none) = [] ∧
    (∀ x : Nat × EncodableValue,
      ((∃ c, x ∈ la.invoke h wcstombs_s c) ∨ (∃ c, x ∈ lm.invoke h wcstombs_s c)) →
      ∃ n ∈
        ["onAuthenticationReturn", "onLoginReturnWithReason", "onLogout",
         "onZoomIdentityExpired", "onZoomAuthIdentityExpired", "onNotificationServiceStatus",
         "onMeetingStatusChanged", "onMeetingStatisticsWarningNotification",
         "onMeetingParameterNotification", "onSuspendParticipantsActivities",
         "onAICompanionActiveChangeNotice", "onMeetingTopicChanged",
         "onMeetingFullToWatchLiveStream"],
        ∃ handler params, x =
          (handler, .map [(.string "platform", .string "windows"), (.string "event", .string n),
                          (.string "oriEvent", .string n), (.string "params", .map params)])) ∧
    (∀ handler, la.base.event_handler_ = some handler → lm.base.event_handler_ = some handler →
      ∀ n ∈
        ["onAuthenticationReturn", "onLoginReturnWithReason", "onLogout",
         "onZoomIdentityExpired", "onZoomAuthIdentityExpired", "onNotificationServiceStatus",
         "onMeetingStatusChanged", "onMeetingStatisticsWarningNotification",
         "onMeetingParameterNotification", "onSuspendParticipantsActivities",
         "onAICompanionActiveChangeNotice", "onMeetingTopicChanged",
         "onMeetingFullToWatchLiveStream"],
        ∃ params,
          (∃ c, la.invoke h wcstombs_s c =
            [(handler, .map [(.string "platform", .string "windows"),
                             (.string "event", .string n), (.string "oriEvent", .string n),
                             (.string "params", .map params)])]) ∨
          (∃ c, lm.invoke h wcstombs_s c =
            [(handler, .map [(.string "platform", .string "windows"),
                             (.string "event", .string n), (.string "oriEvent", .string n),
                             (.string "params", .map params)])])) ∧
    (lm.onSuspendParticipantsActivities
        = lm.base.SendEvent "onSuspendParticipantsActivities" [] ∧
      (∀ bActive, lm.onAICompanionActiveChangeNotice bActive
        = lm.base.SendEvent "onAICompanionActiveChangeNotice" []) ∧
      (∀ sTopic, lm.onMeetingTopicChanged sTopic
        = lm.base.SendEvent "onMeetingTopicChanged" []) ∧
      (∀ sLiveStreamUrl, lm.onMeetingFullToWatchLiveStream sLiveStreamUrl
        = lm.base.SendEvent "onMeetingFullToWatchLiveStream" [])) := by
  refine ⟨ZoomSDKEventListenerAuthService.invoke_auth_eq h wcstombs_s la,
    ZoomSDKEventListenerMeetingService.invoke_meeting_eq h wcstombs_s lm, rfl, ?_, ?_,
    ⟨rfl, fun _ => rfl, fun _ => rfl, fun _ => rfl⟩⟩
  · rintro x (⟨c, hx⟩ | ⟨c, hx⟩)
    · obtain ⟨params, heq⟩ := ZoomSDKEventListenerAuthService.invoke_auth_eq h wcstombs_s la c
      rw [heq] at hx
      obtain ⟨handler, rfl⟩ := ZoomSDKEventListenerBase.SendEvent_mem _ _ _ _ hx
      refine ⟨c.name, ?_, handler, params, rfl⟩
      cases c <;> simp [IAuthServiceEvent.name]
    · by_cases hc : c = IMeetingServiceEvent.onMeetingParameterNotification none
      · subst hc
        cases hx
      · obtain ⟨params, heq⟩ :=
          ZoomSDKEventListenerMeetingService.invoke_meeting_eq h wcstombs_s lm c hc
        rw [heq] at hx
        obtain ⟨handler, rfl⟩ := ZoomSDKEventListenerBase.SendEvent_mem _ _ _ _ hx
        refine ⟨c.name, ?_, handler, params, rfl⟩
        cases c <;> simp [IMeetingServiceEvent.name]
  · intro handler hla hlm n hn
    simp only [List.mem_cons, List.mem_singleton, List.not_mem_nil, or_false] at hn
    rcases hn with rfl | rfl | rfl | rfl | rfl | rfl | rfl | rfl | rfl | rfl | rfl | rfl | rfl
    · obtain ⟨params, heq⟩ := ZoomSDKEventListenerAuthService.invoke_auth_eq h wcstombs_s la
        (IAuthServiceEvent.onAuthenticationReturn 0)
      refine ⟨params, Or.inl ⟨IAuthServiceEvent.onAuthenticationReturn 0, ?_⟩⟩
      rw [heq, ZoomSDKEventListenerBase.SendEvent_some _ handler hla]
      rfl
    · obtain ⟨params, heq⟩ := ZoomSDKEventListenerAuthService.invoke_auth_eq h wcstombs_s la
        (IAuthServiceEvent.onLoginReturnWithReason 0 none 0)
      refine ⟨params, Or.inl ⟨IAuthServiceEvent.onLoginReturnWithReason 0 none 0, ?_⟩⟩
      rw [heq, ZoomSDKEventListenerBase.SendEvent_some _ handler hla]
      rfl
    · obtain ⟨params, heq⟩ := ZoomSDKEventListenerAuthService.invoke_auth_eq h wcstombs_s la
        (IAuthServiceEvent.onLogout)
      refine ⟨params, Or.inl ⟨IAuthServiceEvent.onLogout, ?_⟩⟩
      rw [heq, ZoomSDKEventListenerBase.SendEvent_some _ handler hla]
      rfl
    · obtain ⟨params, heq⟩ := ZoomSDKEventListenerAuthService.invoke_auth_eq h wcstombs_s la
        (IAuthServiceEvent.onZoomIdentityExpired)
      refine ⟨params, Or.inl ⟨IAuthServiceEvent.onZoomIdentityExpired, ?_⟩⟩
      rw [heq, ZoomSDKEventListenerBase.SendEvent_some _ handler hla]
      rfl
    · obtain ⟨params, heq⟩ := ZoomSDKEventListenerAuthService.invoke_auth_eq h wcstombs_s la
        (IAuthServiceEvent.onZoomAuthIdentityExpired)
      refine ⟨params, Or.inl ⟨IAuthServiceEvent.onZoomAuthIdentityExpired, ?_⟩⟩
      rw [heq, ZoomSDKEventListenerBase.SendEvent_some _ handler hla]
      rfl
    · obtain ⟨params, heq⟩ := ZoomSDKEventListenerAuthService.invoke_auth_eq h wcstombs_s la
        (IAuthServiceEvent.onNotificationServiceStatus 0 0)
      refine ⟨params, Or.inl ⟨IAuthServiceEvent.onNotificationServiceStatus 0 0, ?_⟩⟩
      rw [heq, ZoomSDKEventListenerBase.SendEvent_some _ handler hla]
      rfl
    · obtain ⟨params, heq⟩ := ZoomSDKEventListenerMeetingService.invoke_meeting_eq h wcstombs_s lm
        (IMeetingServiceEvent.onMeetingStatusChanged 0 0)
        (by intro hcontra; cases hcontra)
      refine ⟨params, Or.inr ⟨IMeetingServiceEvent.onMeetingStatusChanged 0 0, ?_⟩⟩
      rw [heq, ZoomSDKEventListenerBase.SendEvent_some _ handler hlm]
      rfl
    · obtain ⟨params, heq⟩ := ZoomSDKEventListenerMeetingService.invoke_meeting_eq h wcstombs_s lm
        (IMeetingServiceEvent.onMeetingStatisticsWarningNotification 0)
        (by intro hcontra; cases hcontra)
      refine ⟨params, Or.inr ⟨IMeetingServiceEvent.onMeetingStatisticsWarningNotification 0, ?_⟩⟩
      rw [heq, ZoomSDKEventListenerBase.SendEvent_some _ handler hlm]
      rfl
    · obtain ⟨params, heq⟩ := ZoomSDKEventListenerMeetingService.invoke_meeting_eq h wcstombs_s lm
        (IMeetingServiceEvent.onMeetingParameterNotification
        (some { meeting_type := 0, is_view_only := false, is_auto_recording_local := false,
                is_auto_recording_cloud := false, meeting_number := 0, meeting_topic := none,
                meeting_host := none }))
        (by intro hcontra; cases hcontra)
      refine ⟨params, Or.inr ⟨IMeetingServiceEvent.onMeetingParameterNotification
          (some { meeting_type := 0, is_view_only := false, is_auto_recording_local := false,
                  is_auto_recording_cloud := false, meeting_number := 0, meeting_topic := none,
                  meeting_host := none }), ?_⟩⟩
      rw [heq, ZoomSDKEventListenerBase.SendEvent_some _ handler hlm]
      rfl
    · obtain ⟨params, heq⟩ := ZoomSDKEventListenerMeetingService.invoke_meeting_eq h wcstombs_s lm
        (IMeetingServiceEvent.onSuspendParticipantsActivities)
        (by intro hcontra; cases hcontra)
      refine ⟨params, Or.inr ⟨IMeetingServiceEvent.onSuspendParticipantsActivities, ?_⟩⟩
      rw [heq, ZoomSDKEventListenerBase.SendEvent_some _ handler hlm]
      rfl
    · obtain ⟨params, heq⟩ := ZoomSDKEventListenerMeetingService.invoke_meeting_eq h wcstombs_s lm
        (IMeetingServiceEvent.onAICompanionActiveChangeNotice false)
        (by intro hcontra; cases hcontra)
      refine ⟨params, Or.inr ⟨IMeetingServiceEvent.onAICompanionActiveChangeNotice false, ?_⟩⟩
      rw [heq, ZoomSDKEventListenerBase.SendEvent_some _ handler hlm]
      rfl
    · obtain ⟨params, heq⟩ := ZoomSDKEventListenerMeetingService.invoke_meeting_eq h wcstombs_s lm
        (IMeetingServiceEvent.onMeetingTopicChanged none)
        (by intro hcontra; cases hcontra)
      refine ⟨params, Or.inr ⟨IMeetingServiceEvent.onMeetingTopicChanged none, ?_⟩⟩
      rw [heq, ZoomSDKEventListenerBase.SendEvent_some _ handler hlm]
      rfl
    · obtain ⟨params, heq⟩ := ZoomSDKEventListenerMeetingService.invoke_meeting_eq h wcstombs_s lm
        (IMeetingServiceEvent.onMeetingFullToWatchLiveStream none)
        (by intro hcontra; cases hcontra)
      refine ⟨params, Or.inr ⟨IMeetingServiceEvent.onMeetingFullToWatchLiveStream none, ?_⟩⟩
      rw [heq, ZoomSDKEventListenerBase.SendEvent_some _ handler hlm]
      rfl

/-- Witness of C21 (amended): listeners bound to the handler at address 7; the
name "onLogout" is among the thirteen and is emitted. -/
theorem callback_event_names_witness :
    (({ base := { event_handler_ := some 7 } }
        : ZoomSDKEventListenerAuthService).base.event_handler_ = some 7 ∧
      ({ base := { event_handler_ := some 7 } }
        : ZoomSDKEventListenerMeetingService).base.event_handler_ = some 7) ∧
    ({ base := { event_handler_ := some 7 } }
        : ZoomSDKEventListenerMeetingService).onMeetingTopicChanged (some (L "topic"))
      = ({ event_handler_ := some 7 } : ZoomSDKEventListenerBase).SendEvent
          "onMeetingTopicChanged" [] :=
  ⟨⟨rfl, rfl⟩,
    (callback_event_names
      { SDKError := fun e => (e.toCtorIdx : Int),
        AuthResult := fun e => (e.toCtorIdx : Int),
        LOGINSTATUS := fun e => (e.toCtorIdx : Int),
        LoginFailReason := fun e => (e.toCtorIdx : Int),
        SDKNotificationServiceStatus := fun e => (e.toCtorIdx : Int),
        SDKNotificationServiceError := fun e => (e.toCtorIdx : Int),
        LoginType := fun e => (e.toCtorIdx : Int),
        MeetingStatus := fun e => (e.toCtorIdx : Int),
        MeetingFailCode := fun e => (e.toCtorIdx : Int),
        MeetingEndReason := fun e => (e.toCtorIdx : Int),
        StatisticsWarningType := fun e => (e.toCtorIdx : Int),
        MeetingType := fun e => (e.toCtorIdx : Int) }
      (fun _ _ _ => (1, "")) { base := { event_handler_ := some 7 } }
      { base := { event_handler_ := some 7 } }).2.2.2.2.2.2.2.1 (some (L "topic"))⟩

end FlutterZoomMeetingSdk
